import Mathlib

/-!
Attendance system: list queries, seed-absent, mark-attendance and import.

A shallow embedding of the Express route handlers of the backend
(`routes/students.js`, `routes/attendance.js`, `routes/reports.js`,
`routes/sessions.js`, `routes/admins.js`, `routes/auth.js`) and of
`middleware/auth.js`, together with the SQL statements they send to the
database.

* JavaScript numbers that hold integers are `Int`/`Nat`; the quotient
  `total / perPage` is taken in `ℚ` (exact; the magnitudes a row count can
  reach are far below the range where a double rounds an integer quotient
  across an integer).  The page of a request has no upper bound, so the page
  window is computed in doubles as well (`numberWindow`); the two agree
  while page times per_page is below 2^53.
* A table is the list of its rows.  SQL conditions are three-valued
  (`Option Bool`, `none` being NULL) and a WHERE / HAVING clause keeps the
  rows whose condition is TRUE.
* What the database engine is free to choose (the collation of the text
  columns, the cast used to compare an integer column with a string literal,
  the order in which an ORDER BY returns its rows) is collected in `Engine`.
-/

namespace AttendanceSystem

/-! ## JavaScript helpers -/

/-- The characters `parseInt` skips at the start of its input (ECMAScript
`StrWhiteSpaceChar`: white space and line terminators). -/
def isJsWhiteSpace (c : Char) : Bool :=
  let n := c.toNat
  n == 0x09 || n == 0x0A || n == 0x0B || n == 0x0C || n == 0x0D || n == 0x20 ||
  n == 0xA0 || n == 0x1680 || (0x2000 ≤ n && n ≤ 0x200A) || n == 0x2028 ||
  n == 0x2029 || n == 0x202F || n == 0x205F || n == 0x3000 || n == 0xFEFF

/-- The value of a run of decimal digits. -/
def digitsValue (ds : List Char) : Nat :=
  ds.foldl (fun acc d => 10 * acc + (d.toNat - 48)) 0

/-- `parseInt(s, 10)`: skip leading white space, read an optional sign, then
the longest run of decimal digits; `none` is NaN (no digit was read). -/
def parseInt (s : String) : Option Int :=
  let cs := s.toList.dropWhile isJsWhiteSpace
  let neg : Bool := cs.head? == some '-'
  let body : List Char :=
    match cs with
    | [] => []
    | c :: r => if c = '-' ∨ c = '+' then r else c :: r
  let ds := body.takeWhile Char.isDigit
  if ds.isEmpty then none
  else if neg then some (-(digitsValue ds : Int)) else some (digitsValue ds : Int)

/-- `parseInt(v, 10)` of a query parameter that may be absent: `undefined`
is converted to the string "undefined", which has no digit. -/
def parseIntParam (v : Option String) : Option Int :=
  match v with
  | none => none
  | some s => parseInt s

/-- The JavaScript expression `x || d` for a number `x`: NaN and 0 are
falsy. -/
def orDefault (x : Option Int) (d : Int) : Int :=
  match x with
  | none => d
  | some n => if n = 0 then d else n

/-- The page window computed by a list handler. -/
structure PageWindow where
  pg : Int
  perPage : Int
  offset : Int
deriving DecidableEq, Repr

/-- Lines 48-51 of `routes/students.js` and 20-23 of `routes/attendance.js`:
`pg = Math.max(1, parseInt(page, 10) || 1)`,
`perPageRaw = Math.max(1, parseInt(per_page, 10) || 10)`,
`perPage = Math.min(perPageRaw, 100)`, `offset = (pg - 1) * perPage`. -/
def pageWindow (page per_page : String) : PageWindow :=
  let pg := max 1 (orDefault (parseInt page) 1)
  let perPageRaw := max 1 (orDefault (parseInt per_page) 10)
  let perPage := min perPageRaw 100
  { pg := pg, perPage := perPage, offset := (pg - 1) * perPage }

/-- Lines 125-134 of `routes/reports.js`:
`if (Number.isNaN(page) || page < 1) page = 1`,
`if (Number.isNaN(perPage) || perPage < 1 || perPage > 200) perPage = 10`,
`offset = (page - 1) * perPage`. -/
def reportWindow (page per_page : Option String) : PageWindow :=
  let pg : Int :=
    match parseIntParam page with
    | none => 1
    | some n => if n < 1 then 1 else n
  let perPage : Int :=
    match parseIntParam per_page with
    | none => 10
    | some n => if n < 1 ∨ n > 200 then 10 else n
  { pg := pg, perPage := perPage, offset := (pg - 1) * perPage }

/-- `Math.ceil(a / b)` for an integer `a` and a positive integer `b`, in
integer arithmetic: the quotient rounded towards plus infinity.  (Every
caller passes a page size, which is at least 1.) -/
def ceilDiv (a b : Int) : Int :=
  -((-a) / b)

/-- `Math.max(1, Math.ceil(total / perPage))`. -/
def totalPages (total : Nat) (perPage : Int) : Int :=
  max 1 (ceilDiv (total : Int) perPage)

/-! ## Tables -/

/-- A row of `students` (the columns the list query reads). -/
structure Student where
  id : Nat
  name : Option String
  father_name : Option String
  last_name : Option String
  address : Option String
  phone : Option String
  birthdate : Option String
  gender : Option String
  source : Option String
  graduation_year : Option Int
  notes : Option String
deriving DecidableEq, Repr

/-- The two values the code ever writes to `attendance.status`. -/
inductive Status where
  | Present
  | Absent
deriving DecidableEq, Repr

/-- A row of `attendance`; `(session_id, student_id)` is its unique key. -/
structure AttendanceRow where
  session_id : Nat
  student_id : Nat
  status : Status
  marked_at : Option Nat
deriving DecidableEq, Repr

/-- A row of `sessions`. -/
structure Session where
  id : Nat
  title : String
  session_date : String
deriving DecidableEq, Repr

/-- The database: each table is the list of its rows. -/
structure Db where
  students : List Student
  sessions : List Session
  attendance : List AttendanceRow
deriving DecidableEq, Repr

/-- The primary key of `students`: no two rows share an id. -/
def Db.StudentKey (db : Db) : Prop :=
  (db.students.map (fun s => s.id)).Nodup

/-- The unique key of `attendance`: no two rows share
`(session_id, student_id)`. -/
def UniqueKey (att : List AttendanceRow) : Prop :=
  (att.map (fun a => (a.session_id, a.student_id))).Nodup

instance (db : Db) : Decidable db.StudentKey := by
  unfold Db.StudentKey; infer_instance

instance (att : List AttendanceRow) : Decidable (UniqueKey att) := by
  unfold UniqueKey; infer_instance

/-! ## Result rows -/

/-- A row of the students list: the eleven selected columns of the student
and the two aggregated counts. -/
structure StudentListRow where
  student : Student
  present_count : Nat
  absent_count : Nat
deriving DecidableEq, Repr

/-- A row of the attendance-by-session list. -/
structure AttendanceListRow where
  session_id : Nat
  student_id : Nat
  status : Status
  marked_at : Option Nat
  name : Option String
  phone : Option String
deriving DecidableEq, Repr

/-- A row the page query of students-by-count returns. -/
structure CountRow where
  id : Nat
  name : Option String
  phone : Option String
  present_count : Nat
  absent_count : Nat
deriving DecidableEq, Repr

/-- A row of the students-by-count response (`rows.map(r => ...)`); the
derived floating-point field `percent_present` is left out. -/
structure ReportRow where
  id : Nat
  name : Option String
  phone : Option String
  present_count : Nat
  absent_count : Nat
  total : Nat
deriving DecidableEq, Repr

/-- The body `{ page, per_page, total, total_pages, rows }` of a list
response. -/
structure PageResult (ρ : Type) where
  page : Int
  per_page : Int
  total : Nat
  total_pages : Int
  rows : List ρ
deriving DecidableEq, Repr

/-- The body of the students-by-count response. -/
structure CountReport where
  present : Int
  absent : Int
  page : Int
  per_page : Int
  total : Nat
  total_pages : Int
  rows : List ReportRow
deriving DecidableEq, Repr

/-- The outcome of a handler: the JSON body of a 2xx response, or the status
and message of an error response. -/
inductive Reply (β : Type) where
  | ok (body : β)
  | error (status : Nat) (message : String)
deriving DecidableEq, Repr

/-! ## SQL conditions -/

/-- SQL `OR` on three-valued conditions. -/
def sqlOr : Option Bool → Option Bool → Option Bool
  | some true, _ => some true
  | _, some true => some true
  | some false, some false => some false
  | _, _ => none

/-- SQL `AND` on three-valued conditions. -/
def sqlAnd : Option Bool → Option Bool → Option Bool
  | some false, _ => some false
  | _, some false => some false
  | some true, some true => some true
  | _, _ => none

/-- A WHERE or HAVING clause keeps a row when its condition is TRUE (not
when it is FALSE or NULL). -/
def holds (c : Option Bool) : Bool :=
  c == some true

/-- `COALESCE(x, d)`. -/
def coalesce (x : Option Nat) (d : Nat) : Nat :=
  match x with
  | some v => v
  | none => d

/-- The aggregate `SUM`: NULL values are ignored and the sum of no value at
all is NULL. -/
def sqlSum (vs : List (Option Nat)) : Option Nat :=
  match vs.filterMap id with
  | [] => none
  | v :: r => some (v + r.sum)

/-- Remove trailing spaces. -/
def stripTrailingSpaces (cs : List Char) : List Char :=
  (cs.reverse.dropWhile (fun c => c == ' ')).reverse

/-- `text LIKE pattern` on characters already mapped to their collation
weights by `fold`: `%` matches any run of characters, `_` any one character,
a backslash makes the pattern character after it literal (a backslash that
ends the pattern stands for itself), any other character matches the
characters of the same weight. -/
def likeMatch (fold : Char → Char) : List Char → List Char → Bool
  | [], t => t.isEmpty
  | c :: p, t =>
    if c = '%' then t.tails.any (fun u => likeMatch fold p u)
    else if c = '_' then
      match t with
      | [] => false
      | _ :: u => likeMatch fold p u
    else if c = '\\' then
      match t with
      | [] => false
      | x :: u =>
        match p with
        | [] => fold x == fold '\\' && u.isEmpty
        | d :: q => fold x == fold d && likeMatch fold q u
    else
      match t with
      | [] => false
      | x :: u => fold x == fold c && likeMatch fold p u

/-- What the handlers leave to the database engine and its schema, neither of
which is part of the route code. -/
structure Engine where
  /-- The collation of the text columns: the weight of a character (the
  identity for a binary collation, case folding for a `_ci` collation). -/
  fold : Char → Char
  /-- Whether `=` ignores trailing spaces (a PAD SPACE collation). -/
  padSpace : Bool
  /-- The comparison `column = literal` of an integer column with a string
  literal (the engine casts both sides to a number). -/
  numEq : Int → String → Bool
  /-- The order in which the rows of the students list are returned for a
  given ORDER BY text. -/
  orderStudents : String → List StudentListRow → List StudentListRow
  /-- The order in which the rows of the attendance-by-session list are
  returned (`ORDER BY s.name ASC, a.student_id ASC`). -/
  orderAttendance : List AttendanceListRow → List AttendanceListRow
  /-- The order in which the rows of students-by-count are returned
  (`ORDER BY s.name ASC`). -/
  orderCounts : List CountRow → List CountRow

namespace Engine

/-- The comparison key of a string under the collation. -/
def key (E : Engine) (s : String) : List Char :=
  (if E.padSpace then stripTrailingSpaces s.toList else s.toList).map E.fold

/-- The comparison `a = b` of two strings. -/
def strEq (E : Engine) (a b : String) : Bool :=
  E.key a == E.key b

/-- The condition `col LIKE CONCAT('%', v, '%')` for a nullable column. -/
def likeContains (E : Engine) (col : Option String) (v : String) : Option Bool :=
  match col with
  | none => none
  | some text => some (likeMatch E.fold ('%' :: (v.toList ++ ['%'])) text.toList)

/-- The condition `col = v` for a nullable text column. -/
def colEq (E : Engine) (col : Option String) (v : String) : Option Bool :=
  match col with
  | none => none
  | some text => some (E.strEq text v)

/-- The condition `col = v` for a nullable integer column and a string
literal. -/
def colNumEq (E : Engine) (col : Option Int) (v : String) : Option Bool :=
  match col with
  | none => none
  | some n => some (E.numEq n v)

/-- The condition `? = ''` on a bound string parameter. -/
def isEmptyParam (E : Engine) (v : String) : Option Bool :=
  some (E.strEq v "")

end Engine


/-- An engine returns the rows it was asked to order, each exactly once, in
some order. -/
def Engine.Reorders (E : Engine) : Prop :=
  (∀ clause rows, (E.orderStudents clause rows).Perm rows) ∧
  (∀ rows, (E.orderAttendance rows).Perm rows) ∧
  (∀ rows, (E.orderCounts rows).Perm rows)

/-! ## Relational operators -/

/-- `students s LEFT JOIN attendance a ON a.student_id = s.id`: a student
without attendance is kept once, with NULL in the columns of `a`. -/
def leftJoinAttendance (students : List Student) (att : List AttendanceRow) :
    List (Student × Option AttendanceRow) :=
  students.flatMap (fun s =>
    match att.filter (fun a => a.student_id = s.id) with
    | [] => [(s, none)]
    | a :: r => (a :: r).map (fun x => (s, some x)))

/-- `attendance a JOIN students s ON s.id = a.student_id`. -/
def joinStudents (att : List AttendanceRow) (students : List Student) :
    List (AttendanceRow × Student) :=
  att.flatMap (fun a => (students.filter (fun s => s.id = a.student_id)).map (fun s => (a, s)))

/-- `GROUP BY key`: the distinct keys, each with the rows that carry it. -/
def groupRows {α κ : Type} [DecidableEq κ] (key : α → κ) (rows : List α) :
    List (κ × List α) :=
  (rows.map key).dedup.map (fun k => (k, rows.filter (fun r => key r = k)))

/-- `LIMIT limit OFFSET offset`. -/
def limitOffset {α : Type} (rows : List α) (limit offset : Int) : List α :=
  (rows.drop offset.toNat).take limit.toNat

/-- `COALESCE(SUM(a.status = st), 0)` over a group of joined rows: the
comparison is NULL on a row whose attendance columns are NULL. -/
def sumStatusEq (st : Status) (grp : List (Student × Option AttendanceRow)) : Nat :=
  coalesce (sqlSum (grp.map (fun r => r.2.map (fun a => if a.status = st then 1 else 0)))) 0

/-- `COALESCE(SUM(CASE WHEN a.status = st THEN 1 ELSE 0 END), 0)` over a
group of joined rows: the CASE yields 0 when the comparison is NULL. -/
def sumStatusCase (st : Status) (grp : List (Student × Option AttendanceRow)) : Nat :=
  coalesce (sqlSum (grp.map (fun r =>
    some (match r.2 with
      | some a => if a.status = st then 1 else 0
      | none => 0)))) 0

/-! ## GET /api/students -/

/-- The query string of `GET /api/students`; `none` is an absent parameter. -/
structure StudentsQuery where
  name : Option String
  phone : Option String
  gender : Option String
  graduation_year : Option String
  sort : Option String
  page : Option String
  per_page : Option String
deriving DecidableEq, Repr

/-- The four filter values after the destructuring defaults. -/
structure StudentsFilter where
  name : String
  phone : String
  gender : String
  graduation_year : String
deriving DecidableEq, Repr

/-- `const { name = '', phone = '', gender = '', graduation_year = '' } =
req.query`. -/
def StudentsQuery.filter (q : StudentsQuery) : StudentsFilter :=
  { name := q.name.getD "", phone := q.phone.getD "", gender := q.gender.getD "",
    graduation_year := q.graduation_year.getD "" }

/-- Lines 53-56: the ORDER BY text chosen from the `sort` parameter. -/
def orderClause (sort : String) : String :=
  if sort = "name_desc" then "s.name DESC"
  else if sort = "id_desc" then "s.id DESC"
  else if sort = "id_asc" then "s.id ASC"
  else "s.name ASC"

/-- First conjunct of the WHERE clause: `(? = '' OR s.name LIKE CONCAT('%',
?, '%') OR s.father_name LIKE CONCAT('%', ?, '%') OR s.last_name LIKE
CONCAT('%', ?, '%'))`. -/
def nameCond (E : Engine) (v : String) (s : Student) : Option Bool :=
  sqlOr (sqlOr (sqlOr (E.isEmptyParam v) (E.likeContains s.name v))
    (E.likeContains s.father_name v)) (E.likeContains s.last_name v)

/-- Second conjunct: `(? = '' OR s.phone LIKE CONCAT('%', ?, '%'))`. -/
def phoneCond (E : Engine) (v : String) (s : Student) : Option Bool :=
  sqlOr (E.isEmptyParam v) (E.likeContains s.phone v)

/-- Third conjunct: `(? = '' OR s.gender = ?)`. -/
def genderCond (E : Engine) (v : String) (s : Student) : Option Bool :=
  sqlOr (E.isEmptyParam v) (E.colEq s.gender v)

/-- Fourth conjunct: `(? = '' OR s.graduation_year = ?)`. -/
def yearCond (E : Engine) (v : String) (s : Student) : Option Bool :=
  sqlOr (E.isEmptyParam v) (E.colNumEq s.graduation_year v)

/-- The WHERE clause shared by `countSql` and `rowsSql`. -/
def studentsWhere (E : Engine) (f : StudentsFilter) (s : Student) : Option Bool :=
  sqlAnd (sqlAnd (sqlAnd (nameCond E f.name s) (phoneCond E f.phone s))
    (genderCond E f.gender s)) (yearCond E f.graduation_year s)

/-- `countSql`: `SELECT COUNT(*) AS total FROM students s WHERE ...`. -/
def studentsCount (E : Engine) (db : Db) (f : StudentsFilter) : Nat :=
  (db.students.filter (fun s => holds (studentsWhere E f s))).length

/-- `rowsSql` up to its GROUP BY: the left join, the WHERE clause, one group
per distinct value of the eleven student columns, and the two counts. -/
def studentsGrouped (E : Engine) (db : Db) (f : StudentsFilter) : List StudentListRow :=
  (groupRows (fun r => r.1)
    ((leftJoinAttendance db.students db.attendance).filter
      (fun r => holds (studentsWhere E f r.1)))).map
    (fun g =>
      { student := g.1,
        present_count := sumStatusEq Status.Present g.2,
        absent_count := sumStatusEq Status.Absent g.2 })

/-- `rowsSql` without its last line `LIMIT ? OFFSET ?`: the grouped rows,
`ORDER BY ${orderClause}`. -/
def studentsOrdered (E : Engine) (db : Db) (f : StudentsFilter) (clause : String) :
    List StudentListRow :=
  E.orderStudents clause (studentsGrouped E db f)

/-- `rowsSql`: the ordered rows, `LIMIT ? OFFSET ?`. -/
def studentsRows (E : Engine) (db : Db) (f : StudentsFilter) (clause : String)
    (limit offset : Int) : List StudentListRow :=
  limitOffset (studentsOrdered E db f clause) limit offset

/-- The handler of `GET /api/students` (lines 36-120). -/
def studentsList (E : Engine) (db : Db) (q : StudentsQuery) : PageResult StudentListRow :=
  let w := pageWindow (q.page.getD "1") (q.per_page.getD "10")
  let total := studentsCount E db q.filter
  { page := w.pg,
    per_page := w.perPage,
    total := total,
    total_pages := totalPages total w.perPage,
    rows := studentsRows E db q.filter (orderClause (q.sort.getD "name_asc")) w.perPage w.offset }

/-! ## GET /api/attendance/session/:sessionId -/

/-- The query string of the attendance-by-session list. -/
structure AttendanceQuery where
  page : Option String
  per_page : Option String
  name : Option String
  phone : Option String
deriving DecidableEq, Repr

/-- The WHERE clause of both statements: `a.session_id = ? AND (? = '' OR
s.name LIKE CONCAT('%', ?, '%')) AND (? = '' OR s.phone LIKE CONCAT('%', ?,
'%'))`.  The route parameter is taken as the session id it denotes. -/
def attendanceWhere (E : Engine) (sessionId : Nat) (name phone : String)
    (r : AttendanceRow × Student) : Option Bool :=
  sqlAnd (sqlAnd (some (decide (r.1.session_id = sessionId)))
    (sqlOr (E.isEmptyParam name) (E.likeContains r.2.name name)))
    (sqlOr (E.isEmptyParam phone) (E.likeContains r.2.phone phone))

/-- The joined rows both statements select from, filtered by the WHERE
clause. -/
def attendanceMatching (E : Engine) (db : Db) (sessionId : Nat) (name phone : String) :
    List (AttendanceRow × Student) :=
  (joinStudents db.attendance db.students).filter
    (fun r => holds (attendanceWhere E sessionId name phone r))

/-- The count statement (lines 25-35). -/
def attendanceCount (E : Engine) (db : Db) (sessionId : Nat) (name phone : String) : Nat :=
  (attendanceMatching E db sessionId name phone).length

/-- The selected columns of the page statement, for every matching row. -/
def attendanceSelected (E : Engine) (db : Db) (sessionId : Nat) (name phone : String) :
    List AttendanceListRow :=
  (attendanceMatching E db sessionId name phone).map (fun r =>
    { session_id := r.1.session_id, student_id := r.1.student_id, status := r.1.status,
      marked_at := r.1.marked_at, name := r.2.name, phone := r.2.phone })

/-- The page statement (lines 37-55) without its last line `LIMIT ?
OFFSET ?`. -/
def attendanceOrdered (E : Engine) (db : Db) (sessionId : Nat) (name phone : String) :
    List AttendanceListRow :=
  E.orderAttendance (attendanceSelected E db sessionId name phone)

/-- The page statement (lines 37-55). -/
def attendanceRows (E : Engine) (db : Db) (sessionId : Nat) (name phone : String)
    (limit offset : Int) : List AttendanceListRow :=
  limitOffset (attendanceOrdered E db sessionId name phone) limit offset

/-- The handler of `GET /api/attendance/session/:sessionId` (lines 10-63). -/
def attendanceList (E : Engine) (db : Db) (sessionId : Nat) (q : AttendanceQuery) :
    PageResult AttendanceListRow :=
  let name := q.name.getD ""
  let phone := q.phone.getD ""
  let w := pageWindow (q.page.getD "1") (q.per_page.getD "10")
  let total := attendanceCount E db sessionId name phone
  { page := w.pg,
    per_page := w.perPage,
    total := total,
    total_pages := totalPages total w.perPage,
    rows := attendanceRows E db sessionId name phone w.perPage w.offset }

/-! ## GET /api/reports/students-by-count -/

/-- The query string of students-by-count. -/
structure CountQuery where
  present : Option String
  absent : Option String
  page : Option String
  per_page : Option String
deriving DecidableEq, Repr

/-- The condition `HAVING present_count = ? AND absent_count = ?` on a
group of joined rows. -/
def havingCounts (present absent : Int) (grp : List (Student × Option AttendanceRow)) : Bool :=
  decide ((sumStatusCase Status.Present grp : Int) = present) &&
  decide ((sumStatusCase Status.Absent grp : Int) = absent)

/-- The count statement (lines 137-150): the groups of `GROUP BY s.id` that
pass the HAVING clause, counted. -/
def reportCount (db : Db) (present absent : Int) : Nat :=
  ((groupRows (fun r => r.1.id) (leftJoinAttendance db.students db.attendance)).filter
    (fun g => havingCounts present absent g.2)).length

/-- The page statement up to its HAVING clause (lines 155-166): the groups
of `GROUP BY s.id, s.name, s.phone` that pass it, with their counts. -/
def reportGrouped (db : Db) (present absent : Int) : List CountRow :=
  ((groupRows (fun r => (r.1.id, r.1.name, r.1.phone))
      (leftJoinAttendance db.students db.attendance)).filter
    (fun g => havingCounts present absent g.2)).map
    (fun g =>
      { id := g.1.1, name := g.1.2.1, phone := g.1.2.2,
        present_count := sumStatusCase Status.Present g.2,
        absent_count := sumStatusCase Status.Absent g.2 })

/-- The page statement without its last line `LIMIT ? OFFSET ?`: the grouped
rows, `ORDER BY s.name ASC`. -/
def reportOrdered (E : Engine) (db : Db) (present absent : Int) : List CountRow :=
  E.orderCounts (reportGrouped db present absent)

/-- The page statement: the ordered rows, `LIMIT ? OFFSET ?`. -/
def reportRows (E : Engine) (db : Db) (present absent limit offset : Int) : List CountRow :=
  limitOffset (reportOrdered E db present absent) limit offset

/-- The joined rows of one student: the group of that student in a GROUP BY
on `s.id`. -/
def groupOf (db : Db) (s : Student) : List (Student × Option AttendanceRow) :=
  (leftJoinAttendance db.students db.attendance).filter (fun r => decide (r.1.id = s.id))

/-- The number of attendance rows of a student that carry a given status. -/
def statusCount (db : Db) (studentId : Nat) (st : Status) : Nat :=
  (db.attendance.filter (fun a => decide (a.student_id = studentId ∧ a.status = st))).length

/-- Lines 173-187: the response row built from a result row, `total` being
`p + a`. -/
def toReportRow (r : CountRow) : ReportRow :=
  { id := r.id, name := r.name, phone := r.phone,
    present_count := r.present_count, absent_count := r.absent_count,
    total := r.present_count + r.absent_count }

/-- Line 128: `[present, absent].some(n => Number.isNaN(n) || n < 0)`. -/
def invalidCount (n : Option Int) : Bool :=
  match n with
  | none => true
  | some v => decide (v < 0)

/-- The handler of `GET /api/reports/students-by-count` (lines 122-195). -/
def studentsByCount (E : Engine) (db : Db) (q : CountQuery) : Reply CountReport :=
  let present := parseIntParam q.present
  let absent := parseIntParam q.absent
  if invalidCount present || invalidCount absent then
    Reply.error 400 "present and absent must be non-negative integers"
  else
    let p := present.getD 0
    let a := absent.getD 0
    let w := reportWindow q.page q.per_page
    let total := reportCount db p a
    Reply.ok
      { present := p, absent := a,
        page := w.pg, per_page := w.perPage,
        total := total, total_pages := totalPages total w.perPage,
        rows := (reportRows E db p a w.perPage w.offset).map toReportRow }

/-! ## POST /api/attendance/seed/:sessionId -/

/-- The students the seed statement selects: `FROM students s WHERE NOT
EXISTS (SELECT 1 FROM attendance a WHERE a.session_id = ? AND a.student_id =
s.id)`. -/
def seedCandidates (db : Db) (sessionId : Nat) : List Student :=
  db.students.filter (fun s =>
    !(db.attendance.any (fun a => decide (a.session_id = sessionId ∧ a.student_id = s.id))))

/-- The rows the seed statement inserts (lines 76-87): `INSERT INTO
attendance (session_id, student_id, status) SELECT ?, s.id, 'Absent' ...`.
The column `marked_at` is not listed, so it takes the default of the schema,
`stamp`.  The route parameter is taken as the session id it denotes. -/
def seedInserted (stamp : Option Nat) (db : Db) (sessionId : Nat) : List AttendanceRow :=
  (seedCandidates db sessionId).map (fun s =>
    { session_id := sessionId, student_id := s.id, status := Status.Absent,
      marked_at := stamp })

/-- The database after the seed statement: the selected rows are added to
`attendance`. -/
def seedAbsent (stamp : Option Nat) (db : Db) (sessionId : Nat) : Db :=
  { db with attendance := db.attendance ++ seedInserted stamp db sessionId }

/-! ## POST /api/attendance/mark -/

/-- The message of the TypeError that `const { p, ... } = req.body` throws
when `req.body` is undefined, `p` being the first property of the pattern.
The request body is undefined when the request carries no JSON body
(`express.json()` of Express 5 leaves it so). -/
def destructureError (property : String) : String :=
  "Cannot destructure property '" ++ property ++ "' of 'req.body' as it is undefined."

/-- The message of the TypeError that `req.body.p` throws when `req.body` is
undefined. -/
def readError (property : String) : String :=
  "Cannot read properties of undefined (reading '" ++ property ++ "')"

/-- The JSON object of a mark request; `none` is an absent field.  The body
of a request, `req.body`, is an `Option MarkBody`: `none` is undefined, the
request without a JSON body. -/
structure MarkBody where
  session_id : Option Nat
  student_id : Option Nat
  status : Option String
deriving DecidableEq, Repr

/-- The status a string denotes when it is one of the two accepted
literals (`['Present', 'Absent'].includes(status)`). -/
def Status.ofString (s : String) : Option Status :=
  if s = "Present" then some Status.Present
  else if s = "Absent" then some Status.Absent
  else none

/-- The mark statement (lines 105-112): `INSERT ... VALUES (?, ?, ?, NOW())
ON DUPLICATE KEY UPDATE status = VALUES(status), marked_at = NOW()`: the row
that holds the key is overwritten, and a new row is added when there is
none. -/
def upsertAttendance (sessionId studentId : Nat) (st : Status) (now : Nat) :
    List AttendanceRow → List AttendanceRow
  | [] => [{ session_id := sessionId, student_id := studentId, status := st,
             marked_at := some now }]
  | a :: rest =>
    if a.session_id = sessionId ∧ a.student_id = studentId then
      { a with status := st, marked_at := some now } :: rest
    else a :: upsertAttendance sessionId studentId st now rest

/-- The handler of `POST /api/attendance/mark` (lines 98-117) at time `now`,
for the value `body` of `req.body`: the new database and the response.  The
destructuring of line 100 is inside the `try`: on an undefined body it throws
and the catch clause answers 500 with the message of the error. -/
def markAttendance (now : Nat) (db : Db) (body : Option MarkBody) : Db × Reply Bool :=
  match body with
  | none => (db, Reply.error 500 (destructureError "session_id"))
  | some b =>
    match b.session_id, b.student_id, b.status.bind Status.ofString with
    | some sid, some stid, some st =>
      if sid = 0 ∨ stid = 0 then
        (db, Reply.error 400 "session_id, student_id, and valid status are required")
      else
        ({ db with attendance := upsertAttendance sid stid st now db.attendance },
          Reply.ok true)
    | _, _, _ => (db, Reply.error 400 "session_id, student_id, and valid status are required")

/-! ## Reading the students list page after page -/

/-- The rows of page `p` of the students list: `rowsSql` with `LIMIT perPage
OFFSET (p - 1) * perPage`. -/
def studentsPage (E : Engine) (db : Db) (f : StudentsFilter) (clause : String)
    (perPage : Int) (p : Nat) : List StudentListRow :=
  studentsRows E db f clause perPage (((p : Int) - 1) * perPage)

/-- The rows of pages 1, 2, ..., total_pages of the students list, one page
after the other, the database staying the same. -/
def studentsAllPages (E : Engine) (db : Db) (f : StudentsFilter) (clause : String)
    (perPage : Int) : List StudentListRow :=
  (List.range (totalPages (studentsCount E db f) perPage).toNat).flatMap
    (fun i => studentsPage E db f clause perPage (i + 1))

/-- Whether an attendance row is the row of the pair (session, student). -/
def AttendanceRow.hasKey (sessionId studentId : Nat) (a : AttendanceRow) : Bool :=
  decide (a.session_id = sessionId ∧ a.student_id = studentId)

/-- The database after two mark requests in succession, the first at time
`now₁` and the second at time `now₂`. -/
def markTwice (now₁ now₂ : Nat) (db : Db) (first second : Option MarkBody) : Db :=
  (markAttendance now₂ (markAttendance now₁ db first).1 second).1

/-! ## A reference engine and a sample database -/

/-- The order of two strings by code point, character after character. -/
def charsLe : List Char → List Char → Bool
  | [], _ => true
  | _ :: _, [] => false
  | a :: as, b :: bs =>
    if a.toNat < b.toNat then true
    else if b.toNat < a.toNat then false
    else charsLe as bs

/-- The order of a nullable text column, NULL first. -/
def nullableLe (a b : Option String) : Bool :=
  match a, b with
  | none, _ => true
  | some _, none => false
  | some x, some y => charsLe x.toList y.toList

/-- An engine with a binary collation that does not pad, a cast that reads
a decimal integer, and ORDER BY done by a stable insertion sort on the
ordering columns. -/
def referenceEngine : Engine where
  fold := id
  padSpace := false
  numEq := fun n v => parseInt v == some n
  orderStudents := fun clause rows =>
    if clause = "s.name DESC" then
      rows.insertionSort (fun a b => nullableLe b.student.name a.student.name = true)
    else if clause = "s.id DESC" then
      rows.insertionSort (fun a b => b.student.id ≤ a.student.id)
    else if clause = "s.id ASC" then
      rows.insertionSort (fun a b => a.student.id ≤ b.student.id)
    else
      rows.insertionSort (fun a b => nullableLe a.student.name b.student.name = true)
  orderAttendance := fun rows =>
    rows.insertionSort (fun a b =>
      (nullableLe a.name b.name && (!nullableLe b.name a.name || decide (a.student_id ≤ b.student_id))) = true)
  orderCounts := fun rows =>
    rows.insertionSort (fun a b => nullableLe a.name b.name = true)

/-- A student with the given id, name and phone, every other column NULL. -/
def sampleStudent (id : Nat) (name phone : String) : Student :=
  { id := id, name := some name, father_name := none, last_name := none, address := none,
    phone := some phone, birthdate := none, gender := none, source := none,
    graduation_year := none, notes := none }

/-- Three students, two sessions; Adam was present at session 1 and absent at
session 2, Eve was absent at session 1, Bob has no attendance. -/
def sampleDb : Db :=
  { students := [sampleStudent 1 "Adam" "80071", sampleStudent 2 "Eve" "80072",
      sampleStudent 3 "Bob" "80073"],
    sessions := [{ id := 1, title := "Week 1", session_date := "2024-01-07" },
      { id := 2, title := "Week 2", session_date := "2024-01-14" }],
    attendance := [
      { session_id := 1, student_id := 1, status := Status.Present, marked_at := some 10 },
      { session_id := 2, student_id := 1, status := Status.Absent, marked_at := none },
      { session_id := 1, student_id := 2, status := Status.Absent, marked_at := none }] }

/-- A students query with no parameter at all. -/
def emptyStudentsQuery : StudentsQuery :=
  { name := none, phone := none, gender := none, graduation_year := none, sort := none,
    page := none, per_page := none }

/-! ## The filter semantics as described -/

/-- A character that has a special meaning in a LIKE pattern. -/
def isLikeSpecial (c : Char) : Bool :=
  c == '%' || c == '_' || c == '\\'

/-- A filter value made of spaces only (the empty string included). -/
def onlySpaces (v : String) : Bool :=
  v.toList.all (fun c => c == ' ')

/-- Whether `v` occurs in `text` as a run of consecutive characters, two
characters being the same when they have the same collation weight. -/
def occursIn (fold : Char → Char) (v text : List Char) : Bool :=
  text.tails.any (fun u => (v.map fold).isPrefixOf (u.map fold))

/-- Whether a filter value is a substring of a nullable text column. -/
def isSubstringOf (E : Engine) (v : String) (col : Option String) : Bool :=
  match col with
  | none => false
  | some text => occursIn E.fold v.toList text.toList

/-- The selection in the words of the filter semantics: a student is
selected when (the name filter is empty or a substring of name, father_name
or last_name) and (the phone filter is empty or a substring of phone) and
(the gender filter is empty or gender equals it) and (the graduation_year
filter is empty or graduation_year equals it).  Substring and equality are
read under the collation and the numeric cast of the engine. -/
def describedSelection (E : Engine) (f : StudentsFilter) (s : Student) : Prop :=
  (f.name = "" ∨ isSubstringOf E f.name s.name = true ∨
    isSubstringOf E f.name s.father_name = true ∨ isSubstringOf E f.name s.last_name = true) ∧
  (f.phone = "" ∨ isSubstringOf E f.phone s.phone = true) ∧
  (f.gender = "" ∨ E.colEq s.gender f.gender = some true) ∧
  (f.graduation_year = "" ∨ E.colNumEq s.graduation_year f.graduation_year = some true)

instance (E : Engine) (f : StudentsFilter) (s : Student) :
    Decidable (describedSelection E f s) := by
  unfold describedSelection; infer_instance

/-- The reference engine with a PAD SPACE collation. -/
def paddingEngine : Engine :=
  { referenceEngine with padSpace := true }

/-! ## Page parameters as described -/

/-- The page size the clamping of the exact-count report is described to
give: `n` clamped to the range 1..200. -/
def clampedPerPage (n : Int) : Int :=
  min (max n 1) 200

/-- A page parameter that is missing, non-numeric (`parseInt` gives NaN) or
less than 1. -/
def badNumber (v : Option String) : Bool :=
  match v with
  | none => true
  | some s =>
    match parseInt s with
    | none => true
    | some n => decide (n < 1)

/-- A page parameter that is missing, non-numeric (`parseInt` gives NaN) or
zero. -/
def missingOrZero (v : Option String) : Bool :=
  match v with
  | none => true
  | some s =>
    match parseInt s with
    | none => true
    | some n => decide (n = 0)

/-- A page parameter that parses to a negative integer. -/
def isNegative (v : Option String) : Bool :=
  match v with
  | none => false
  | some s =>
    match parseInt s with
    | none => false
    | some n => decide (n < 0)

/-! ## What an ORDER BY text asks for -/

/-- The order an ORDER BY text of the students list asks for: whether row `a`
may stand before row `b` (names compared by code point, NULL first). -/
def studentsClauseLe (clause : String) (a b : StudentListRow) : Bool :=
  if clause = "s.name DESC" then nullableLe b.student.name a.student.name
  else if clause = "s.id DESC" then decide (b.student.id ≤ a.student.id)
  else if clause = "s.id ASC" then decide (a.student.id ≤ b.student.id)
  else nullableLe a.student.name b.student.name

/-- A list is a correct answer to `ORDER BY clause` over `rows`: it holds the
same rows and every row stands before the rows the text allows after it. -/
def AnswersOrderBy (clause : String) (rows result : List StudentListRow) : Prop :=
  result.Perm rows ∧ result.Pairwise (fun a b => studentsClauseLe clause a b = true)

instance (clause : String) (rows result : List StudentListRow) :
    Decidable (AnswersOrderBy clause rows result) := by
  unfold AnswersOrderBy; infer_instance

/-- A correct answer to `ORDER BY s.name ASC` over the rows of
students-by-count. -/
def AnswersOrderByName (rows result : List CountRow) : Prop :=
  result.Perm rows ∧ result.Pairwise (fun a b => nullableLe a.name b.name = true)

instance (rows result : List CountRow) : Decidable (AnswersOrderByName rows result) := by
  unfold AnswersOrderByName; infer_instance

/-- The reference engine, except that rows with equal names come out with
the larger id first. -/
def tieReversingEngine : Engine :=
  { referenceEngine with
    orderStudents := fun clause rows =>
      if clause = "s.name DESC" then
        rows.insertionSort (fun a b =>
          (nullableLe b.student.name a.student.name &&
            (!nullableLe a.student.name b.student.name ||
              decide (b.student.id ≤ a.student.id))) = true)
      else if clause = "s.id DESC" then
        rows.insertionSort (fun a b => b.student.id ≤ a.student.id)
      else if clause = "s.id ASC" then
        rows.insertionSort (fun a b => a.student.id ≤ b.student.id)
      else
        rows.insertionSort (fun a b =>
          (nullableLe a.student.name b.student.name &&
            (!nullableLe b.student.name a.student.name ||
              decide (b.student.id ≤ a.student.id))) = true)
    orderCounts := fun rows =>
      rows.insertionSort (fun a b =>
        (nullableLe a.name b.name && (!nullableLe b.name a.name || decide (b.id ≤ a.id))) = true) }

/-- Two students with the same name and no attendance. -/
def namesakesDb : Db :=
  { students := [sampleStudent 1 "Adam" "80071", sampleStudent 2 "Adam" "80072"],
    sessions := [],
    attendance := [] }

/-- Twenty-five students with the ids 1 to 25 and no attendance. -/
def classOf25 : Db :=
  { students := (List.range 25).map (fun i => sampleStudent (i + 1) "Student" "80000"),
    sessions := [],
    attendance := [] }

/-! ## Trimming -/

/-- `String.prototype.trim` on the characters of a string: white space and
line terminators are removed from both ends. -/
def trimChars (cs : List Char) : List Char :=
  ((cs.dropWhile isJsWhiteSpace).reverse.dropWhile isJsWhiteSpace).reverse

/-- `s.trim()`. -/
def jsTrim (s : String) : String :=
  String.mk (trimChars s.toList)

/-! ## GET /api/sessions and GET /api/reports/birthdays -/

/-- A row of the sessions list. -/
structure SessionListRow where
  id : Nat
  title : String
  session_date : String
  present_count : Nat
  absent_count : Nat
deriving DecidableEq, Repr

/-- `sessions s LEFT JOIN attendance a ON a.session_id = s.id`. -/
def leftJoinSessions (sessions : List Session) (att : List AttendanceRow) :
    List (Session × Option AttendanceRow) :=
  sessions.flatMap (fun s =>
    match att.filter (fun a => a.session_id = s.id) with
    | [] => [(s, none)]
    | a :: r => (a :: r).map (fun x => (s, some x)))

/-- `COALESCE(SUM(CASE WHEN a.status = st THEN 1 ELSE 0 END), 0)` over a
group of joined session rows. -/
def sumSessionCase (st : Status) (grp : List (Session × Option AttendanceRow)) : Nat :=
  coalesce (sqlSum (grp.map (fun r =>
    some (match r.2 with
      | some a => if a.status = st then 1 else 0
      | none => 0)))) 0

/-- The handler of `GET /api/sessions` (sessions.js lines 10-28): the rows of
the one statement, `ORDER BY s.session_date DESC, s.id DESC` being done by
`order`; the body of the response is the array of these rows. -/
def sessionsList (E : Engine) (order : List SessionListRow → List SessionListRow) (db : Db)
    (title : Option String) : List SessionListRow :=
  order ((groupRows (fun r => (r.1.id, r.1.title, r.1.session_date))
    ((leftJoinSessions db.sessions db.attendance).filter (fun r =>
      holds (sqlOr (E.isEmptyParam (title.getD ""))
        (E.likeContains (some r.1.title) (title.getD "")))))).map
    (fun g =>
      { id := g.1.1, title := g.1.2.1, session_date := g.1.2.2,
        present_count := sumSessionCase Status.Present g.2,
        absent_count := sumSessionCase Status.Absent g.2 }))

/-- A row of the birthdays report. -/
structure BirthdayRow where
  id : Nat
  name : Option String
  phone : Option String
  address : Option String
  birthdate : Option String
  gender : Option String
  graduation_year : Option Int
  age : Option Int
deriving DecidableEq, Repr

/-- The handler of `GET /api/reports/birthdays` (reports.js lines 71-85).
The date functions of the engine, `MONTH(birthdate)` and `TIMESTAMPDIFF(YEAR,
birthdate, CURDATE())`, are `monthOf` and `ageOf`, and `ORDER BY
DAY(birthdate), name` is done by `order`. -/
def birthdays (monthOf ageOf : String → Option Int)
    (order : List BirthdayRow → List BirthdayRow) (db : Db) (month : Option String) :
    Reply (List BirthdayRow) :=
  match parseIntParam month with
  | none => Reply.error 400 "month must be 1-12"
  | some m =>
    if m < 1 ∨ m > 12 then Reply.error 400 "month must be 1-12"
    else
      Reply.ok (order ((db.students.filter (fun s =>
        match s.birthdate with
        | none => false
        | some d => monthOf d == some m)).map
        (fun s =>
          { id := s.id, name := s.name, phone := s.phone, address := s.address,
            birthdate := s.birthdate, gender := s.gender,
            graduation_year := s.graduation_year,
            age := s.birthdate.bind ageOf })))

/-! ## Response bodies -/

/-- A JSON value. -/
inductive Json where
  | null
  | num (n : Int)
  | str (s : String)
  | arr (items : List Json)
  | obj (fields : List (String × Json))

/-- The field names of a JSON object, in order; `none` for a value that is
not an object. -/
def Json.keys : Json → Option (List String)
  | Json.obj fields => some (fields.map (fun f => f.1))
  | _ => none

/-- Whether a JSON value is an array. -/
def Json.isArray : Json → Bool
  | Json.arr _ => true
  | _ => false

/-- `res.json({ page: pg, per_page: perPage, total, total_pages: ..., rows })`
of the students list and the attendance-by-session list, rows being rendered
by `rowJson`. -/
def pageBody {ρ : Type} (rowJson : ρ → Json) (r : PageResult ρ) : Json :=
  Json.obj [("page", Json.num r.page), ("per_page", Json.num r.per_page),
    ("total", Json.num r.total), ("total_pages", Json.num r.total_pages),
    ("rows", Json.arr (r.rows.map rowJson))]

/-- `res.json({ present, absent, page, per_page: perPage, total, total_pages:
totalPages, rows: data })` of students-by-count. -/
def countReportBody (rowJson : ReportRow → Json) (b : CountReport) : Json :=
  Json.obj [("present", Json.num b.present), ("absent", Json.num b.absent),
    ("page", Json.num b.page), ("per_page", Json.num b.per_page),
    ("total", Json.num b.total), ("total_pages", Json.num b.total_pages),
    ("rows", Json.arr (b.rows.map rowJson))]

/-- `res.json(rows)` of the sessions list and of the birthdays report. -/
def rowsBody {ρ : Type} (rowJson : ρ → Json) (rows : List ρ) : Json :=
  Json.arr (rows.map rowJson)

/-- `res.status(...).json({ error: message })`. -/
def errorBody (message : String) : Json :=
  Json.obj [("error", Json.str message)]

/-- The body of the students-by-count response. -/
def countReplyBody (rowJson : ReportRow → Json) (r : Reply CountReport) : Json :=
  match r with
  | Reply.ok b => countReportBody rowJson b
  | Reply.error _ message => errorBody message

/-- The body of the birthdays response. -/
def birthdaysReplyBody (rowJson : BirthdayRow → Json) (r : Reply (List BirthdayRow)) : Json :=
  match r with
  | Reply.ok rows => rowsBody rowJson rows
  | Reply.error _ message => errorBody message

/-- The five field names of the uniform list shape. -/
def pageKeys : List String :=
  ["page", "per_page", "total", "total_pages", "rows"]

/-! ## Failing queries -/

/-- The error a `pool.query` call throws: its `code`, when it has one, and
its `message`. -/
structure DbError where
  code : Option String
  message : String
deriving DecidableEq, Repr

/-- The error of the first `pool.query` call that throws among the first `n`
calls of a request, call `k` (counted from 0) throwing `fault k`. -/
def firstFault (fault : Nat → Option DbError) : Nat → Option DbError
  | 0 => none
  | n + 1 =>
    match firstFault fault n with
    | some e => some e
    | none => fault n

/-- `catch (e) { res.status(500).json({ error: e.message }) }`: the status
and the error text of the response. -/
def catchAll (e : DbError) : Nat × String :=
  (500, e.message)

/-- The catch clause of student create and update (students.js lines 302-307
and 360-365): `if (e.code === 'ER_DUP_ENTRY') return res.status(409).json({
error: 'Duplicate (phone) detected' }); res.status(500).json({ error:
e.message })`. -/
def catchDuplicate (e : DbError) : Nat × String :=
  if e.code = some "ER_DUP_ENTRY" then (409, "Duplicate (phone) detected")
  else (500, e.message)

/-- A handler body `try { ...queries...; respond } catch (e) { ... }` with
`queries` calls of `pool.query`: the response of the catch clause for the
first call that throws, and the normal response when none does. -/
def guarded {β : Type} (queries : Nat) (onError : DbError → Nat × String)
    (fault : Nat → Option DbError) (result : Reply β) : Reply β :=
  match firstFault fault queries with
  | some e => Reply.error (onError e).1 (onError e).2
  | none => result

/-- `GET /api/students` with failing queries (count statement, page
statement; catch at lines 121-123). -/
def studentsListTry (E : Engine) (db : Db) (q : StudentsQuery)
    (fault : Nat → Option DbError) : Reply (PageResult StudentListRow) :=
  guarded 2 catchAll fault (Reply.ok (studentsList E db q))

/-- `GET /api/attendance/session/:sessionId` with failing queries (catch at
lines 64-66). -/
def attendanceListTry (E : Engine) (db : Db) (sessionId : Nat) (q : AttendanceQuery)
    (fault : Nat → Option DbError) : Reply (PageResult AttendanceListRow) :=
  guarded 2 catchAll fault (Reply.ok (attendanceList E db sessionId q))

/-- `GET /api/sessions` with a failing query (catch at lines 29-31). -/
def sessionsListTry (E : Engine) (order : List SessionListRow → List SessionListRow)
    (db : Db) (title : Option String) (fault : Nat → Option DbError) :
    Reply (List SessionListRow) :=
  guarded 1 catchAll fault (Reply.ok (sessionsList E order db title))

/-- The handlers of the students, sessions and attendance routers that call
`pool.query`. -/
inductive Route where
  | studentsList
  | studentsExport
  | studentsImport
  | studentsCreate
  | studentsUpdate
  | studentsDelete
  | studentsNotes
  | studentsGet
  | studentsSessions
  | sessionsList
  | sessionsCreate
  | sessionsUpdate
  | sessionsDelete
  | attendanceList
  | attendanceSeed
  | attendanceMark
  | attendanceExport
deriving DecidableEq, Repr

/-- The response a handler gives when one of its `pool.query` calls throws
`e`, read off the catch clause around the call; `none` for the import, whose
only query, the upsert of a row, is caught inside the loop over the rows and
leads to no error response. -/
def Route.faultResponse (r : Route) (e : DbError) : Option (Nat × String) :=
  match r with
  | Route.studentsImport => none
  | Route.studentsCreate => some (catchDuplicate e)
  | Route.studentsUpdate => some (catchDuplicate e)
  | _ => some (catchAll e)

/-! ## POST /api/students/import -/

/-- A row of the first sheet as `sheet_to_json` gives it: its cells by column
header, each cell as the text `toString()` gives. -/
abbrev SheetRow := List (String × String)

/-- `(r.A ?? r.b ?? '')`: the cell under the first of the headers that the
row has, and the empty string when it has none of them. -/
def cellOf (r : SheetRow) (headers : List String) : String :=
  (headers.findSome? (fun h => r.lookup h)).getD ""

/-- Line 219: `(r.Name ?? r.name ?? '').toString().trim()`. -/
def importName (r : SheetRow) : String :=
  jsTrim (cellOf r ["Name", "name"])

/-- Line 223: `(r.Phone ?? r.phone ?? '').toString().trim()`. -/
def importPhone (r : SheetRow) : String :=
  jsTrim (cellOf r ["Phone", "phone"])

/-- Line 230: `!name || !phone`. -/
def missingNameOrPhone (r : SheetRow) : Bool :=
  importName r == "" || importPhone r == ""

/-- The counters and messages of an import, the body of its response. -/
structure ImportResult where
  inserted : Nat
  updated : Nat
  skipped : Nat
  errors : List String
deriving DecidableEq, Repr

/-- `e.code || e.message`. -/
def codeOrMessage (e : DbError) : String :=
  match e.code with
  | some c => if c = "" then e.message else c
  | none => e.message

/-- One turn of the loop over the rows (lines 218-255), for the row `r` at
index `i`.  `upsert` is the `INSERT ... ON DUPLICATE KEY UPDATE` statement
built from the row: on a database it either throws, leaving the database as
it was, or gives the new database and `affectedRows`. -/
def importStep {σ : Type} (upsert : σ → SheetRow → Except DbError (σ × Nat)) (i : Nat)
    (st : σ × ImportResult) (r : SheetRow) : σ × ImportResult :=
  if missingNameOrPhone r = true then
    (st.1, { st.2 with
      skipped := st.2.skipped + 1,
      errors := st.2.errors ++ ["Row " ++ toString (i + 2) ++ ": missing name or phone"] })
  else
    match upsert st.1 r with
    | Except.ok (db, affectedRows) =>
      (db,
        if affectedRows = 1 then { st.2 with inserted := st.2.inserted + 1 }
        else if affectedRows = 2 then { st.2 with updated := st.2.updated + 1 }
        else st.2)
    | Except.error e =>
      (st.1, { st.2 with
        skipped := st.2.skipped + 1,
        errors := st.2.errors ++ ["Row " ++ toString (i + 2) ++ ": " ++ codeOrMessage e] })

/-- The loop `for (const [i, r] of rows.entries())` from index `i` on. -/
def importLoop {σ : Type} (upsert : σ → SheetRow → Except DbError (σ × Nat)) :
    Nat → σ × ImportResult → List SheetRow → σ × ImportResult
  | _, st, [] => st
  | i, st, r :: rest => importLoop upsert (i + 1) (importStep upsert i st r) rest

/-- The import of the rows of a sheet (lines 215-257): the database after it
and the body `{ inserted, updated, skipped, errors }` of the response. -/
def importRows {σ : Type} (upsert : σ → SheetRow → Except DbError (σ × Nat)) (db : σ)
    (rows : List SheetRow) : σ × ImportResult :=
  importLoop upsert 0 (db, { inserted := 0, updated := 0, skipped := 0, errors := [] }) rows

/-- The database after the upsert of one row, unchanged when the upsert
throws. -/
def afterUpsert {σ : Type} (upsert : σ → SheetRow → Except DbError (σ × Nat)) (db : σ)
    (r : SheetRow) : σ :=
  match upsert db r with
  | Except.ok (db', _) => db'
  | Except.error _ => db

/-- A sample upsert on the list of the phones stored: a new phone is added
(one affected row), a stored phone is updated (two affected rows), and a
name of more than ten characters is refused with ER_DATA_TOO_LONG. -/
def sampleUpsert (phones : List String) (r : SheetRow) :
    Except DbError (List String × Nat) :=
  if (importName r).length > 10 then
    Except.error { code := some "ER_DATA_TOO_LONG", message := "Data too long for column" }
  else if importPhone r ∈ phones then Except.ok (phones, 2)
  else Except.ok (phones ++ [importPhone r], 1)

/-! ## POST /api/students and PUT /api/students/:id -/

/-- `!v` for a body field that is a JSON string when it is present: absent
and null fields and the empty string are falsy. -/
def falsyText (v : Option String) : Bool :=
  match v with
  | none => true
  | some s => s == ""

/-- The JSON object of a student create or update request: name and phone,
and the other fields as they were sent.  The body of a request, `req.body`,
is an `Option StudentBody`: `none` is undefined, the request without a JSON
body. -/
structure StudentBody where
  name : Option String
  phone : Option String
  others : List (String × Option String)
deriving DecidableEq, Repr

/-- Lines 279 and 327: `!name || !phone`. -/
def StudentBody.invalid (b : StudentBody) : Bool :=
  falsyText b.name || falsyText b.phone

/-- The body `{ id: r.insertId }` of a create response with its status. -/
structure Created where
  status : Nat
  id : Nat
deriving DecidableEq, Repr

/-- The handler of `POST /api/students` (lines 264-308), for the value `body`
of `req.body`.  The destructuring of lines 266-277 is inside the `try`: on an
undefined body it throws a TypeError, which has no code, and the catch clause
answers 500 with its message.  `insert` is the INSERT statement built from
the body: on a database it either throws, leaving the database as it was, or
gives the new database and `insertId`. -/
def createStudent (insert : Db → StudentBody → Except DbError (Db × Nat)) (db : Db)
    (body : Option StudentBody) : Db × Reply Created :=
  match body with
  | none => (db, Reply.error 500 (destructureError "name"))
  | some b =>
    if b.invalid = true then (db, Reply.error 400 "Name and phone are required")
    else
      match insert db b with
      | Except.ok (db', insertId) => (db', Reply.ok { status := 201, id := insertId })
      | Except.error e => (db, Reply.error (catchDuplicate e).1 (catchDuplicate e).2)

/-- The handler of `PUT /api/students/:id` (lines 311-366), for the value
`body` of `req.body`.  The destructuring of lines 314-325 is inside the `try`:
on an undefined body it throws a TypeError and the catch clause answers 500
with its message.  `update` is the UPDATE statement built from the id and the
body; the body of the normal response is `{ ok: true }`. -/
def updateStudent (update : Db → String → StudentBody → Except DbError Db) (db : Db)
    (id : String) (body : Option StudentBody) : Db × Reply Bool :=
  match body with
  | none => (db, Reply.error 500 (destructureError "name"))
  | some b =>
    if b.invalid = true then (db, Reply.error 400 "Name and phone are required")
    else
      match update db id b with
      | Except.ok db' => (db', Reply.ok true)
      | Except.error e => (db, Reply.error (catchDuplicate e).1 (catchDuplicate e).2)

/-- A sample INSERT on the students table with a unique key on phone: a
stored phone is refused with ER_DUP_ENTRY, a new one is added under the id
after the largest id. -/
def sampleInsert (db : Db) (body : StudentBody) : Except DbError (Db × Nat) :=
  if db.students.any (fun s => s.phone == body.phone) then
    Except.error { code := some "ER_DUP_ENTRY", message := "Duplicate entry for key 'phone'" }
  else
    Except.ok
      ({ db with students := db.students ++
          [sampleStudent ((db.students.map (fun s => s.id)).foldl max 0 + 1)
            (body.name.getD "") (body.phone.getD "")] },
        (db.students.map (fun s => s.id)).foldl max 0 + 1)

/-- A sample UPDATE on the students table with a unique key on phone: the
phone of another student is refused with ER_DUP_ENTRY; otherwise the name and
phone of the student with the given id are overwritten. -/
def sampleUpdate (db : Db) (id : String) (body : StudentBody) : Except DbError Db :=
  if db.students.any (fun s => s.phone == body.phone && parseInt id != some (s.id : Int)) then
    Except.error { code := some "ER_DUP_ENTRY", message := "Duplicate entry for key 'phone'" }
  else
    Except.ok { db with students := db.students.map (fun s =>
      if parseInt id = some (s.id : Int) then { s with name := body.name, phone := body.phone }
      else s) }

/-! ## Users and admins -/

/-- A row of `users`. -/
structure User where
  id : Nat
  name : String
  email : String
  password_hash : String
  role : String
deriving DecidableEq, Repr

/-- The JSON body of an admin creation request. -/
structure AdminBody where
  name : Option String
  email : Option String
  password : Option String
deriving DecidableEq, Repr

/-- The body `{ id: r.insertId, name, email, role: 'admin' }` of the response
to an admin creation, with its status. -/
structure CreatedAdmin where
  status : Nat
  id : Nat
  name : String
  email : String
  role : String
deriving DecidableEq, Repr

/-- admins.js line 37: `String(email).toLowerCase().trim()`, the library
function `toLowerCase` being a parameter. -/
def normaliseEmail (toLowerCase : String → String) (email : String) : String :=
  jsTrim (toLowerCase email)

/-- `SELECT id FROM users WHERE email = ?`. -/
def usersWithEmail (E : Engine) (users : List User) (email : String) : List User :=
  users.filter (fun u => E.strEq u.email email)

/-- The handler of `POST /api/admins` (admins.js lines 31-59).  `hash` is
`bcrypt.hash(String(password), 10)` and `insert` is the INSERT statement with
role 'admin': on the users table it either throws, leaving the table as it
was, or gives the new table and `insertId`. -/
def createAdmin (E : Engine) (toLowerCase hash : String → String)
    (insert : List User → String → String → String → Except DbError (List User × Nat))
    (users : List User) (body : AdminBody) : List User × Reply CreatedAdmin :=
  if (falsyText body.name || falsyText body.email || falsyText body.password) = true then
    (users, Reply.error 400 "name, email and password are required")
  else if (usersWithEmail E users (normaliseEmail toLowerCase (body.email.getD ""))).length ≠ 0
  then (users, Reply.error 409 "Email already exists")
  else
    match insert users (body.name.getD "") (normaliseEmail toLowerCase (body.email.getD ""))
        (hash (body.password.getD "")) with
    | Except.ok (users', insertId) =>
      (users', Reply.ok { status := 201, id := insertId, name := body.name.getD "",
                          email := normaliseEmail toLowerCase (body.email.getD ""),
                          role := "admin" })
    | Except.error e =>
      (users,
        if e.code = some "ER_DUP_ENTRY" then Reply.error 409 "Email already exists"
        else Reply.error 500 e.message)

/-- Lower case of the ASCII letters, for the samples. -/
def asciiLower (s : String) : String :=
  String.mk (s.toList.map Char.toLower)

/-- A sample INSERT on the users table: the new admin is added under the id
after the largest id. -/
def sampleInsertUser (users : List User) (name email passwordHash : String) :
    Except DbError (List User × Nat) :=
  Except.ok
    (users ++ [{ id := (users.map (fun u => u.id)).foldl max 0 + 1, name := name,
                 email := email, password_hash := passwordHash, role := "admin" }],
      (users.map (fun u => u.id)).foldl max 0 + 1)

/-- Two admins and a viewer. -/
def sampleUsers : List User :=
  [{ id := 1, name := "Root", email := "root@example.org", password_hash := "h1",
     role := "admin" },
   { id := 2, name := "Vera", email := "vera@example.org", password_hash := "h2",
     role := "viewer" },
   { id := 3, name := "Anna", email := "anna@example.org", password_hash := "h3",
     role := "admin" }]

/-! ## Mark attendance: validation -/

/-- `!v` for an id of a mark request: an absent id and the number 0 are
falsy. -/
def falsyId (v : Option Nat) : Bool :=
  match v with
  | none => true
  | some n => n == 0

/-- attendance.js line 101: `!session_id || !student_id || !['Present',
'Absent'].includes(status)`. -/
def MarkBody.invalid (b : MarkBody) : Bool :=
  falsyId b.session_id || falsyId b.student_id ||
    !(b.status == some "Present" || b.status == some "Absent")

/-- The handler of `POST /api/attendance/mark` with a statement that may
throw (catch at lines 115-117), for the value `body` of `req.body`: the
destructuring of an undefined body throws; after the validation, the one
`pool.query` call either throws, and the database stays as it was, or does
the upsert. -/
def markAttendanceTry (now : Nat) (db : Db) (body : Option MarkBody)
    (fault : Nat → Option DbError) : Db × Reply Bool :=
  match body with
  | none => (db, Reply.error 500 (destructureError "session_id"))
  | some b =>
    if b.invalid = true then
      (db, Reply.error 400 "session_id, student_id, and valid status are required")
    else
      match fault 0 with
      | some e => (db, Reply.error 500 e.message)
      | none => markAttendance now db (some b)

/-! ## DELETE /api/admins/:id -/

/-- The payload of a verified token, `req.user`. -/
structure TokenPayload where
  id : Nat
  name : String
  email : String
  role : String
deriving DecidableEq, Repr

/-- `SELECT COUNT(*) AS c FROM users WHERE role = 'admin'`. -/
def adminCount (E : Engine) (users : List User) : Nat :=
  (users.filter (fun u => E.strEq u.role "admin")).length

/-- The handler of `DELETE /api/admins/:id` (admins.js lines 65-93) for the
requesting user `requester`: the users table after it and the response. -/
def deleteAdmin (E : Engine) (requester : Option TokenPayload) (users : List User)
    (idParam : String) : List User × Reply Bool :=
  match parseInt idParam with
  | none => (users, Reply.error 400 "Invalid id")
  | some id =>
    if requester.map (fun r => (r.id : Int)) = some id then
      (users, Reply.error 400 "You cannot delete your own account")
    else if adminCount E users ≤ 1 then
      (users, Reply.error 400 "At least one admin must remain")
    else
      match users.find? (fun u => decide ((u.id : Int) = id)) with
      | none => (users, Reply.error 404 "Admin not found")
      | some row =>
        if row.role ≠ "admin" then (users, Reply.error 400 "Target user is not an admin")
        else (users.filter (fun u => !decide ((u.id : Int) = id)), Reply.ok true)

/-! ## DELETE /api/students/:id and DELETE /api/sessions/:id -/

/-- Every attendance row references an existing student and an existing
session. -/
def Db.References (db : Db) : Prop :=
  ∀ a ∈ db.attendance,
    (∃ s ∈ db.students, s.id = a.student_id) ∧ (∃ se ∈ db.sessions, se.id = a.session_id)

instance (db : Db) : Decidable db.References := by
  unfold Db.References; infer_instance

/-- The handler of `DELETE /api/students/:id` (students.js lines 369-378):
`DELETE FROM attendance WHERE student_id = ?`, then `DELETE FROM students
WHERE id = ?`, each of which may throw (call 0 and call 1).  The route
parameter is taken as the id it denotes. -/
def deleteStudent (db : Db) (id : Nat) (fault : Nat → Option DbError) : Db × Reply Bool :=
  match fault 0 with
  | some e => (db, Reply.error 500 e.message)
  | none =>
    match fault 1 with
    | some e =>
      ({ db with attendance := db.attendance.filter (fun a => !decide (a.student_id = id)) },
        Reply.error 500 e.message)
    | none =>
      ({ db with
          attendance := db.attendance.filter (fun a => !decide (a.student_id = id)),
          students := db.students.filter (fun s => !decide (s.id = id)) },
        Reply.ok true)

/-- The handler of `DELETE /api/sessions/:id` (sessions.js lines 74-84):
`DELETE FROM attendance WHERE session_id = ?`, then `DELETE FROM sessions
WHERE id = ?`. -/
def deleteSession (db : Db) (id : Nat) (fault : Nat → Option DbError) : Db × Reply Bool :=
  match fault 0 with
  | some e => (db, Reply.error 500 e.message)
  | none =>
    match fault 1 with
    | some e =>
      ({ db with attendance := db.attendance.filter (fun a => !decide (a.session_id = id)) },
        Reply.error 500 e.message)
    | none =>
      ({ db with
          attendance := db.attendance.filter (fun a => !decide (a.session_id = id)),
          sessions := db.sessions.filter (fun s => !decide (s.id = id)) },
        Reply.ok true)

/-! ## requireAdmin -/

/-- middleware/auth.js lines 23-29: the response `requireAdmin` gives for the
value of `req.user`, `none` standing for the call of `next()`. -/
def requireAdmin (user : Option TokenPayload) : Option (Nat × String) :=
  match user with
  | none => some (401, "Unauthorized")
  | some u => if u.role ≠ "admin" then some (403, "Admin only") else none

/-- A route registered as `router.METHOD(path, requireAdmin, handler)`: the
handler runs on the database only when `requireAdmin` calls `next()`. -/
def adminOnly {σ β : Type} (user : Option TokenPayload) (handler : σ → σ × Reply β) (db : σ) :
    σ × Reply β :=
  match requireAdmin user with
  | some r => (db, Reply.error r.1 r.2)
  | none => handler db

/-- The POST, PUT and DELETE routes of the students, sessions, attendance and
admins routers. -/
inductive Mutation where
  | studentsImport
  | studentsCreate
  | studentsUpdate
  | studentsDelete
  | studentsNotes
  | sessionsCreate
  | sessionsUpdate
  | sessionsDelete
  | attendanceSeed
  | attendanceMark
  | adminsCreate
  | adminsDelete
deriving DecidableEq, Repr

/-- Whether the registration of the route names `requireAdmin` before the
handler: students.js lines 204, 264, 311, 369 and 381, sessions.js lines 36,
55 and 74, attendance.js lines 71 and 98, admins.js lines 31 and 65. -/
def Mutation.requiresAdmin : Mutation → Bool
  | Mutation.studentsImport => true
  | Mutation.studentsCreate => true
  | Mutation.studentsUpdate => true
  | Mutation.studentsDelete => true
  | Mutation.studentsNotes => true
  | Mutation.sessionsCreate => true
  | Mutation.sessionsUpdate => true
  | Mutation.sessionsDelete => true
  | Mutation.attendanceSeed => true
  | Mutation.attendanceMark => true
  | Mutation.adminsCreate => true
  | Mutation.adminsDelete => true

/-- A request to a mutation route: the middleware of its registration, then
its handler. -/
def runMutation {σ β : Type} (m : Mutation) (user : Option TokenPayload)
    (handler : σ → σ × Reply β) (db : σ) : σ × Reply β :=
  if m.requiresAdmin = true then adminOnly user handler db else handler db

/-- `POST /api/attendance/seed/:sessionId` as registered (attendance.js line
71); the body of the normal response is `{ ok: true }`. -/
def seedRoute (user : Option TokenPayload) (stamp : Option Nat) (sessionId : Nat) (db : Db) :
    Db × Reply Bool :=
  runMutation Mutation.attendanceSeed user (fun d => (seedAbsent stamp d sessionId, Reply.ok true))
    db

/-- `POST /api/attendance/mark` as registered (attendance.js line 98). -/
def markRoute (user : Option TokenPayload) (now : Nat) (body : Option MarkBody)
    (fault : Nat → Option DbError) (db : Db) : Db × Reply Bool :=
  runMutation Mutation.attendanceMark user (fun d => markAttendanceTry now d body fault) db

/-- `DELETE /api/students/:id` as registered (students.js line 369). -/
def deleteStudentRoute (user : Option TokenPayload) (id : Nat) (fault : Nat → Option DbError)
    (db : Db) : Db × Reply Bool :=
  runMutation Mutation.studentsDelete user (fun d => deleteStudent d id fault) db

/-- `POST /api/students` as registered (students.js line 264). -/
def createStudentRoute (user : Option TokenPayload)
    (insert : Db → StudentBody → Except DbError (Db × Nat)) (body : Option StudentBody)
    (db : Db) : Db × Reply Created :=
  runMutation Mutation.studentsCreate user (fun d => createStudent insert d body) db

/-- `DELETE /api/admins/:id` as registered (admins.js line 65). -/
def deleteAdminRoute (E : Engine) (user : Option TokenPayload) (idParam : String)
    (users : List User) : List User × Reply Bool :=
  runMutation Mutation.adminsDelete user (fun us => deleteAdmin E user us idParam) users

/-- The payload of a token of the viewer Vera. -/
def viewerPayload : TokenPayload :=
  { id := 2, name := "Vera", email := "vera@example.org", role := "viewer" }

/-- The payload of a token of the admin Root. -/
def adminPayload : TokenPayload :=
  { id := 1, name := "Root", email := "root@example.org", role := "admin" }

/-! ## The SQL text of the students list -/

/-- A value bound to a `?` of a statement. -/
inductive SqlParam where
  | text (s : String)
  | number (n : Int)
deriving DecidableEq, Repr

/-- The WHERE clause both statements of the students list share (white space
of the template literal reduced to single blanks). -/
def whereSql : String :=
  "WHERE (? = '' OR s.name LIKE CONCAT('%', ?, '%') " ++
  "OR s.father_name LIKE CONCAT('%', ?, '%') OR s.last_name LIKE CONCAT('%', ?, '%')) " ++
  "AND (? = '' OR s.phone LIKE CONCAT('%', ?, '%')) AND (? = '' OR s.gender = ?) " ++
  "AND (? = '' OR s.graduation_year = ?)"

/-- `countSql` (students.js lines 58-67). -/
def countSql : String :=
  "SELECT COUNT(*) AS total FROM students s " ++ whereSql

/-- `rowsSql` (lines 76-104), the one place where a value is put into the
text: `ORDER BY ${orderClause}`. -/
def rowsSql (clause : String) : String :=
  "SELECT s.id, s.name, s.father_name, s.last_name, s.address, s.phone, s.birthdate, " ++
  "s.gender, s.source, s.graduation_year, s.notes, " ++
  "COALESCE(SUM(a.status = 'Present'), 0) AS present_count, " ++
  "COALESCE(SUM(a.status = 'Absent'), 0) AS absent_count " ++
  "FROM students s LEFT JOIN attendance a ON a.student_id = s.id " ++ whereSql ++
  " GROUP BY s.id, s.name, s.father_name, s.last_name, s.address, s.phone, s.birthdate, " ++
  "s.gender, s.source, s.graduation_year, s.notes ORDER BY " ++ clause ++ " LIMIT ? OFFSET ?"

/-- `countParams` (lines 68-73). -/
def countParams (f : StudentsFilter) : List SqlParam :=
  [SqlParam.text f.name, SqlParam.text f.name, SqlParam.text f.name, SqlParam.text f.name,
    SqlParam.text f.phone, SqlParam.text f.phone,
    SqlParam.text f.gender, SqlParam.text f.gender,
    SqlParam.text f.graduation_year, SqlParam.text f.graduation_year]

/-- `rowsParams` (lines 105-111). -/
def rowsParams (f : StudentsFilter) (perPage offset : Int) : List SqlParam :=
  countParams f ++ [SqlParam.number perPage, SqlParam.number offset]

/-- The two `pool.query(text, params)` calls of `GET /api/students`, in
order. -/
def studentsStatements (q : StudentsQuery) : List (String × List SqlParam) :=
  [(countSql, countParams q.filter),
    (rowsSql (orderClause (q.sort.getD "name_asc")),
      rowsParams q.filter (pageWindow (q.page.getD "1") (q.per_page.getD "10")).perPage
        (pageWindow (q.page.getD "1") (q.per_page.getD "10")).offset)]

/-- The four ORDER BY texts. -/
def orderTexts : List String :=
  ["s.name ASC", "s.name DESC", "s.id DESC", "s.id ASC"]

/-! ## The affected rows reported during an import -/

/-- The `affectedRows` reported, in row order, by the upserts of an import
that did not throw: rows without a name or phone reach no upsert, and an
upsert that throws reports nothing and leaves the database as it was. -/
def upsertReports {σ : Type} (upsert : σ → SheetRow → Except DbError (σ × Nat)) :
    σ → List SheetRow → List Nat
  | _, [] => []
  | db, r :: rest =>
    if missingNameOrPhone r = true then upsertReports upsert db rest
    else
      match upsert db r with
      | Except.ok (db', affectedRows) => affectedRows :: upsertReports upsert db' rest
      | Except.error _ => upsertReports upsert db rest

/-- An upsert on the list of the phones stored that reports no affected row
for a stored phone, as the statement does for a duplicate row that it leaves
unchanged. -/
def unchangedUpsert (phones : List String) (r : SheetRow) :
    Except DbError (List String × Nat) :=
  if importPhone r ∈ phones then Except.ok (phones, 0)
  else Except.ok (phones ++ [importPhone r], 1)

/-! ## Tokens: POST /api/auth/login and verifyToken -/

/-- routes/auth.js line 13: `process.env.JWT_SECRET || 'changeme-secret'`,
for the value `env` of `process.env.JWT_SECRET`, `none` when the variable is
not set. -/
def JWT_SECRET (env : Option String) : String :=
  match env with
  | some s => if s = "" then "changeme-secret" else s
  | none => "changeme-secret"

/-- routes/auth.js line 14: `'7d'`, in seconds. -/
def TOKEN_TTL : Nat := 7 * 24 * 60 * 60

/-- The payload of a token as `jwt.verify` returns it: the object that was
signed, with the times of issue and of expiry that `jwt.sign` adds. -/
structure Claims where
  user : TokenPayload
  iat : Nat
  exp : Nat
deriving DecidableEq, Repr

/-- A signed token, idealised: its payload and the key its signature was made
with.  A signature made with one key verifies under that key and under no
other. -/
structure Token where
  claims : Claims
  key : String
deriving DecidableEq, Repr

/-- `jwt.sign(user, secret, { expiresIn: TOKEN_TTL })` at the time `now`. -/
def jwtSign (user : TokenPayload) (secret : String) (now : Nat) : Token :=
  { claims := { user := user, iat := now, exp := now + TOKEN_TTL }, key := secret }

/-- `jwt.verify(token, secret)` at the time `now`: it throws when the secret
is undefined or empty, when the signature was not made with the secret, and
when the token has expired; otherwise it returns the payload. -/
def jwtVerify (token : Token) (secret : Option String) (now : Nat) : Except String Claims :=
  if falsyText secret = true then Except.error "secret or public key must be provided"
  else if some token.key ≠ secret then Except.error "invalid signature"
  else if token.claims.exp ≤ now then Except.error "jwt expired"
  else Except.ok token.claims

/-- middleware/auth.js lines 4-21: `verifyToken` for the token of the
Authorization header, `none` when the header is missing or empty.  The
result is the value it gives `req.user` before it calls `next()`, or the
response it sends.  The secret is `process.env.JWT_SECRET` (line 15). -/
def verifyToken (env : Option String) (header : Option Token) (now : Nat) :
    Except (Nat × String) Claims :=
  match header with
  | none => Except.error (401, "Missing token")
  | some token =>
    match jwtVerify token env now with
    | Except.ok payload => Except.ok payload
    | Except.error _ => Except.error (401, "Invalid or expired token")

/-- The JSON object of a login request.  The body of a request, `req.body`,
is an `Option LoginBody`: `none` is undefined, the request without a JSON
body. -/
structure LoginBody where
  email : Option String
  password : Option String
deriving DecidableEq, Repr

/-- The body `{ token, user }` of the response to a login. -/
structure LoginReply where
  token : Token
  user : TokenPayload
deriving DecidableEq, Repr

/-- routes/auth.js lines 16-18: `String(email || '').trim().toLowerCase()`,
the library function `toLowerCase` being a parameter. -/
def normEmail (toLowerCase : String → String) (email : Option String) : String :=
  toLowerCase (jsTrim (email.getD ""))

/-- The handler of `POST /api/auth/login` (routes/auth.js lines 25-53) at the
time `now`, for the value `body` of `req.body`; `req.body.email` of line 27
throws on an undefined body and the catch clause answers 500.  `compare` is
`bcrypt.compare`, `fault 0` the error the SELECT throws, if it throws; the
row of `LIMIT 1` is the first that matches. -/
def login (E : Engine) (toLowerCase : String → String) (compare : String → String → Bool)
    (env : Option String) (now : Nat) (users : List User) (body : Option LoginBody)
    (fault : Nat → Option DbError) : Reply LoginReply :=
  match body with
  | none => Reply.error 500 (readError "email")
  | some b =>
    if (normEmail toLowerCase b.email == "" || b.password.getD "" == "") = true then
      Reply.error 400 "Email and password are required"
    else
      match fault 0 with
      | some e => Reply.error 500 e.message
      | none =>
        match (usersWithEmail E users (normEmail toLowerCase b.email)).head? with
        | none => Reply.error 401 "Invalid email or password"
        | some u =>
          if compare (b.password.getD "") u.password_hash = true then
            Reply.ok
              { token := jwtSign { id := u.id, name := u.name, email := u.email, role := u.role }
                  (JWT_SECRET env) now,
                user := { id := u.id, name := u.name, email := u.email, role := u.role } }
          else Reply.error 401 "Invalid email or password"

/-- A sample `bcrypt.compare`: the hash of a password is the letter h before
it. -/
def sampleCompare (password hash : String) : Bool :=
  hash == "h" ++ password

/-- The login of the first sample user. -/
def sampleLogin : LoginBody :=
  { email := some " Root@Example.org ", password := some "1" }

/-! ## The page window in double precision

The same lines of the list handlers, computed as JavaScript computes them:
in IEEE 754 doubles.  `parseInt` and the page arithmetic produce integers,
the two infinities and NaN only. -/

/-- A JavaScript number that is an integer, an infinity or NaN. -/
inductive JsNumber where
  | nan
  | negInf
  | posInf
  | finite (n : Int)
deriving DecidableEq, Repr

/-- The number of halvings that bring `m` below 2^53, by a loop of at most
`fuel` turns. -/
def exponentLoop : Nat → Nat → Nat
  | 0, _ => 0
  | fuel + 1, m => if m < 2 ^ 53 then 0 else exponentLoop fuel (m / 2) + 1

/-- The binary exponent of the last place of the double nearest to `m`: 0 for
m < 2^53, and otherwise the e with 2^52 ≤ m / 2^e < 2^53.  The loop stops
after 1100 halvings: a number that is still not below 2^53 then is beyond the
range of the doubles whatever its exponent. -/
def binaryExponent (m : Nat) : Nat :=
  exponentLoop 1100 m

/-- The number 2^1024, from which on a rounded value is Infinity. -/
def doubleLimit : Nat :=
  2 ^ 256 * 2 ^ 256 * 2 ^ 256 * 2 ^ 256

/-- The double nearest to the natural number `m`, ties to even: `m` itself
below 2^53, otherwise `m` rounded to 53 significant bits; `none` when the
rounded value is 2^1024 or more, which is Infinity. -/
def roundNat (m : Nat) : Option Nat :=
  if m < 2 ^ 53 then some m
  else
    let e := binaryExponent m
    let q := m / 2 ^ e
    let r := m % 2 ^ e
    let q' := if 2 ^ (e - 1) < r ∨ (r = 2 ^ (e - 1) ∧ q % 2 = 1) then q + 1 else q
    if doubleLimit ≤ q' * 2 ^ e then none else some (q' * 2 ^ e)

/-- The Number value of a mathematical integer. -/
def toNumber (n : Int) : JsNumber :=
  match roundNat n.natAbs with
  | none => if n < 0 then JsNumber.negInf else JsNumber.posInf
  | some m => JsNumber.finite (if n < 0 then -(m : Int) else (m : Int))

/-- `parseInt(s, 10)` as a Number. -/
def parseIntNumber (s : String) : JsNumber :=
  match parseInt s with
  | none => JsNumber.nan
  | some n => toNumber n

/-- `parseInt(v, 10)` as a Number, for a query parameter that may be
absent. -/
def parseIntNumberParam (v : Option String) : JsNumber :=
  match parseIntParam v with
  | none => JsNumber.nan
  | some n => toNumber n

/-- `x || d`: NaN and 0 are falsy. -/
def JsNumber.orElse (x d : JsNumber) : JsNumber :=
  match x with
  | JsNumber.nan => d
  | JsNumber.finite n => if n = 0 then d else x
  | _ => x

/-- `Number.isNaN(x)`. -/
def JsNumber.isNaN (x : JsNumber) : Bool :=
  match x with
  | JsNumber.nan => true
  | _ => false

/-- `a < b`, which is false when either is NaN. -/
def JsNumber.lt (a b : JsNumber) : Bool :=
  match a, b with
  | JsNumber.nan, _ => false
  | _, JsNumber.nan => false
  | JsNumber.posInf, _ => false
  | _, JsNumber.negInf => false
  | JsNumber.negInf, _ => true
  | _, JsNumber.posInf => true
  | JsNumber.finite x, JsNumber.finite y => decide (x < y)

/-- `Math.max(a, b)`. -/
def mathMax (a b : JsNumber) : JsNumber :=
  if (a.isNaN || b.isNaN) = true then JsNumber.nan
  else if a.lt b = true then b else a

/-- `Math.min(a, b)`. -/
def mathMin (a b : JsNumber) : JsNumber :=
  if (a.isNaN || b.isNaN) = true then JsNumber.nan
  else if b.lt a = true then b else a

/-- `a - b`. -/
def JsNumber.sub (a b : JsNumber) : JsNumber :=
  match a, b with
  | JsNumber.nan, _ => JsNumber.nan
  | _, JsNumber.nan => JsNumber.nan
  | JsNumber.posInf, JsNumber.posInf => JsNumber.nan
  | JsNumber.negInf, JsNumber.negInf => JsNumber.nan
  | JsNumber.posInf, _ => JsNumber.posInf
  | JsNumber.negInf, _ => JsNumber.negInf
  | JsNumber.finite _, JsNumber.posInf => JsNumber.negInf
  | JsNumber.finite _, JsNumber.negInf => JsNumber.posInf
  | JsNumber.finite x, JsNumber.finite y => toNumber (x - y)

/-- The infinity of the sign of plus infinity times `x`, NaN for 0. -/
def JsNumber.infTimes (x : Int) : JsNumber :=
  if x = 0 then JsNumber.nan else if x < 0 then JsNumber.negInf else JsNumber.posInf

/-- `a * b`. -/
def JsNumber.mul (a b : JsNumber) : JsNumber :=
  match a, b with
  | JsNumber.nan, _ => JsNumber.nan
  | _, JsNumber.nan => JsNumber.nan
  | JsNumber.posInf, JsNumber.posInf => JsNumber.posInf
  | JsNumber.posInf, JsNumber.negInf => JsNumber.negInf
  | JsNumber.negInf, JsNumber.posInf => JsNumber.negInf
  | JsNumber.negInf, JsNumber.negInf => JsNumber.posInf
  | JsNumber.posInf, JsNumber.finite y => JsNumber.infTimes y
  | JsNumber.negInf, JsNumber.finite y => JsNumber.infTimes (-y)
  | JsNumber.finite x, JsNumber.posInf => JsNumber.infTimes x
  | JsNumber.finite x, JsNumber.negInf => JsNumber.infTimes (-x)
  | JsNumber.finite x, JsNumber.finite y => toNumber (x * y)

/-- The page window of a list handler as Numbers. -/
structure NumberWindow where
  pg : JsNumber
  perPage : JsNumber
  offset : JsNumber
deriving DecidableEq, Repr

/-- Lines 48-51 of `routes/students.js` and 20-23 of `routes/attendance.js`
in doubles: `pg = Math.max(1, parseInt(page, 10) || 1)`,
`perPageRaw = Math.max(1, parseInt(per_page, 10) || 10)`,
`perPage = Math.min(perPageRaw, 100)`, `offset = (pg - 1) * perPage`. -/
def numberWindow (page per_page : String) : NumberWindow :=
  let pg := mathMax (JsNumber.finite 1) ((parseIntNumber page).orElse (JsNumber.finite 1))
  let perPageRaw :=
    mathMax (JsNumber.finite 1) ((parseIntNumber per_page).orElse (JsNumber.finite 10))
  let perPage := mathMin perPageRaw (JsNumber.finite 100)
  { pg := pg, perPage := perPage, offset := (pg.sub (JsNumber.finite 1)).mul perPage }

/-- Lines 125-134 of `routes/reports.js` in doubles:
`if (Number.isNaN(page) || page < 1) page = 1`,
`if (Number.isNaN(perPage) || perPage < 1 || perPage > 200) perPage = 10`,
`offset = (page - 1) * perPage`. -/
def reportNumberWindow (page per_page : Option String) : NumberWindow :=
  let page0 := parseIntNumberParam page
  let perPage0 := parseIntNumberParam per_page
  let pg := if (page0.isNaN || page0.lt (JsNumber.finite 1)) = true then JsNumber.finite 1
    else page0
  let perPage :=
    if (perPage0.isNaN || perPage0.lt (JsNumber.finite 1) ||
        (JsNumber.finite 200).lt perPage0) = true then JsNumber.finite 10
    else perPage0
  { pg := pg, perPage := perPage, offset := (pg.sub (JsNumber.finite 1)).mul perPage }

/-- The Number is an integer of at least `c` or plus infinity: it is neither
NaN nor below `c`. -/
def JsNumber.atLeast (x : JsNumber) (c : Int) : Bool :=
  match x with
  | JsNumber.posInf => true
  | JsNumber.finite k => decide (c ≤ k)
  | _ => false

/-- The exact page window as Numbers. -/
def PageWindow.toNumbers (w : PageWindow) : NumberWindow :=
  { pg := JsNumber.finite w.pg, perPage := JsNumber.finite w.perPage,
    offset := JsNumber.finite w.offset }

/-- A page of 310 nines. -/
def hugePage : String :=
  String.mk (List.replicate 310 '9')

/-! ## Page arithmetic -/

theorem ceilDiv_eq_ceil (a b : Int) (hb : 0 < b) :
    ceilDiv a b = ⌈(a : ℚ) / (b : ℚ)⌉ := by
  obtain ⟨n, rfl⟩ := Int.eq_ofNat_of_zero_le hb.le
  have h := Rat.floor_intCast_div_natCast (-a) n
  unfold ceilDiv
  rw [← h, ← Int.ceil_neg]
  congr 1
  push_cast
  ring

theorem pageWindow_perPage_bounds (page per_page : String) :
    1 ≤ (pageWindow page per_page).perPage ∧ (pageWindow page per_page).perPage ≤ 100 := by
  simp only [pageWindow]
  constructor
  · exact le_min (le_max_left _ _) (by norm_num)
  · exact min_le_right _ _

theorem pageWindow_pg_pos (page per_page : String) : 1 ≤ (pageWindow page per_page).pg := by
  simp only [pageWindow]
  exact le_max_left _ _

theorem reportWindow_perPage_bounds (page per_page : Option String) :
    1 ≤ (reportWindow page per_page).perPage ∧ (reportWindow page per_page).perPage ≤ 200 := by
  simp only [reportWindow]
  cases parseIntParam per_page with
  | none => simp
  | some n =>
    by_cases h : n < 1 ∨ n > 200
    · simp [h]
    · simp only [h, if_false]
      push_neg at h
      omega

theorem reportWindow_pg_pos (page per_page : Option String) :
    1 ≤ (reportWindow page per_page).pg := by
  simp only [reportWindow]
  cases parseIntParam page with
  | none => simp
  | some n =>
    by_cases h : n < 1
    · simp [h]
    · simp only [h, if_false]
      omega

theorem totalPages_eq (total : Nat) (perPage : Int) (h : 1 ≤ perPage) :
    totalPages total perPage = max 1 ⌈(total : ℚ) / (perPage : ℚ)⌉ := by
  unfold totalPages
  rw [ceilDiv_eq_ceil _ _ (by omega)]
  norm_cast

theorem totalPages_pos (total : Nat) (perPage : Int) : 1 ≤ totalPages total perPage :=
  le_max_left _ _

theorem totalPages_zero (perPage : Int) : totalPages 0 perPage = 1 := by
  simp [totalPages, ceilDiv]

/-- C1: in the students list, the attendance-by-session list and the
students-by-count report, the field total_pages equals
max(1, ceil(total / per_page)) for the total and the normalised per_page of
the same response; it is at least 1, and it is 1 when total is 0.  The
report answers with such a body unless present or absent is invalid. -/
theorem total_pages_formula (E : Engine) (db : Db) (q : StudentsQuery) (sessionId : Nat)
    (qa : AttendanceQuery) (qc : CountQuery) :
    ((studentsList E db q).total_pages =
        max 1 ⌈((studentsList E db q).total : ℚ) / ((studentsList E db q).per_page : ℚ)⌉ ∧
      1 ≤ (studentsList E db q).total_pages ∧
      ((studentsList E db q).total = 0 → (studentsList E db q).total_pages = 1)) ∧
    ((attendanceList E db sessionId qa).total_pages =
        max 1 ⌈((attendanceList E db sessionId qa).total : ℚ) /
          ((attendanceList E db sessionId qa).per_page : ℚ)⌉ ∧
      1 ≤ (attendanceList E db sessionId qa).total_pages ∧
      ((attendanceList E db sessionId qa).total = 0 →
        (attendanceList E db sessionId qa).total_pages = 1)) ∧
    (match studentsByCount E db qc with
      | Reply.ok b =>
        b.total_pages = max 1 ⌈(b.total : ℚ) / (b.per_page : ℚ)⌉ ∧ 1 ≤ b.total_pages ∧
          (b.total = 0 → b.total_pages = 1)
      | Reply.error _ _ =>
        invalidCount (parseIntParam qc.present) = true ∨
          invalidCount (parseIntParam qc.absent) = true) := by
  refine ⟨⟨?_, ?_, ?_⟩, ⟨?_, ?_, ?_⟩, ?_⟩
  · exact totalPages_eq _ _ (pageWindow_perPage_bounds _ _).1
  · exact totalPages_pos _ _
  · intro h
    simp only [studentsList] at h ⊢
    rw [h]
    exact totalPages_zero _
  · exact totalPages_eq _ _ (pageWindow_perPage_bounds _ _).1
  · exact totalPages_pos _ _
  · intro h
    simp only [attendanceList] at h ⊢
    rw [h]
    exact totalPages_zero _
  · unfold studentsByCount
    by_cases hv : (invalidCount (parseIntParam qc.present) ||
        invalidCount (parseIntParam qc.absent)) = true
    · simp only [hv, if_true]
      simpa using hv
    · simp only [hv]
      refine ⟨totalPages_eq _ _ (reportWindow_perPage_bounds _ _).1, totalPages_pos _ _, ?_⟩
      intro h
      simp only at h
      rw [h]
      exact totalPages_zero _

/-! ## Pages of a list -/

/-- Cutting a list into consecutive windows of `k` elements and gluing the
windows back together gives the list, once the windows reach its end. -/
theorem flatMap_windows {α : Type} (k : Nat) :
    ∀ (n : Nat) (l : List α), l.length ≤ n * k →
      (List.range n).flatMap (fun i => (l.drop (i * k)).take k) = l := by
  intro n
  induction n with
  | zero =>
    intro l h
    have : l = [] := List.length_eq_zero.mp (by omega)
    simp [this]
  | succ n ih =>
    intro l h
    rw [List.range_succ_eq_map, List.flatMap_cons, List.flatMap_map]
    have h2 : (l.drop k).length ≤ n * k := by
      rw [List.length_drop]
      have : (n + 1) * k = n * k + k := by ring
      omega
    have h3 := ih (l.drop k) h2
    have h4 : (fun i => ((l.drop k).drop (i * k)).take k) =
        (fun i => (l.drop ((i + 1) * k)).take k) := by
      funext i
      rw [List.drop_drop]
      congr 2
      ring
    rw [h4] at h3
    simp only [Nat.succ_eq_add_one, zero_mul, List.drop_zero]
    rw [h3]
    exact List.take_append_drop k l

theorem total_le_pages_mul (total : Nat) (k : Nat) (hk : 1 ≤ k) :
    total ≤ (totalPages total (k : Int)).toNat * k := by
  have h1 : ceilDiv (total : Int) (k : Int) ≤ totalPages total (k : Int) := le_max_right _ _
  have h0 : (1 : Int) ≤ totalPages total (k : Int) := le_max_left _ _
  have h2 : (total : Int) ≤ ceilDiv (total : Int) (k : Int) * (k : Int) := by
    unfold ceilDiv
    have hk0 : (0 : Int) < (k : Int) := by exact_mod_cast hk
    have := Int.ediv_mul_le (-(total : Int)) (ne_of_gt hk0)
    linarith
  have h3 : (total : Int) ≤ ((totalPages total (k : Int)).toNat : Int) * (k : Int) := by
    rw [Int.toNat_of_nonneg (by omega)]
    have hk0 : (0 : Int) ≤ (k : Int) := by positivity
    nlinarith
  exact_mod_cast h3

/-! ## Joins and groups -/

theorem mem_leftJoinAttendance (students : List Student) (att : List AttendanceRow)
    (s : Student) (o : Option AttendanceRow) :
    (s, o) ∈ leftJoinAttendance students att ↔
      s ∈ students ∧
        ((o = none ∧ att.filter (fun a => a.student_id = s.id) = []) ∨
          ∃ a, o = some a ∧ a ∈ att ∧ a.student_id = s.id) := by
  unfold leftJoinAttendance
  rw [List.mem_flatMap]
  constructor
  · rintro ⟨s', hs', hmem⟩
    cases hf : att.filter (fun a => a.student_id = s'.id) with
    | nil =>
      rw [hf] at hmem
      simp only [List.mem_singleton, Prod.mk.injEq] at hmem
      obtain ⟨rfl, rfl⟩ := hmem
      exact ⟨hs', Or.inl ⟨rfl, hf⟩⟩
    | cons a r =>
      rw [hf] at hmem
      simp only [List.mem_map, Prod.mk.injEq] at hmem
      obtain ⟨x, hx, rfl, rfl⟩ := hmem
      rw [← hf, List.mem_filter] at hx
      exact ⟨hs', Or.inr ⟨x, rfl, hx.1, by simpa using hx.2⟩⟩
  · rintro ⟨hs, h⟩
    refine ⟨s, hs, ?_⟩
    rcases h with ⟨rfl, hf⟩ | ⟨a, rfl, ha, hid⟩
    · rw [hf]; simp
    · have hx : a ∈ att.filter (fun a => a.student_id = s.id) := by
        rw [List.mem_filter]; exact ⟨ha, by simpa using hid⟩
      cases hf : att.filter (fun a => a.student_id = s.id) with
      | nil => rw [hf] at hx; simp at hx
      | cons b r =>
        rw [hf] at hx
        exact List.mem_map.2 ⟨a, hx, rfl⟩

theorem exists_leftJoinAttendance (students : List Student) (att : List AttendanceRow)
    (s : Student) (hs : s ∈ students) : ∃ o, (s, o) ∈ leftJoinAttendance students att := by
  cases hf : att.filter (fun a => a.student_id = s.id) with
  | nil => exact ⟨none, (mem_leftJoinAttendance _ _ _ _).2 ⟨hs, Or.inl ⟨rfl, hf⟩⟩⟩
  | cons a r =>
    have ha : a ∈ att.filter (fun a => a.student_id = s.id) := by rw [hf]; simp
    rw [List.mem_filter] at ha
    exact ⟨some a, (mem_leftJoinAttendance _ _ _ _).2
      ⟨hs, Or.inr ⟨a, rfl, ha.1, by simpa using ha.2⟩⟩⟩

/-- The groups of a GROUP BY, when the distinct keys are known. -/
theorem groupRows_perm {α κ : Type} [DecidableEq κ] (key : α → κ) (rows : List α)
    (ks : List κ) (hnd : ks.Nodup) (hks : ∀ k, k ∈ ks ↔ ∃ r ∈ rows, key r = k) :
    (groupRows key rows).Perm (ks.map (fun k => (k, rows.filter (fun r => key r = k)))) := by
  unfold groupRows
  apply List.Perm.map
  rw [List.perm_ext_iff_of_nodup (List.nodup_dedup _) hnd]
  intro k
  rw [List.mem_dedup, List.mem_map, hks]

theorem Db.StudentKey.nodup {db : Db} (h : db.StudentKey) : db.students.Nodup :=
  List.Nodup.of_map _ h

theorem Db.StudentKey.eq_of_id {db : Db} (h : db.StudentKey) {s t : Student}
    (hs : s ∈ db.students) (ht : t ∈ db.students) (hid : s.id = t.id) : s = t :=
  List.inj_on_of_nodup_map h hs ht hid


theorem studentsGrouped_students (E : Engine) (db : Db) (f : StudentsFilter)
    (hk : db.StudentKey) :
    ((studentsGrouped E db f).map (fun r => r.student)).Perm
      (db.students.filter (fun s => holds (studentsWhere E f s))) := by
  unfold studentsGrouped
  have hperm := groupRows_perm (fun r : Student × Option AttendanceRow => r.1)
    ((leftJoinAttendance db.students db.attendance).filter
      (fun r => holds (studentsWhere E f r.1)))
    (db.students.filter (fun s => holds (studentsWhere E f s)))
    (hk.nodup.filter _) (by
      intro k
      constructor
      · intro hmem
        rw [List.mem_filter] at hmem
        obtain ⟨o, ho⟩ := exists_leftJoinAttendance db.students db.attendance k hmem.1
        exact ⟨(k, o), List.mem_filter.2 ⟨ho, hmem.2⟩, rfl⟩
      · rintro ⟨⟨s, o⟩, hr, rfl⟩
        rw [List.mem_filter] at hr
        exact List.mem_filter.2 ⟨((mem_leftJoinAttendance _ _ _ _).1 hr.1).1, hr.2⟩)
  have h2 := (hperm.map (fun g : Student × List (Student × Option AttendanceRow) =>
      ({ student := g.1,
         present_count := sumStatusEq Status.Present g.2,
         absent_count := sumStatusEq Status.Absent g.2 } : StudentListRow))).map
      (fun r => r.student)
  simpa [List.map_map, Function.comp_def] using h2

theorem studentsGrouped_length (E : Engine) (db : Db) (f : StudentsFilter)
    (hk : db.StudentKey) : (studentsGrouped E db f).length = studentsCount E db f := by
  have h := (studentsGrouped_students E db f hk).length_eq
  rw [List.length_map] at h
  exact h

theorem limitOffset_nat {α : Type} (rows : List α) (k i : Nat) :
    limitOffset rows (k : Int) ((((i + 1 : Nat) : Int) - 1) * (k : Int)) =
      (rows.drop (i * k)).take k := by
  unfold limitOffset
  have h : ((((i + 1 : Nat) : Int) - 1) * (k : Int)) = ((i * k : Nat) : Int) := by
    push_cast; ring
  rw [h, Int.toNat_ofNat, Int.toNat_ofNat]

/-! ## The students list, page after page -/

theorem referenceEngine_reorders : referenceEngine.Reorders := by
  refine ⟨?_, ?_, ?_⟩
  · intro clause rows
    simp only [referenceEngine]
    split_ifs <;> exact List.perm_insertionSort _ _
  · intro rows
    exact List.perm_insertionSort _ _
  · intro rows
    exact List.perm_insertionSort _ _

/-- C2: pagination stability of the students list.  When the engine returns
the rows of an ORDER BY in one fixed order (a rearrangement of the rows it
was given) and ids identify students, then for every query: the rows of the
response are the page of the normalised page number; the pages 1, 2, ...,
total_pages, read one after the other with LIMIT per_page OFFSET
(page - 1) * per_page, are together the ordered result; they list the
students selected by the filters, each once; and no student id occurs
twice. -/
theorem pages_yield_each_student_once (E : Engine) (hE : E.Reorders) (db : Db)
    (hk : db.StudentKey) (q : StudentsQuery) :
    (studentsList E db q).rows =
        studentsPage E db q.filter (orderClause (q.sort.getD "name_asc"))
          (studentsList E db q).per_page (studentsList E db q).page.toNat ∧
    studentsAllPages E db q.filter (orderClause (q.sort.getD "name_asc"))
        (studentsList E db q).per_page =
      studentsOrdered E db q.filter (orderClause (q.sort.getD "name_asc")) ∧
    ((studentsAllPages E db q.filter (orderClause (q.sort.getD "name_asc"))
        (studentsList E db q).per_page).map (fun r => r.student)).Perm
      (db.students.filter (fun s => holds (studentsWhere E q.filter s))) ∧
    ((studentsAllPages E db q.filter (orderClause (q.sort.getD "name_asc"))
        (studentsList E db q).per_page).map (fun r => r.student.id)).Nodup := by
  have hpos := (pageWindow_perPage_bounds (q.page.getD "1") (q.per_page.getD "10")).1
  have hpg := pageWindow_pg_pos (q.page.getD "1") (q.per_page.getD "10")
  obtain ⟨k, hk'⟩ := Int.eq_ofNat_of_zero_le (le_trans (by norm_num) hpos)
  have hk1 : 1 ≤ k := by rw [hk'] at hpos; exact_mod_cast hpos
  have hper : (studentsList E db q).per_page = (k : Int) := hk'
  have hall : studentsAllPages E db q.filter (orderClause (q.sort.getD "name_asc")) (k : Int) =
      studentsOrdered E db q.filter (orderClause (q.sort.getD "name_asc")) := by
    unfold studentsAllPages studentsPage studentsRows studentsOrdered
    have hfun : (fun i : Nat => limitOffset
          (E.orderStudents (orderClause (q.sort.getD "name_asc")) (studentsGrouped E db q.filter))
          (k : Int) ((((i + 1 : Nat) : Int) - 1) * (k : Int))) =
        (fun i : Nat => ((E.orderStudents (orderClause (q.sort.getD "name_asc"))
          (studentsGrouped E db q.filter)).drop (i * k)).take k) := by
      funext i
      exact limitOffset_nat _ k i
    rw [hfun]
    apply flatMap_windows
    rw [(hE.1 _ _).length_eq, studentsGrouped_length E db q.filter hk]
    exact total_le_pages_mul _ k hk1
  have hperm : ((studentsOrdered E db q.filter
      (orderClause (q.sort.getD "name_asc"))).map (fun r => r.student)).Perm
      (db.students.filter (fun s => holds (studentsWhere E q.filter s))) :=
    ((hE.1 _ _).map _).trans (studentsGrouped_students E db q.filter hk)
  rw [hper, hall]
  refine ⟨?_, rfl, hperm, ?_⟩
  · simp only [studentsList, studentsPage]
    rw [Int.toNat_of_nonneg (by omega)]
    rw [← hk']
    rfl
  · have h1 : ((studentsOrdered E db q.filter
        (orderClause (q.sort.getD "name_asc"))).map (fun r => r.student.id)).Perm
        ((db.students.filter (fun s => holds (studentsWhere E q.filter s))).map
          (fun s => s.id)) := by
      have := hperm.map (fun s : Student => s.id)
      simpa [List.map_map, Function.comp_def] using this
    rw [h1.nodup_iff]
    exact (List.Nodup.sublist ((List.filter_sublist _).map _) hk)


/-- Witness for C2: the reference engine on the sample database, two rows a
page. -/
theorem pages_yield_each_student_once_witness :
    referenceEngine.Reorders ∧ sampleDb.StudentKey ∧
    ((studentsList referenceEngine sampleDb { emptyStudentsQuery with per_page := some "2" }).rows =
        studentsPage referenceEngine sampleDb
          ({ emptyStudentsQuery with per_page := some "2" } : StudentsQuery).filter
          (orderClause ((({ emptyStudentsQuery with per_page := some "2" } :
            StudentsQuery).sort).getD "name_asc"))
          (studentsList referenceEngine sampleDb
            { emptyStudentsQuery with per_page := some "2" }).per_page
          (studentsList referenceEngine sampleDb
            { emptyStudentsQuery with per_page := some "2" }).page.toNat ∧
      studentsAllPages referenceEngine sampleDb
          ({ emptyStudentsQuery with per_page := some "2" } : StudentsQuery).filter
          (orderClause ((({ emptyStudentsQuery with per_page := some "2" } :
            StudentsQuery).sort).getD "name_asc"))
          (studentsList referenceEngine sampleDb
            { emptyStudentsQuery with per_page := some "2" }).per_page =
        studentsOrdered referenceEngine sampleDb
          ({ emptyStudentsQuery with per_page := some "2" } : StudentsQuery).filter
          (orderClause ((({ emptyStudentsQuery with per_page := some "2" } :
            StudentsQuery).sort).getD "name_asc")) ∧
      ((studentsAllPages referenceEngine sampleDb
          ({ emptyStudentsQuery with per_page := some "2" } : StudentsQuery).filter
          (orderClause ((({ emptyStudentsQuery with per_page := some "2" } :
            StudentsQuery).sort).getD "name_asc"))
          (studentsList referenceEngine sampleDb
            { emptyStudentsQuery with per_page := some "2" }).per_page).map
          (fun r => r.student)).Perm
        (sampleDb.students.filter (fun s => holds (studentsWhere referenceEngine
          ({ emptyStudentsQuery with per_page := some "2" } : StudentsQuery).filter s))) ∧
      ((studentsAllPages referenceEngine sampleDb
          ({ emptyStudentsQuery with per_page := some "2" } : StudentsQuery).filter
          (orderClause ((({ emptyStudentsQuery with per_page := some "2" } :
            StudentsQuery).sort).getD "name_asc"))
          (studentsList referenceEngine sampleDb
            { emptyStudentsQuery with per_page := some "2" }).per_page).map
          (fun r => r.student.id)).Nodup) :=
  ⟨referenceEngine_reorders, by decide,
    pages_yield_each_student_once referenceEngine referenceEngine_reorders sampleDb (by decide)
      { emptyStudentsQuery with per_page := some "2" }⟩

/-! ## Seed absent -/

theorem filter_id_eq_singleton (l : List Student) (hnd : (l.map (fun s => s.id)).Nodup)
    (s : Student) (hs : s ∈ l) : l.filter (fun t => decide (t.id = s.id)) = [s] := by
  induction l with
  | nil => simp at hs
  | cons t r ih =>
    simp only [List.map_cons, List.nodup_cons, List.mem_map, not_exists, not_and] at hnd
    rcases List.mem_cons.1 hs with rfl | hr
    · have hnone : r.filter (fun t => decide (t.id = s.id)) = [] := by
        rw [List.filter_eq_nil_iff]
        intro u hu
        have := hnd.1 u hu
        simpa using this
      simp [List.filter_cons, hnone]
    · have hne : t.id ≠ s.id := fun h => hnd.1 s hr h.symm
      simp [List.filter_cons, hne, ih hnd.2 hr]

theorem seedCandidates_seedAbsent (stamp : Option Nat) (db : Db) (sessionId : Nat) :
    seedCandidates (seedAbsent stamp db sessionId) sessionId = [] := by
  unfold seedCandidates
  rw [List.filter_eq_nil_iff]
  intro s hs
  have hs' : s ∈ db.students := hs
  have hany : (seedAbsent stamp db sessionId).attendance.any
      (fun a => decide (a.session_id = sessionId ∧ a.student_id = s.id)) = true := by
    rw [List.any_eq_true]
    by_cases h : ∃ a ∈ db.attendance, a.session_id = sessionId ∧ a.student_id = s.id
    · obtain ⟨a, ha, hkey⟩ := h
      exact ⟨a, List.mem_append_left _ ha, decide_eq_true hkey⟩
    · have hc : s ∈ seedCandidates db sessionId := by
        unfold seedCandidates
        rw [List.mem_filter]
        refine ⟨hs', ?_⟩
        simp only [Bool.not_eq_true', List.any_eq_false, decide_eq_true_eq]
        intro a ha hkey
        exact h ⟨a, ha, hkey⟩
      refine ⟨AttendanceRow.mk sessionId s.id Status.Absent stamp, ?_, ?_⟩
      · exact List.mem_append_right _ (List.mem_map.2 ⟨s, hc, rfl⟩)
      · exact decide_eq_true ⟨rfl, rfl⟩
  rw [hany]
  simp

/-- C3: seed absent is idempotent.  For every database, every session id
and every value the schema default gives marked_at at either run, running
the seed statement a second time leaves the database, and so the set of
attendance rows, exactly as the first run left it. -/
theorem seedAbsent_idempotent (stamp₁ stamp₂ : Option Nat) (db : Db) (sessionId : Nat) :
    seedAbsent stamp₂ (seedAbsent stamp₁ db sessionId) sessionId =
      seedAbsent stamp₁ db sessionId := by
  have h := seedCandidates_seedAbsent stamp₁ db sessionId
  rw [seedAbsent]
  unfold seedInserted
  rw [h]
  simp


/-- C4: postcondition and frame of seed absent, for a database in which ids
identify students.  The students and sessions tables and every attendance
row that existed before are unchanged, the new rows coming after them;
afterwards every student has an attendance row for the session; a student
that had no row for the session gets exactly one new row, (session,
student, Absent); a student that had one gets none; and every new row is
such a row of some student. -/
theorem seedAbsent_postcondition (stamp : Option Nat) (db : Db) (sessionId : Nat)
    (hk : db.StudentKey) :
    ((seedAbsent stamp db sessionId).students = db.students ∧
      (seedAbsent stamp db sessionId).sessions = db.sessions ∧
      (seedAbsent stamp db sessionId).attendance =
        db.attendance ++ seedInserted stamp db sessionId) ∧
    (∀ s ∈ db.students, ∃ a ∈ (seedAbsent stamp db sessionId).attendance,
      a.session_id = sessionId ∧ a.student_id = s.id) ∧
    (∀ s ∈ db.students,
      (¬ ∃ a ∈ db.attendance, a.session_id = sessionId ∧ a.student_id = s.id) →
      (seedInserted stamp db sessionId).filter (fun a => decide (a.student_id = s.id)) =
        [{ session_id := sessionId, student_id := s.id, status := Status.Absent,
           marked_at := stamp }]) ∧
    (∀ s ∈ db.students,
      (∃ a ∈ db.attendance, a.session_id = sessionId ∧ a.student_id = s.id) →
      (seedInserted stamp db sessionId).filter (fun a => decide (a.student_id = s.id)) = []) ∧
    (∀ a ∈ seedInserted stamp db sessionId,
      a.session_id = sessionId ∧ a.status = Status.Absent ∧ a.marked_at = stamp ∧
        ∃ s ∈ db.students, s.id = a.student_id) := by
  refine ⟨⟨rfl, rfl, rfl⟩, ?_, ?_, ?_, ?_⟩
  · intro s hs
    have h := seedCandidates_seedAbsent stamp db sessionId
    unfold seedCandidates at h
    rw [List.filter_eq_nil_iff] at h
    have h2 := h s hs
    simp only [Bool.not_eq_true', Bool.not_eq_false, List.any_eq_true, decide_eq_true_eq]
      at h2
    exact h2
  · intro s hs hno
    have hc : (seedCandidates db sessionId).filter (fun t => decide (t.id = s.id)) = [s] := by
      unfold seedCandidates
      rw [List.filter_filter]
      have h1 := filter_id_eq_singleton db.students hk s hs
      have h2 : db.students.filter (fun a => decide (a.id = s.id) &&
            !(db.attendance.any (fun b =>
              decide (b.session_id = sessionId ∧ b.student_id = a.id)))) =
          (db.students.filter (fun t => decide (t.id = s.id))).filter (fun a =>
            !(db.attendance.any (fun b =>
              decide (b.session_id = sessionId ∧ b.student_id = a.id)))) := by
        rw [List.filter_filter]
        congr 1
        funext a
        exact Bool.and_comm _ _
      rw [h2, h1]
      have h3 : (db.attendance.any (fun b =>
          decide (b.session_id = sessionId ∧ b.student_id = s.id))) = false := by
        rw [List.any_eq_false]
        intro a ha hkey
        exact hno ⟨a, ha, by simpa using hkey⟩
      simp only [List.filter_cons, List.filter_nil, h3, Bool.not_false, if_true]
    unfold seedInserted
    rw [List.filter_map]
    have hcomp : ((fun a : AttendanceRow => decide (a.student_id = s.id)) ∘
        (fun t : Student => AttendanceRow.mk sessionId t.id Status.Absent stamp)) =
        (fun t : Student => decide (t.id = s.id)) := rfl
    rw [hcomp, hc]
    rfl
  · intro s _ hhas
    rw [List.filter_eq_nil_iff]
    intro a ha
    unfold seedInserted at ha
    obtain ⟨t, ht, rfl⟩ := List.mem_map.1 ha
    unfold seedCandidates at ht
    rw [List.mem_filter] at ht
    have hnone := ht.2
    simp only [Bool.not_eq_true', List.any_eq_false, decide_eq_true_eq] at hnone
    obtain ⟨b, hb, hkey⟩ := hhas
    intro hid
    have hid' : t.id = s.id := by simpa using hid
    exact hnone b hb ⟨hkey.1, hkey.2.trans hid'.symm⟩
  · intro a ha
    unfold seedInserted at ha
    obtain ⟨t, ht, rfl⟩ := List.mem_map.1 ha
    unfold seedCandidates at ht
    exact ⟨rfl, rfl, rfl, t, (List.mem_filter.1 ht).1, rfl⟩

/-- Witness for C4: session 1 of the sample database, where only Bob has no
row yet. -/
theorem seedAbsent_postcondition_witness :
    sampleDb.StudentKey ∧
    (((seedAbsent (none : Option Nat) sampleDb 1).students = sampleDb.students ∧
      (seedAbsent (none : Option Nat) sampleDb 1).sessions = sampleDb.sessions ∧
      (seedAbsent (none : Option Nat) sampleDb 1).attendance =
        sampleDb.attendance ++ seedInserted (none : Option Nat) sampleDb 1) ∧
    (∀ s ∈ sampleDb.students, ∃ a ∈ (seedAbsent (none : Option Nat) sampleDb 1).attendance,
      a.session_id = 1 ∧ a.student_id = s.id) ∧
    (∀ s ∈ sampleDb.students,
      (¬ ∃ a ∈ sampleDb.attendance, a.session_id = 1 ∧ a.student_id = s.id) →
      (seedInserted (none : Option Nat) sampleDb 1).filter (fun a => decide (a.student_id = s.id)) =
        [AttendanceRow.mk 1 s.id Status.Absent none]) ∧
    (∀ s ∈ sampleDb.students,
      (∃ a ∈ sampleDb.attendance, a.session_id = 1 ∧ a.student_id = s.id) →
      (seedInserted (none : Option Nat) sampleDb 1).filter (fun a => decide (a.student_id = s.id)) = []) ∧
    (∀ a ∈ seedInserted (none : Option Nat) sampleDb 1,
      a.session_id = 1 ∧ a.status = Status.Absent ∧ a.marked_at = (none : Option Nat) ∧
        ∃ s ∈ sampleDb.students, s.id = a.student_id)) :=
  ⟨by decide, seedAbsent_postcondition none sampleDb 1 (by decide)⟩

/-! ## Mark attendance -/

theorem upsertAttendance_filter_other (sessionId studentId : Nat) (st : Status) (now : Nat)
    (att : List AttendanceRow) :
    (upsertAttendance sessionId studentId st now att).filter
        (fun a => !a.hasKey sessionId studentId) =
      att.filter (fun a => !a.hasKey sessionId studentId) := by
  induction att with
  | nil => simp [upsertAttendance, AttendanceRow.hasKey]
  | cons a r ih =>
    unfold upsertAttendance
    by_cases h : a.session_id = sessionId ∧ a.student_id = studentId
    · simp only [h, and_self, if_true]
      simp [List.filter_cons, AttendanceRow.hasKey, h]
    · simp only [h, if_false]
      simp only [List.filter_cons, ih]

theorem filter_hasKey_eq_nil (sessionId studentId : Nat) (att : List AttendanceRow)
    (h : ∀ a ∈ att, ¬ (a.session_id = sessionId ∧ a.student_id = studentId)) :
    att.filter (fun a => a.hasKey sessionId studentId) = [] := by
  rw [List.filter_eq_nil_iff]
  intro a ha hk
  exact h a ha (of_decide_eq_true hk)

theorem upsertAttendance_filter_key (sessionId studentId : Nat) (st : Status) (now : Nat)
    (att : List AttendanceRow) (hu : UniqueKey att) :
    ∃ a, (upsertAttendance sessionId studentId st now att).filter
        (fun a => a.hasKey sessionId studentId) = [a] ∧
      a.session_id = sessionId ∧ a.student_id = studentId ∧ a.status = st ∧
      a.marked_at = some now := by
  induction att with
  | nil =>
    exact ⟨AttendanceRow.mk sessionId studentId st (some now),
      by simp [upsertAttendance, AttendanceRow.hasKey], rfl, rfl, rfl, rfl⟩
  | cons a r ih =>
    unfold UniqueKey at hu
    simp only [List.map_cons, List.nodup_cons, List.mem_map, not_exists, not_and] at hu
    unfold upsertAttendance
    by_cases h : a.session_id = sessionId ∧ a.student_id = studentId
    · simp only [h, and_self, if_true]
      refine ⟨{ a with status := st, marked_at := some now }, ?_, h.1, h.2, rfl, rfl⟩
      have hr : r.filter (fun a => a.hasKey sessionId studentId) = [] := by
        apply filter_hasKey_eq_nil
        intro b hb hkey
        apply hu.1 b hb
        rw [hkey.1, hkey.2, h.1, h.2]
      rw [List.filter_cons_of_pos (by simp [AttendanceRow.hasKey, h]), hr, h.1, h.2]
    · simp only [h, if_false]
      obtain ⟨b, hb, hrest⟩ := ih hu.2
      refine ⟨b, ?_, hrest⟩
      simp only [List.filter_cons, AttendanceRow.hasKey, h, decide_False]
      exact hb

theorem upsertAttendance_keys (sessionId studentId : Nat) (st : Status) (now : Nat)
    (att : List AttendanceRow) :
    (upsertAttendance sessionId studentId st now att).map (fun a => (a.session_id, a.student_id)) =
      if (sessionId, studentId) ∈ att.map (fun a => (a.session_id, a.student_id)) then
        att.map (fun a => (a.session_id, a.student_id))
      else att.map (fun a => (a.session_id, a.student_id)) ++ [(sessionId, studentId)] := by
  induction att with
  | nil => simp [upsertAttendance]
  | cons a r ih =>
    unfold upsertAttendance
    by_cases h : a.session_id = sessionId ∧ a.student_id = studentId
    · simp [h]
    · have hne : ¬ (sessionId, studentId) = (a.session_id, a.student_id) := by
        intro he
        simp only [Prod.mk.injEq] at he
        exact h ⟨he.1.symm, he.2.symm⟩
      simp only [h, if_false, List.map_cons, List.mem_cons, hne, false_or, ih]
      split_ifs <;> simp

theorem upsertAttendance_uniqueKey (sessionId studentId : Nat) (st : Status) (now : Nat)
    (att : List AttendanceRow) (hu : UniqueKey att) :
    UniqueKey (upsertAttendance sessionId studentId st now att) := by
  unfold UniqueKey at hu ⊢
  rw [upsertAttendance_keys]
  split_ifs with h
  · exact hu
  · rw [List.nodup_append]
    refine ⟨hu, List.nodup_singleton _, ?_⟩
    intro k hk hk'
    rw [List.mem_singleton] at hk'
    exact h (hk' ▸ hk)

theorem markAttendance_valid (now : Nat) (db : Db) (sessionId studentId : Nat)
    (status : String) (st : Status) (hs : sessionId ≠ 0) (ht : studentId ≠ 0)
    (hst : Status.ofString status = some st) :
    markAttendance now db (some ⟨some sessionId, some studentId, some status⟩) =
      ({ db with attendance := upsertAttendance sessionId studentId st now db.attendance },
        Reply.ok true) := by
  simp [markAttendance, hst, hs, ht]

/-- C5: mark attendance is idempotent.  In a state where (session_id,
student_id) is a unique key of attendance, marking a pair twice with the same
valid status answers ok both times and leaves exactly one row for the pair,
carrying that status (and the time of the second mark); the rows of all other
pairs are the same as after the first mark, and students and sessions are
untouched. -/
theorem markAttendance_idempotent (now₁ now₂ : Nat) (db : Db) (sessionId studentId : Nat)
    (status : String) (st : Status) (hu : UniqueKey db.attendance) (hs : sessionId ≠ 0)
    (ht : studentId ≠ 0) (hst : Status.ofString status = some st) :
    (markAttendance now₁ db (some ⟨some sessionId, some studentId, some status⟩)).2 =
      Reply.ok true ∧
    (markAttendance now₂
        (markAttendance now₁ db (some ⟨some sessionId, some studentId, some status⟩)).1
        (some ⟨some sessionId, some studentId, some status⟩)).2 = Reply.ok true ∧
    (∃ a, (markTwice now₁ now₂ db (some ⟨some sessionId, some studentId, some status⟩)
          (some ⟨some sessionId, some studentId, some status⟩)).attendance.filter
          (fun a => a.hasKey sessionId studentId) = [a] ∧
        a.session_id = sessionId ∧ a.student_id = studentId ∧ a.status = st ∧
        a.marked_at = some now₂) ∧
    (markTwice now₁ now₂ db (some ⟨some sessionId, some studentId, some status⟩)
        (some ⟨some sessionId, some studentId, some status⟩)).attendance.filter
        (fun a => !a.hasKey sessionId studentId) =
      (markAttendance now₁ db
          (some ⟨some sessionId, some studentId, some status⟩)).1.attendance.filter
        (fun a => !a.hasKey sessionId studentId) ∧
    (markTwice now₁ now₂ db (some ⟨some sessionId, some studentId, some status⟩)
        (some ⟨some sessionId, some studentId, some status⟩)).students = db.students ∧
    (markTwice now₁ now₂ db (some ⟨some sessionId, some studentId, some status⟩)
        (some ⟨some sessionId, some studentId, some status⟩)).sessions = db.sessions := by
  unfold markTwice
  rw [markAttendance_valid now₁ db sessionId studentId status st hs ht hst,
    markAttendance_valid now₂ _ sessionId studentId status st hs ht hst]
  refine ⟨rfl, rfl, ?_, ?_, rfl, rfl⟩
  · exact upsertAttendance_filter_key sessionId studentId st now₂ _
      (upsertAttendance_uniqueKey sessionId studentId st now₁ _ hu)
  · exact upsertAttendance_filter_other sessionId studentId st now₂ _

/-- Witness for C5: marking (session 1, student 1) Absent twice in the sample
database. -/
theorem markAttendance_idempotent_witness :
    UniqueKey sampleDb.attendance ∧
    (∃ a, (markTwice 20 30 sampleDb (some ⟨some 1, some 1, some "Absent"⟩)
          (some ⟨some 1, some 1, some "Absent"⟩)).attendance.filter
          (fun a => a.hasKey 1 1) = [a] ∧
        a.session_id = 1 ∧ a.student_id = 1 ∧ a.status = Status.Absent ∧
        a.marked_at = some 30) :=
  ⟨by decide,
    (markAttendance_idempotent 20 30 sampleDb 1 1 "Absent" Status.Absent (by decide)
      (by decide) (by decide) (by decide)).2.2.1⟩

/-- C6: mark attendance is last-write-wins.  In a state where (session_id,
student_id) is a unique key of attendance, marking a pair with one valid
status and then with another answers ok both times and leaves exactly one row
for the pair, carrying the second status, whether or not the pair had a row
before. -/
theorem markAttendance_last_write_wins (now₁ now₂ : Nat) (db : Db)
    (sessionId studentId : Nat) (status₁ status₂ : String) (st₁ st₂ : Status)
    (hu : UniqueKey db.attendance) (hs : sessionId ≠ 0) (ht : studentId ≠ 0)
    (hst₁ : Status.ofString status₁ = some st₁) (hst₂ : Status.ofString status₂ = some st₂) :
    (markAttendance now₁ db (some ⟨some sessionId, some studentId, some status₁⟩)).2 =
      Reply.ok true ∧
    (markAttendance now₂
        (markAttendance now₁ db (some ⟨some sessionId, some studentId, some status₁⟩)).1
        (some ⟨some sessionId, some studentId, some status₂⟩)).2 = Reply.ok true ∧
    ∃ a, (markTwice now₁ now₂ db (some ⟨some sessionId, some studentId, some status₁⟩)
          (some ⟨some sessionId, some studentId, some status₂⟩)).attendance.filter
          (fun a => a.hasKey sessionId studentId) = [a] ∧
        a.session_id = sessionId ∧ a.student_id = studentId ∧ a.status = st₂ ∧
        a.marked_at = some now₂ := by
  unfold markTwice
  rw [markAttendance_valid now₁ db sessionId studentId status₁ st₁ hs ht hst₁,
    markAttendance_valid now₂ _ sessionId studentId status₂ st₂ hs ht hst₂]
  refine ⟨rfl, rfl, ?_⟩
  exact upsertAttendance_filter_key sessionId studentId st₂ now₂ _
    (upsertAttendance_uniqueKey sessionId studentId st₁ now₁ _ hu)

/-- Witness for C6: session 1, student 5 marked Present and then Absent in the
sample database. -/
theorem markAttendance_last_write_wins_witness :
    UniqueKey sampleDb.attendance ∧
    ∃ a, (markTwice 20 30 sampleDb (some ⟨some 1, some 5, some "Present"⟩)
          (some ⟨some 1, some 5, some "Absent"⟩)).attendance.filter
          (fun a => a.hasKey 1 5) = [a] ∧
        a.session_id = 1 ∧ a.student_id = 5 ∧ a.status = Status.Absent ∧
        a.marked_at = some 30 :=
  ⟨by decide,
    (markAttendance_last_write_wins 20 30 sampleDb 1 5 "Present" "Absent" Status.Present
      Status.Absent (by decide) (by decide) (by decide) (by decide) (by decide)).2.2⟩

/-! ## Count and page statements -/

theorem leftJoin_fst_mem {db : Db} {r : Student × Option AttendanceRow}
    (hr : r ∈ leftJoinAttendance db.students db.attendance) : r.1 ∈ db.students :=
  ((mem_leftJoinAttendance db.students db.attendance r.1 r.2).1 hr).1

/-- The groups of `GROUP BY s.id`, when ids identify students. -/
theorem groups_by_id (db : Db) (hk : db.StudentKey) :
    (groupRows (fun r : Student × Option AttendanceRow => r.1.id)
        (leftJoinAttendance db.students db.attendance)).Perm
      (db.students.map (fun s => (s.id, groupOf db s))) := by
  have h := groupRows_perm (fun r : Student × Option AttendanceRow => r.1.id)
    (leftJoinAttendance db.students db.attendance)
    (db.students.map (fun s : Student => s.id)) hk (by
      intro k
      rw [List.mem_map]
      constructor
      · rintro ⟨s, hs, rfl⟩
        obtain ⟨o, ho⟩ := exists_leftJoinAttendance db.students db.attendance s hs
        exact ⟨(s, o), ho, rfl⟩
      · rintro ⟨r, hr, rfl⟩
        exact ⟨r.1, leftJoin_fst_mem hr, rfl⟩)
  rw [List.map_map] at h
  exact h

/-- The groups of `GROUP BY s.id, s.name, s.phone`, when ids identify
students. -/
theorem groups_by_id_name_phone (db : Db) (hk : db.StudentKey) :
    (groupRows (fun r : Student × Option AttendanceRow => (r.1.id, r.1.name, r.1.phone))
        (leftJoinAttendance db.students db.attendance)).Perm
      (db.students.map (fun s => ((s.id, s.name, s.phone), groupOf db s))) := by
  have hnd : (db.students.map (fun s => (s.id, s.name, s.phone))).Nodup := by
    apply List.Nodup.of_map (fun k : Nat × Option String × Option String => k.1)
    rw [List.map_map]
    exact hk
  have h := groupRows_perm
    (fun r : Student × Option AttendanceRow => (r.1.id, r.1.name, r.1.phone))
    (leftJoinAttendance db.students db.attendance)
    (db.students.map (fun s : Student => (s.id, s.name, s.phone))) hnd (by
      intro k
      rw [List.mem_map]
      constructor
      · rintro ⟨s, hs, rfl⟩
        obtain ⟨o, ho⟩ := exists_leftJoinAttendance db.students db.attendance s hs
        exact ⟨(s, o), ho, rfl⟩
      · rintro ⟨r, hr, rfl⟩
        exact ⟨r.1, leftJoin_fst_mem hr, rfl⟩)
  rw [List.map_map] at h
  refine h.trans (List.Perm.of_eq ?_)
  apply List.map_congr_left
  intro s hs
  simp only [Function.comp_def, Prod.mk.injEq, true_and]
  unfold groupOf
  apply List.filter_congr
  intro r hr
  have hmem := leftJoin_fst_mem hr
  by_cases hid : r.1.id = s.id
  · have heq : r.1 = s := hk.eq_of_id hmem hs hid
    simp [heq]
  · simp [hid]

theorem reportCount_eq (db : Db) (hk : db.StudentKey) (present absent : Int) :
    reportCount db present absent =
      (db.students.filter (fun s => havingCounts present absent (groupOf db s))).length := by
  unfold reportCount
  rw [((groups_by_id db hk).filter _).length_eq, List.filter_map, List.length_map]
  rfl

theorem reportGrouped_perm (db : Db) (hk : db.StudentKey) (present absent : Int) :
    (reportGrouped db present absent).Perm
      ((db.students.filter (fun s => havingCounts present absent (groupOf db s))).map
        (fun s => CountRow.mk s.id s.name s.phone
          (sumStatusCase Status.Present (groupOf db s))
          (sumStatusCase Status.Absent (groupOf db s)))) := by
  unfold reportGrouped
  have h := (((groups_by_id_name_phone db hk).filter
    (fun g => havingCounts present absent g.2)).map
    (fun g : (Nat × Option String × Option String) × List (Student × Option AttendanceRow) =>
      CountRow.mk g.1.1 g.1.2.1 g.1.2.2 (sumStatusCase Status.Present g.2)
        (sumStatusCase Status.Absent g.2)))
  rw [List.filter_map, List.map_map] at h
  exact h

theorem reportGrouped_length (db : Db) (hk : db.StudentKey) (present absent : Int) :
    (reportGrouped db present absent).length = reportCount db present absent := by
  rw [(reportGrouped_perm db hk present absent).length_eq, List.length_map,
    reportCount_eq db hk]

/-- C7: count/page consistency.  With an engine that returns the rows it
orders and ids that identify students, the total reported by the students
list, by the attendance-by-session list and by the students-by-count report
is the number of rows the page statement of the same request yields when its
LIMIT/OFFSET line is dropped, and the rows of the response are what LIMIT
per_page OFFSET offset cuts out of them. -/
theorem total_counts_page_rows (E : Engine) (hE : E.Reorders) (db : Db) (hk : db.StudentKey)
    (q : StudentsQuery) (sessionId : Nat) (qa : AttendanceQuery) (qc : CountQuery) :
    ((studentsList E db q).total =
        (studentsOrdered E db q.filter (orderClause (q.sort.getD "name_asc"))).length ∧
      (studentsList E db q).rows =
        limitOffset (studentsOrdered E db q.filter (orderClause (q.sort.getD "name_asc")))
          (studentsList E db q).per_page
          (((studentsList E db q).page - 1) * (studentsList E db q).per_page)) ∧
    ((attendanceList E db sessionId qa).total =
        (attendanceOrdered E db sessionId (qa.name.getD "") (qa.phone.getD "")).length ∧
      (attendanceList E db sessionId qa).rows =
        limitOffset (attendanceOrdered E db sessionId (qa.name.getD "") (qa.phone.getD ""))
          (attendanceList E db sessionId qa).per_page
          (((attendanceList E db sessionId qa).page - 1) *
            (attendanceList E db sessionId qa).per_page)) ∧
    (match studentsByCount E db qc with
      | Reply.ok b =>
        b.total = (reportOrdered E db b.present b.absent).length ∧
        b.rows = (limitOffset (reportOrdered E db b.present b.absent) b.per_page
          ((b.page - 1) * b.per_page)).map toReportRow
      | Reply.error _ _ =>
        invalidCount (parseIntParam qc.present) = true ∨
          invalidCount (parseIntParam qc.absent) = true) := by
  refine ⟨⟨?_, rfl⟩, ⟨?_, rfl⟩, ?_⟩
  · simp only [studentsList, studentsOrdered]
    rw [(hE.1 _ _).length_eq, studentsGrouped_length E db q.filter hk]
  · simp only [attendanceList, attendanceOrdered, attendanceCount, attendanceSelected]
    rw [(hE.2.1 _).length_eq, List.length_map]
  · unfold studentsByCount
    by_cases hv : (invalidCount (parseIntParam qc.present) ||
        invalidCount (parseIntParam qc.absent)) = true
    · simp only [hv, if_true]
      simpa using hv
    · simp only [hv]
      refine ⟨?_, rfl⟩
      simp only [reportOrdered]
      rw [(hE.2.2 _).length_eq, reportGrouped_length db hk]

/-- Witness for C7: the reference engine on the sample database. -/
theorem total_counts_page_rows_witness :
    referenceEngine.Reorders ∧ sampleDb.StudentKey ∧
    (studentsList referenceEngine sampleDb emptyStudentsQuery).total =
      (studentsOrdered referenceEngine sampleDb emptyStudentsQuery.filter
        (orderClause (emptyStudentsQuery.sort.getD "name_asc"))).length ∧
    (attendanceList referenceEngine sampleDb 1 ⟨none, none, none, none⟩).total =
      (attendanceOrdered referenceEngine sampleDb 1
        ((⟨none, none, none, none⟩ : AttendanceQuery).name.getD "")
        ((⟨none, none, none, none⟩ : AttendanceQuery).phone.getD "")).length :=
  ⟨referenceEngine_reorders, by decide,
    (total_counts_page_rows referenceEngine referenceEngine_reorders sampleDb (by decide)
      emptyStudentsQuery 1 ⟨none, none, none, none⟩ ⟨none, none, none, none⟩).1.1,
    (total_counts_page_rows referenceEngine referenceEngine_reorders sampleDb (by decide)
      emptyStudentsQuery 1 ⟨none, none, none, none⟩ ⟨none, none, none, none⟩).2.1.1⟩

/-! ## The WHERE clause of the students list -/

theorem isEmptyParam_empty (E : Engine) : E.isEmptyParam "" = some true := by
  simp [Engine.isEmptyParam, Engine.strEq]

theorem sqlOr_true_left (x : Option Bool) : sqlOr (some true) x = some true := by
  cases x with
  | none => rfl
  | some b => cases b <;> rfl

theorem param_eq_empty {v : Option String} (h : v = none ∨ v = some "") : v.getD "" = "" := by
  rcases h with rfl | rfl <;> rfl

/-- C8: an empty filter is no constraint.  For every engine and every student
row, NULL columns included: when a filter of the students list is absent or
the empty string, the conjunct of the WHERE clause for that filter is TRUE;
and when all four are, the WHERE clause keeps the row, so the total of the
response is the number of students. -/
theorem empty_filter_matches_all (E : Engine) (db : Db) (s : Student) (q : StudentsQuery) :
    ((q.name = none ∨ q.name = some "") → nameCond E q.filter.name s = some true) ∧
    ((q.phone = none ∨ q.phone = some "") → phoneCond E q.filter.phone s = some true) ∧
    ((q.gender = none ∨ q.gender = some "") → genderCond E q.filter.gender s = some true) ∧
    ((q.graduation_year = none ∨ q.graduation_year = some "") →
      yearCond E q.filter.graduation_year s = some true) ∧
    ((q.name = none ∨ q.name = some "") → (q.phone = none ∨ q.phone = some "") →
      (q.gender = none ∨ q.gender = some "") →
      (q.graduation_year = none ∨ q.graduation_year = some "") →
      holds (studentsWhere E q.filter s) = true ∧
        (studentsList E db q).total = db.students.length) := by
  have hn : (q.name = none ∨ q.name = some "") → nameCond E q.filter.name s = some true := by
    intro h
    simp only [StudentsQuery.filter, param_eq_empty h, nameCond, isEmptyParam_empty,
      sqlOr_true_left]
  have hp : (q.phone = none ∨ q.phone = some "") →
      phoneCond E q.filter.phone s = some true := by
    intro h
    simp only [StudentsQuery.filter, param_eq_empty h, phoneCond, isEmptyParam_empty,
      sqlOr_true_left]
  have hg : (q.gender = none ∨ q.gender = some "") →
      genderCond E q.filter.gender s = some true := by
    intro h
    simp only [StudentsQuery.filter, param_eq_empty h, genderCond, isEmptyParam_empty,
      sqlOr_true_left]
  have hy : (q.graduation_year = none ∨ q.graduation_year = some "") →
      yearCond E q.filter.graduation_year s = some true := by
    intro h
    simp only [StudentsQuery.filter, param_eq_empty h, yearCond, isEmptyParam_empty,
      sqlOr_true_left]
  refine ⟨hn, hp, hg, hy, ?_⟩
  intro h1 h2 h3 h4
  have hall : ∀ t : Student, holds (studentsWhere E q.filter t) = true := by
    intro t
    simp only [StudentsQuery.filter, param_eq_empty h1, param_eq_empty h2, param_eq_empty h3,
      param_eq_empty h4, studentsWhere, nameCond, phoneCond, genderCond, yearCond,
      isEmptyParam_empty, sqlOr_true_left, sqlAnd, holds, beq_self_eq_true]
  refine ⟨hall s, ?_⟩
  simp only [studentsList, studentsCount]
  rw [List.filter_eq_self.2 (fun t _ => hall t)]

/-! ## Filter semantics -/

theorem sqlOr_eq_true (a b : Option Bool) :
    sqlOr a b = some true ↔ a = some true ∨ b = some true := by
  rcases a with _ | _ | _ <;> rcases b with _ | _ | _ <;> simp [sqlOr]

theorem sqlAnd_eq_true (a b : Option Bool) :
    sqlAnd a b = some true ↔ a = some true ∧ b = some true := by
  rcases a with _ | _ | _ <;> rcases b with _ | _ | _ <;> simp [sqlAnd]

theorem holds_iff (c : Option Bool) : holds c = true ↔ c = some true := by
  rcases c with _ | _ | _ <;> simp [holds]

theorem likeMatch_percent (fold : Char → Char) (p t : List Char) :
    likeMatch fold ('%' :: p) t = t.tails.any (fun u => likeMatch fold p u) := by
  rw [likeMatch.eq_def]
  simp

theorem likeMatch_plain_nil (fold : Char → Char) (c : Char) (p : List Char)
    (hc : isLikeSpecial c = false) : likeMatch fold (c :: p) [] = false := by
  simp only [isLikeSpecial, Bool.or_eq_false_iff, beq_eq_false_iff_ne, ne_eq] at hc
  obtain ⟨⟨h1, h2⟩, h3⟩ := hc
  rw [likeMatch.eq_def]
  simp [h1, h2, h3]

theorem likeMatch_plain_cons (fold : Char → Char) (c : Char) (p : List Char) (x : Char)
    (u : List Char) (hc : isLikeSpecial c = false) :
    likeMatch fold (c :: p) (x :: u) = (fold x == fold c && likeMatch fold p u) := by
  simp only [isLikeSpecial, Bool.or_eq_false_iff, beq_eq_false_iff_ne, ne_eq] at hc
  obtain ⟨⟨h1, h2⟩, h3⟩ := hc
  rw [likeMatch.eq_def]
  simp [h1, h2, h3]

/-- A pattern without special characters, followed by `%`, matches the texts
it is a beginning of. -/
theorem likeMatch_plain_begins (fold : Char → Char) :
    ∀ (p u : List Char), (∀ c ∈ p, isLikeSpecial c = false) →
      (likeMatch fold (p ++ ['%']) u = true ↔ (p.map fold).isPrefixOf (u.map fold) = true) := by
  intro p
  induction p with
  | nil =>
    intro u _
    simp only [List.nil_append, List.map_nil, List.isPrefixOf_nil_left, iff_true]
    rw [likeMatch_percent, List.any_eq_true]
    exact ⟨[], by simp, rfl⟩
  | cons c p ih =>
    intro u hp
    have hc : isLikeSpecial c = false := hp c (List.mem_cons_self _ _)
    have ih' := fun u => ih u (fun d hd => hp d (List.mem_cons_of_mem _ hd))
    cases u with
    | nil =>
      rw [List.cons_append, likeMatch_plain_nil fold c _ hc]
      simp [List.isPrefixOf]
    | cons x u =>
      rw [List.cons_append, likeMatch_plain_cons fold c _ x u hc]
      simp only [List.map_cons, List.isPrefixOf, Bool.and_eq_true, beq_iff_eq, ih' u]
      constructor
      · rintro ⟨ha, hb⟩
        exact ⟨ha.symm, hb⟩
      · rintro ⟨ha, hb⟩
        exact ⟨ha.symm, hb⟩

/-- The condition `col LIKE CONCAT('%', v, '%')` is TRUE exactly when `v` is a
substring of the column, for a value without special characters. -/
theorem likeContains_plain (E : Engine) (col : Option String) (v : String)
    (hv : ∀ c ∈ v.toList, isLikeSpecial c = false) :
    E.likeContains col v = some true ↔ isSubstringOf E v col = true := by
  cases col with
  | none => simp [Engine.likeContains, isSubstringOf]
  | some text =>
    simp only [Engine.likeContains, isSubstringOf, occursIn, Option.some.injEq]
    rw [likeMatch_percent, List.any_eq_true, List.any_eq_true]
    constructor
    · rintro ⟨u, hu, hm⟩
      exact ⟨u, hu, (likeMatch_plain_begins E.fold _ u hv).1 hm⟩
    · rintro ⟨u, hu, hm⟩
      exact ⟨u, hu, (likeMatch_plain_begins E.fold _ u hv).2 hm⟩

theorem stripTrailingSpaces_eq_nil (cs : List Char) :
    stripTrailingSpaces cs = [] ↔ cs.all (fun c => c == ' ') = true := by
  unfold stripTrailingSpaces
  rw [List.reverse_eq_nil_iff, List.dropWhile_eq_nil_iff, List.all_eq_true]
  simp

theorem toList_eq_nil (v : String) : v.toList = [] ↔ v = "" := by
  constructor
  · intro h
    cases v with
    | mk d =>
      have hd : d = [] := h
      rw [hd]
  · rintro rfl
    rfl

/-- The condition `? = ''` is TRUE for the empty string, and for no other
value that is not made of spaces only. -/
theorem isEmptyParam_iff (E : Engine) (v : String) (hv : onlySpaces v = true → v = "") :
    E.isEmptyParam v = some true ↔ v = "" := by
  constructor
  · intro h
    simp only [Engine.isEmptyParam, Engine.strEq, Engine.key, Option.some.injEq,
      beq_iff_eq] at h
    by_cases hp : E.padSpace = true
    · simp only [hp, if_true] at h
      have h2 : (stripTrailingSpaces ("" : String).toList).map E.fold = [] := by
        simp [stripTrailingSpaces]
      rw [h2, List.map_eq_nil_iff, stripTrailingSpaces_eq_nil] at h
      exact hv h
    · simp only [hp] at h
      have h2 : (("" : String).toList).map E.fold = [] := by simp
      have h3 : v.toList.map E.fold = [] := by
        simpa using h
      rw [List.map_eq_nil_iff] at h3
      exact (toList_eq_nil v).1 h3
  · rintro rfl
    exact isEmptyParam_empty E

/-- C9 as amended: the filter semantics of the students list for filters
whose name and phone values hold none of the LIKE characters %, _ and
backslash and none of which is a non-empty run of spaces.  For every engine
and every student, the WHERE clause keeps the student exactly when (the name
filter is empty or a substring of name, father_name or last_name) and (the
phone filter is empty or a substring of phone) and (the gender filter is
empty or gender equals it) and (the graduation_year filter is empty or
graduation_year equals it). -/
theorem filter_semantics_plain (E : Engine) (f : StudentsFilter) (s : Student)
    (hname : ∀ c ∈ f.name.toList, isLikeSpecial c = false)
    (hphone : ∀ c ∈ f.phone.toList, isLikeSpecial c = false)
    (hs₁ : onlySpaces f.name = true → f.name = "")
    (hs₂ : onlySpaces f.phone = true → f.phone = "")
    (hs₃ : onlySpaces f.gender = true → f.gender = "")
    (hs₄ : onlySpaces f.graduation_year = true → f.graduation_year = "") :
    holds (studentsWhere E f s) = true ↔ describedSelection E f s := by
  have e₁ := isEmptyParam_iff E f.name hs₁
  have e₂ := isEmptyParam_iff E f.phone hs₂
  have e₃ := isEmptyParam_iff E f.gender hs₃
  have e₄ := isEmptyParam_iff E f.graduation_year hs₄
  have l₁ := likeContains_plain E s.name f.name hname
  have l₂ := likeContains_plain E s.father_name f.name hname
  have l₃ := likeContains_plain E s.last_name f.name hname
  have l₄ := likeContains_plain E s.phone f.phone hphone
  have hn : nameCond E f.name s = some true ↔
      (f.name = "" ∨ isSubstringOf E f.name s.name = true ∨
        isSubstringOf E f.name s.father_name = true ∨
        isSubstringOf E f.name s.last_name = true) := by
    unfold nameCond
    rw [sqlOr_eq_true, sqlOr_eq_true, sqlOr_eq_true, e₁, l₁, l₂, l₃, or_assoc, or_assoc]
  have hp : phoneCond E f.phone s = some true ↔
      (f.phone = "" ∨ isSubstringOf E f.phone s.phone = true) := by
    unfold phoneCond
    rw [sqlOr_eq_true, e₂, l₄]
  have hg : genderCond E f.gender s = some true ↔
      (f.gender = "" ∨ E.colEq s.gender f.gender = some true) := by
    unfold genderCond
    rw [sqlOr_eq_true, e₃]
  have hy : yearCond E f.graduation_year s = some true ↔
      (f.graduation_year = "" ∨
        E.colNumEq s.graduation_year f.graduation_year = some true) := by
    unfold yearCond
    rw [sqlOr_eq_true, e₄]
  rw [holds_iff]
  unfold studentsWhere describedSelection
  rw [sqlAnd_eq_true, sqlAnd_eq_true, sqlAnd_eq_true, hn, hp, hg, hy, and_assoc, and_assoc]

/-- Witness for C9 as amended: the filters name "da" and phone "07" select
Adam in the sample database. -/
theorem filter_semantics_plain_witness :
    holds (studentsWhere referenceEngine ⟨"da", "07", "", ""⟩ (sampleStudent 1 "Adam" "80071")) =
        true ↔
      describedSelection referenceEngine ⟨"da", "07", "", ""⟩ (sampleStudent 1 "Adam" "80071") :=
  filter_semantics_plain referenceEngine ⟨"da", "07", "", ""⟩ (sampleStudent 1 "Adam" "80071")
    (by decide) (by decide) (by decide) (by decide) (by decide) (by decide)

/-- Counterexample to C9 as stated.  With the name filter "%" the WHERE
clause keeps the student named Adam, although "%" is a substring of none of
his names; and under a PAD SPACE collation the name filter " " keeps him as
well, the filter comparing equal to the empty string. -/
theorem filter_semantics_counterexample :
    (holds (studentsWhere referenceEngine ⟨"%", "", "", ""⟩ (sampleStudent 1 "Adam" "80071")) =
        true ∧
      ¬ describedSelection referenceEngine ⟨"%", "", "", ""⟩ (sampleStudent 1 "Adam" "80071")) ∧
    (holds (studentsWhere paddingEngine ⟨" ", "", "", ""⟩ (sampleStudent 1 "Adam" "80071")) =
        true ∧
      ¬ describedSelection paddingEngine ⟨" ", "", "", ""⟩ (sampleStudent 1 "Adam" "80071")) := by
  decide

/-! ## The exact-count report -/

theorem coalesce_sqlSum_some (l : List Nat) : coalesce (sqlSum (l.map some)) 0 = l.sum := by
  cases l with
  | nil => rfl
  | cons a r =>
    have h : ((a :: r).map some).filterMap id = a :: r := by
      rw [List.filterMap_map]
      simp
    unfold sqlSum
    rw [h]
    simp [coalesce]

theorem sum_indicator {α : Type} (p : α → Bool) (l : List α) :
    (l.map (fun x => if p x = true then 1 else 0)).sum = (l.filter p).length := by
  induction l with
  | nil => rfl
  | cons a r ih =>
    by_cases h : p a = true
    · simp [List.filter_cons, h, ih]; omega
    · simp [List.filter_cons, h, ih]

theorem leftJoinAttendance_cons (t : Student) (r : List Student) (att : List AttendanceRow) :
    leftJoinAttendance (t :: r) att = leftJoinAttendance [t] att ++ leftJoinAttendance r att := by
  simp [leftJoinAttendance, List.flatMap_cons]

/-- When ids identify students, the joined rows carrying the id of a student
are the joined rows of that student. -/
theorem filter_leftJoin_id (att : List AttendanceRow) :
    ∀ (l : List Student), (l.map (fun s => s.id)).Nodup → ∀ s ∈ l,
      (leftJoinAttendance l att).filter (fun r => decide (r.1.id = s.id)) =
        leftJoinAttendance [s] att := by
  intro l
  induction l with
  | nil => intro _ s hs; simp at hs
  | cons t r ih =>
    intro hnd s hs
    simp only [List.map_cons, List.nodup_cons, List.mem_map, not_exists, not_and] at hnd
    rw [leftJoinAttendance_cons, List.filter_append]
    rcases List.mem_cons.1 hs with rfl | hr
    · have h1 : (leftJoinAttendance [s] att).filter (fun r => decide (r.1.id = s.id)) =
          leftJoinAttendance [s] att := by
        rw [List.filter_eq_self]
        rintro ⟨x, o⟩ hx
        have := ((mem_leftJoinAttendance [s] att x o).1 hx).1
        rw [List.mem_singleton] at this
        simp [this]
      have h2 : (leftJoinAttendance r att).filter (fun r => decide (r.1.id = s.id)) = [] := by
        rw [List.filter_eq_nil_iff]
        rintro ⟨x, o⟩ hx
        have hxr := ((mem_leftJoinAttendance r att x o).1 hx).1
        have := hnd.1 x hxr
        simpa using this
      rw [h1, h2, List.append_nil]
    · have hne : t.id ≠ s.id := fun h => hnd.1 s hr h.symm
      have h1 : (leftJoinAttendance [t] att).filter (fun r => decide (r.1.id = s.id)) = [] := by
        rw [List.filter_eq_nil_iff]
        rintro ⟨x, o⟩ hx
        have := ((mem_leftJoinAttendance [t] att x o).1 hx).1
        rw [List.mem_singleton] at this
        simp [this, hne]
      rw [h1, List.nil_append, ih hnd.2 s hr]

theorem groupOf_eq (db : Db) (hk : db.StudentKey) (s : Student) (hs : s ∈ db.students) :
    groupOf db s = leftJoinAttendance [s] db.attendance :=
  filter_leftJoin_id db.attendance db.students hk s hs

/-- The CASE sum over the joined rows of one student counts the attendance
rows of the student that carry the status. -/
theorem sumStatusCase_single (att : List AttendanceRow) (s : Student) (st : Status) :
    sumStatusCase st (leftJoinAttendance [s] att) =
      (att.filter (fun a => decide (a.student_id = s.id ∧ a.status = st))).length := by
  have hsplit : att.filter (fun a => decide (a.student_id = s.id ∧ a.status = st)) =
      (att.filter (fun a => decide (a.student_id = s.id))).filter
        (fun a => decide (a.status = st)) := by
    rw [List.filter_filter]
    congr 1
    funext a
    by_cases h1 : a.student_id = s.id <;> by_cases h2 : a.status = st <;> simp [h1, h2]
  have hcase : ∀ grp : List (Student × Option AttendanceRow),
      sumStatusCase st grp = (grp.map (fun r =>
        match r.2 with
        | some a => if a.status = st then 1 else 0
        | none => 0)).sum := by
    intro grp
    unfold sumStatusCase
    rw [← coalesce_sqlSum_some, List.map_map]
    rfl
  rw [hcase, hsplit]
  unfold leftJoinAttendance
  simp only [List.flatMap_cons, List.flatMap_nil, List.append_nil]
  cases hf : att.filter (fun a => decide (a.student_id = s.id)) with
  | nil => simp
  | cons a r =>
    simp only [List.map_map]
    have := sum_indicator (fun x : AttendanceRow => decide (x.status = st)) (a :: r)
    simpa [Function.comp_def] using this

theorem sumStatusCase_groupOf (db : Db) (hk : db.StudentKey) (s : Student)
    (hs : s ∈ db.students) (st : Status) :
    sumStatusCase st (groupOf db s) = statusCount db s.id st := by
  rw [groupOf_eq db hk s hs, sumStatusCase_single]
  rfl

theorem mem_limitOffset {α : Type} {rows : List α} {limit offset : Int} {x : α}
    (h : x ∈ limitOffset rows limit offset) : x ∈ rows :=
  List.mem_of_mem_drop (List.mem_of_mem_take h)

theorem havingCounts_groupOf (db : Db) (hk : db.StudentKey) (s : Student)
    (hs : s ∈ db.students) (present absent : Int) :
    havingCounts present absent (groupOf db s) = true ↔
      ((statusCount db s.id Status.Present : Int) = present ∧
        (statusCount db s.id Status.Absent : Int) = absent) := by
  unfold havingCounts
  rw [sumStatusCase_groupOf db hk s hs, sumStatusCase_groupOf db hk s hs]
  simp

/-- C10: the exact-count report.  With an engine that returns the rows it
orders and ids that identify students, a request whose present and absent
parse to non-negative integers is answered with a body in which every row is
a student whose number of Present attendance rows is present and whose
number of Absent rows is absent (both 0 for a student without attendance),
carries these two counts and has total = present_count + absent_count; the
field total is the number of such students, and each of them is a row of the
page statement without LIMIT/OFFSET. -/
theorem students_by_count_exact (E : Engine) (hE : E.Reorders) (db : Db) (hk : db.StudentKey)
    (q : CountQuery) (p a : Int) (hp : parseIntParam q.present = some p)
    (ha : parseIntParam q.absent = some a) (hp0 : 0 ≤ p) (ha0 : 0 ≤ a) :
    ∃ b, studentsByCount E db q = Reply.ok b ∧ b.present = p ∧ b.absent = a ∧
      (∀ r ∈ b.rows, ∃ s ∈ db.students, r.id = s.id ∧ r.name = s.name ∧ r.phone = s.phone ∧
        (statusCount db s.id Status.Present : Int) = p ∧
        (statusCount db s.id Status.Absent : Int) = a ∧
        r.present_count = statusCount db s.id Status.Present ∧
        r.absent_count = statusCount db s.id Status.Absent ∧
        r.total = r.present_count + r.absent_count) ∧
      b.total = (db.students.filter (fun s =>
        decide ((statusCount db s.id Status.Present : Int) = p ∧
          (statusCount db s.id Status.Absent : Int) = a))).length ∧
      (∀ s ∈ db.students, (statusCount db s.id Status.Present : Int) = p →
        (statusCount db s.id Status.Absent : Int) = a →
        ∃ c ∈ reportOrdered E db p a, c.id = s.id) := by
  have hvalid : (invalidCount (some p) || invalidCount (some a)) = false := by
    simp [invalidCount, hp0, ha0]
  have hmem : ∀ c, c ∈ reportGrouped db p a ↔
      ∃ s ∈ db.students, havingCounts p a (groupOf db s) = true ∧
        c = CountRow.mk s.id s.name s.phone (sumStatusCase Status.Present (groupOf db s))
          (sumStatusCase Status.Absent (groupOf db s)) := by
    intro c
    rw [(reportGrouped_perm db hk p a).mem_iff, List.mem_map]
    constructor
    · rintro ⟨s, hs, rfl⟩
      rw [List.mem_filter] at hs
      exact ⟨s, hs.1, hs.2, rfl⟩
    · rintro ⟨s, hs, hh, rfl⟩
      exact ⟨s, List.mem_filter.2 ⟨hs, hh⟩, rfl⟩
  refine ⟨CountReport.mk p a (reportWindow q.page q.per_page).pg
    (reportWindow q.page q.per_page).perPage (reportCount db p a)
    (totalPages (reportCount db p a) (reportWindow q.page q.per_page).perPage)
    ((reportRows E db p a (reportWindow q.page q.per_page).perPage
      (reportWindow q.page q.per_page).offset).map toReportRow), ?_, rfl, rfl, ?_, ?_, ?_⟩
  · unfold studentsByCount
    rw [hp, ha]
    simp only [hvalid, Bool.false_eq_true, if_false, Option.getD_some]
  · intro r hr
    simp only [List.mem_map] at hr
    obtain ⟨c, hc, rfl⟩ := hr
    have hc2 : c ∈ reportGrouped db p a :=
      ((hE.2.2 _).mem_iff).1 (mem_limitOffset hc)
    obtain ⟨s, hs, hh, rfl⟩ := (hmem c).1 hc2
    have hcounts := (havingCounts_groupOf db hk s hs p a).1 hh
    refine ⟨s, hs, rfl, rfl, rfl, hcounts.1, hcounts.2, ?_, ?_, rfl⟩
    · exact sumStatusCase_groupOf db hk s hs Status.Present
    · exact sumStatusCase_groupOf db hk s hs Status.Absent
  · show reportCount db p a = _
    rw [reportCount_eq db hk]
    congr 1
    apply List.filter_congr
    intro s hs
    rw [Bool.eq_iff_iff, havingCounts_groupOf db hk s hs, decide_eq_true_iff]
  · intro s hs h1 h2
    have hh := (havingCounts_groupOf db hk s hs p a).2 ⟨h1, h2⟩
    refine ⟨_, ((hE.2.2 _).mem_iff).2 ((hmem _).2 ⟨s, hs, hh, rfl⟩), rfl⟩

/-- Witness for C10: present=0 and absent=1 on the sample database, where Eve
is the one such student. -/
theorem students_by_count_exact_witness :
    referenceEngine.Reorders ∧ sampleDb.StudentKey ∧
    ∃ b, studentsByCount referenceEngine sampleDb ⟨some "0", some "1", none, none⟩ =
        Reply.ok b ∧ b.present = 0 ∧ b.absent = 1 ∧
      (∀ r ∈ b.rows, ∃ s ∈ sampleDb.students, r.id = s.id ∧ r.name = s.name ∧
        r.phone = s.phone ∧
        (statusCount sampleDb s.id Status.Present : Int) = 0 ∧
        (statusCount sampleDb s.id Status.Absent : Int) = 1 ∧
        r.present_count = statusCount sampleDb s.id Status.Present ∧
        r.absent_count = statusCount sampleDb s.id Status.Absent ∧
        r.total = r.present_count + r.absent_count) ∧
      b.total = (sampleDb.students.filter (fun s =>
        decide ((statusCount sampleDb s.id Status.Present : Int) = 0 ∧
          (statusCount sampleDb s.id Status.Absent : Int) = 1))).length ∧
      (∀ s ∈ sampleDb.students, (statusCount sampleDb s.id Status.Present : Int) = 0 →
        (statusCount sampleDb s.id Status.Absent : Int) = 1 →
        ∃ c ∈ reportOrdered referenceEngine sampleDb 0 1, c.id = s.id) :=
  ⟨referenceEngine_reorders, by decide,
    students_by_count_exact referenceEngine referenceEngine_reorders sampleDb (by decide)
      ⟨some "0", some "1", none, none⟩ 0 1 (by decide) (by decide) (by decide) (by decide)⟩

/-! ## Normalisation of page and per_page -/

theorem pageWindow_perPage_eq (page per_page : String) :
    (pageWindow page per_page).perPage =
      (match parseInt per_page with
        | none => 10
        | some n => if n = 0 then 10 else min (max n 1) 100) := by
  simp only [pageWindow, orDefault]
  cases parseInt per_page with
  | none => rfl
  | some n =>
    by_cases h : n = 0
    · simp [h]
    · simp only [h, if_false]
      rw [max_comm]

/-- C11: per-page normalisation of the students list and of the
attendance-by-session list.  With n = parseInt(per_page, 10), the per_page of
the response is 10 when n is NaN or 0 and min(max(n, 1), 100) otherwise; it
lies between 1 and 100; and a request with per_page=0 is answered with
per_page 10 and a total_pages of at least 1. -/
theorem per_page_normalisation (E : Engine) (db : Db) (q : StudentsQuery) (sessionId : Nat)
    (qa : AttendanceQuery) :
    ((studentsList E db q).per_page =
        (match parseInt (q.per_page.getD "10") with
          | none => 10
          | some n => if n = 0 then 10 else min (max n 1) 100) ∧
      1 ≤ (studentsList E db q).per_page ∧ (studentsList E db q).per_page ≤ 100) ∧
    ((attendanceList E db sessionId qa).per_page =
        (match parseInt (qa.per_page.getD "10") with
          | none => 10
          | some n => if n = 0 then 10 else min (max n 1) 100) ∧
      1 ≤ (attendanceList E db sessionId qa).per_page ∧
      (attendanceList E db sessionId qa).per_page ≤ 100) ∧
    ((studentsList E db { q with per_page := some "0" }).per_page = 10 ∧
      1 ≤ (studentsList E db { q with per_page := some "0" }).total_pages) ∧
    ((attendanceList E db sessionId { qa with per_page := some "0" }).per_page = 10 ∧
      1 ≤ (attendanceList E db sessionId { qa with per_page := some "0" }).total_pages) := by
  refine ⟨⟨?_, ?_, ?_⟩, ⟨?_, ?_, ?_⟩, ⟨?_, ?_⟩, ⟨?_, ?_⟩⟩
  · exact pageWindow_perPage_eq (q.page.getD "1") (q.per_page.getD "10")
  · exact (pageWindow_perPage_bounds (q.page.getD "1") (q.per_page.getD "10")).1
  · exact (pageWindow_perPage_bounds (q.page.getD "1") (q.per_page.getD "10")).2
  · exact pageWindow_perPage_eq (qa.page.getD "1") (qa.per_page.getD "10")
  · exact (pageWindow_perPage_bounds (qa.page.getD "1") (qa.per_page.getD "10")).1
  · exact (pageWindow_perPage_bounds (qa.page.getD "1") (qa.per_page.getD "10")).2
  · show (pageWindow (q.page.getD "1") "0").perPage = 10
    rw [pageWindow_perPage_eq]
    decide
  · exact totalPages_pos _ _
  · show (pageWindow (qa.page.getD "1") "0").perPage = 10
    rw [pageWindow_perPage_eq]
    decide
  · exact totalPages_pos _ _


theorem reportWindow_perPage_eq (page per_page : Option String) :
    (reportWindow page per_page).perPage =
      (match parseIntParam per_page with
        | none => 10
        | some n => if 1 ≤ n ∧ n ≤ 200 then n else 10) := by
  simp only [reportWindow]
  cases parseIntParam per_page with
  | none => rfl
  | some n =>
    by_cases h : n < 1 ∨ n > 200
    · have h2 : ¬ (1 ≤ n ∧ n ≤ 200) := by omega
      simp [h, h2]
    · have h2 : 1 ≤ n ∧ n ≤ 200 := by omega
      simp [h, h2]

theorem studentsByCount_per_page (E : Engine) (db : Db) (q : CountQuery) (b : CountReport)
    (h : studentsByCount E db q = Reply.ok b) :
    b.per_page = (reportWindow q.page q.per_page).perPage ∧
      b.page = (reportWindow q.page q.per_page).pg := by
  unfold studentsByCount at h
  by_cases hv : (invalidCount (parseIntParam q.present) ||
      invalidCount (parseIntParam q.absent)) = true
  · simp [hv] at h
  · simp only [hv, Bool.false_eq_true, if_false, Reply.ok.injEq] at h
    rw [← h]
    exact ⟨rfl, rfl⟩

/-- C12 as amended: per-page of the exact-count report.  With n =
parseInt(per_page, 10), the per_page of the response is n when n lies between
1 and 200 and the default 10 otherwise (NaN, n < 1 or n > 200); so it always
lies between 1 and 200. -/
theorem report_per_page (E : Engine) (db : Db) (q : CountQuery) :
    match studentsByCount E db q with
    | Reply.ok b =>
      b.per_page =
          (match parseIntParam q.per_page with
            | none => 10
            | some n => if 1 ≤ n ∧ n ≤ 200 then n else 10) ∧
        1 ≤ b.per_page ∧ b.per_page ≤ 200
    | Reply.error _ _ =>
      invalidCount (parseIntParam q.present) = true ∨
        invalidCount (parseIntParam q.absent) = true := by
  cases h : studentsByCount E db q with
  | ok b =>
    have hb := (studentsByCount_per_page E db q b h).1
    simp only
    rw [hb]
    exact ⟨reportWindow_perPage_eq _ _, reportWindow_perPage_bounds _ _⟩
  | error st msg =>
    simp only
    unfold studentsByCount at h
    by_cases hv : (invalidCount (parseIntParam q.present) ||
        invalidCount (parseIntParam q.absent)) = true
    · simpa using hv
    · simp [hv] at h

/-- Counterexample to C12 as stated: per_page=500 parses to 500, which
clamped to 1..200 is 200, and the report answers with per_page 10; and
per_page=-5, which clamped is 1, is answered with per_page 10 as well. -/
theorem report_per_page_counterexample :
    (parseIntParam (some "500") = some 500 ∧ clampedPerPage 500 = 200 ∧
      ∃ b, studentsByCount referenceEngine sampleDb ⟨some "0", some "0", none, some "500"⟩ =
          Reply.ok b ∧ b.per_page = 10) ∧
    (parseIntParam (some "-5") = some (-5) ∧ clampedPerPage (-5) = 1 ∧
      ∃ b, studentsByCount referenceEngine sampleDb ⟨some "0", some "0", none, some "-5"⟩ =
          Reply.ok b ∧ b.per_page = 10) := by
  refine ⟨⟨by decide, by decide, _, rfl, ?_⟩, ⟨by decide, by decide, _, rfl, ?_⟩⟩
  · decide
  · decide


theorem pageWindow_pg_eq (page per_page : String) :
    (pageWindow page per_page).pg =
      (match parseInt page with
        | none => 1
        | some n => if n = 0 then 1 else max n 1) := by
  simp only [pageWindow, orDefault]
  cases parseInt page with
  | none => rfl
  | some n =>
    by_cases h : n = 0
    · simp [h]
    · simp only [h, if_false]
      rw [max_comm]

theorem reportWindow_pg_eq (page per_page : Option String) :
    (reportWindow page per_page).pg =
      (match parseIntParam page with
        | none => 1
        | some n => max n 1) := by
  simp only [reportWindow]
  cases parseIntParam page with
  | none => rfl
  | some n =>
    by_cases h : n < 1
    · simp only [h, if_true]
      rw [max_eq_right (by omega)]
    · simp only [h, if_false]
      rw [max_eq_left (by omega)]

theorem pg_of_badNumber (v : Option String) (per_page : String) (h : badNumber v = true) :
    (pageWindow (v.getD "1") per_page).pg = 1 := by
  rw [pageWindow_pg_eq]
  cases v with
  | none => decide
  | some s =>
    simp only [badNumber] at h
    simp only [Option.getD_some]
    cases hp : parseInt s with
    | none => rfl
    | some n =>
      rw [hp] at h
      have hn : n < 1 := by simpa using h
      by_cases h0 : n = 0
      · simp [h0]
      · simp only [h0, if_false]
        exact max_eq_right (by omega)

theorem perPage_of_missingOrZero (page : String) (v : Option String)
    (h : missingOrZero v = true) : (pageWindow page (v.getD "10")).perPage = 10 := by
  rw [pageWindow_perPage_eq]
  cases v with
  | none => decide
  | some s =>
    simp only [missingOrZero] at h
    simp only [Option.getD_some]
    cases hp : parseInt s with
    | none => rfl
    | some n =>
      rw [hp] at h
      have hn : n = 0 := by simpa using h
      simp [hn]

theorem perPage_of_isNegative (page : String) (v : Option String)
    (h : isNegative v = true) : (pageWindow page (v.getD "10")).perPage = 1 := by
  rw [pageWindow_perPage_eq]
  cases v with
  | none => simp [isNegative] at h
  | some s =>
    simp only [isNegative] at h
    simp only [Option.getD_some]
    cases hp : parseInt s with
    | none => rw [hp] at h; simp at h
    | some n =>
      rw [hp] at h
      have hn : n < 0 := by simpa using h
      have h0 : n ≠ 0 := by omega
      simp only [h0, if_false]
      rw [max_eq_right (by omega : n ≤ 1)]
      decide

theorem parseIntParam_of_badNumber (v : Option String) (h : badNumber v = true) :
    parseIntParam v = none ∨ ∃ n, parseIntParam v = some n ∧ n < 1 := by
  cases v with
  | none => exact Or.inl rfl
  | some s =>
    simp only [badNumber] at h
    simp only [parseIntParam]
    cases hp : parseInt s with
    | none => exact Or.inl rfl
    | some n =>
      rw [hp] at h
      exact Or.inr ⟨n, rfl, by simpa using h⟩

/-- C13 as amended: coercion of page and per_page.  In the students list and
the attendance-by-session list a page that is missing, non-numeric or less
than 1 gives page 1, a per_page that is missing, non-numeric or 0 gives the
default 10, and a negative per_page gives 1.  In the students-by-count
report a page that is missing, non-numeric or less than 1 gives page 1 and
such a per_page gives 10.  The two lists always answer with a body, and the
report answers with an error only when present or absent is invalid. -/
theorem page_parameter_defaults (E : Engine) (db : Db) (q : StudentsQuery) (sessionId : Nat)
    (qa : AttendanceQuery) (qc : CountQuery) :
    ((badNumber q.page = true → (studentsList E db q).page = 1) ∧
      (missingOrZero q.per_page = true → (studentsList E db q).per_page = 10) ∧
      (isNegative q.per_page = true → (studentsList E db q).per_page = 1)) ∧
    ((badNumber qa.page = true → (attendanceList E db sessionId qa).page = 1) ∧
      (missingOrZero qa.per_page = true → (attendanceList E db sessionId qa).per_page = 10) ∧
      (isNegative qa.per_page = true → (attendanceList E db sessionId qa).per_page = 1)) ∧
    (match studentsByCount E db qc with
      | Reply.ok b =>
        (badNumber qc.page = true → b.page = 1) ∧
          (badNumber qc.per_page = true → b.per_page = 10)
      | Reply.error _ _ =>
        invalidCount (parseIntParam qc.present) = true ∨
          invalidCount (parseIntParam qc.absent) = true) := by
  refine ⟨⟨?_, ?_, ?_⟩, ⟨?_, ?_, ?_⟩, ?_⟩
  · exact fun h => pg_of_badNumber q.page (q.per_page.getD "10") h
  · exact fun h => perPage_of_missingOrZero (q.page.getD "1") q.per_page h
  · exact fun h => perPage_of_isNegative (q.page.getD "1") q.per_page h
  · exact fun h => pg_of_badNumber qa.page (qa.per_page.getD "10") h
  · exact fun h => perPage_of_missingOrZero (qa.page.getD "1") qa.per_page h
  · exact fun h => perPage_of_isNegative (qa.page.getD "1") qa.per_page h
  · cases h : studentsByCount E db qc with
    | ok b =>
      obtain ⟨hpp, hpg⟩ := studentsByCount_per_page E db qc b h
      simp only
      constructor
      · intro hb
        rw [hpg, reportWindow_pg_eq]
        rcases parseIntParam_of_badNumber _ hb with h0 | ⟨n, h1, h2⟩
        · rw [h0]
        · rw [h1]
          exact max_eq_right (by omega)
      · intro hb
        rw [hpp, reportWindow_perPage_eq]
        rcases parseIntParam_of_badNumber _ hb with h0 | ⟨n, h1, h2⟩
        · rw [h0]
        · rw [h1]
          have : ¬ (1 ≤ n ∧ n ≤ 200) := by omega
          simp [this]
    | error st msg =>
      simp only
      unfold studentsByCount at h
      by_cases hv : (invalidCount (parseIntParam qc.present) ||
          invalidCount (parseIntParam qc.absent)) = true
      · simpa using hv
      · simp [hv] at h

/-- Counterexample to C13 as stated: per_page=-5 is less than 1, and the
students list and the attendance-by-session list answer with per_page 1, not
with the default 10. -/
theorem page_parameter_defaults_counterexample :
    badNumber (some "-5") = true ∧
    (studentsList referenceEngine sampleDb
      { emptyStudentsQuery with per_page := some "-5" }).per_page = 1 ∧
    (attendanceList referenceEngine sampleDb 1 ⟨none, some "-5", none, none⟩).per_page = 1 := by
  decide

/-! ## Sorting -/

theorem orderClause_fallback (sort : String) (h₁ : sort ≠ "name_desc") (h₂ : sort ≠ "id_desc")
    (h₃ : sort ≠ "id_asc") : orderClause sort = "s.name ASC" := by
  simp [orderClause, h₁, h₂, h₃]

/-- C14: sort fallback of the students list.  The four sort keys name_asc,
name_desc, id_asc and id_desc choose the ORDER BY texts s.name ASC, s.name
DESC, s.id ASC and s.id DESC; every other value chooses the text of name_asc;
and a request whose sort is missing or is such a value is answered exactly as
the same request with sort=name_asc, the rows being what LIMIT/OFFSET cuts
out of the result ordered by the chosen text. -/
theorem sort_fallback (E : Engine) (db : Db) (q : StudentsQuery) :
    (orderClause "name_asc" = "s.name ASC" ∧ orderClause "name_desc" = "s.name DESC" ∧
      orderClause "id_asc" = "s.id ASC" ∧ orderClause "id_desc" = "s.id DESC") ∧
    (∀ sort : String, sort ≠ "name_desc" → sort ≠ "id_desc" → sort ≠ "id_asc" →
      orderClause sort = orderClause "name_asc") ∧
    ((∀ s, q.sort = some s → s ≠ "name_desc" ∧ s ≠ "id_desc" ∧ s ≠ "id_asc") →
      studentsList E db q = studentsList E db { q with sort := some "name_asc" }) ∧
    (studentsList E db q).rows =
      limitOffset (E.orderStudents (orderClause (q.sort.getD "name_asc"))
          (studentsGrouped E db q.filter))
        (studentsList E db q).per_page
        (((studentsList E db q).page - 1) * (studentsList E db q).per_page) := by
  refine ⟨⟨by decide, by decide, by decide, by decide⟩, ?_, ?_, rfl⟩
  · intro sort h₁ h₂ h₃
    rw [orderClause_fallback sort h₁ h₂ h₃]
    decide
  · intro h
    have hc : orderClause (q.sort.getD "name_asc") = orderClause "name_asc" := by
      cases hs : q.sort with
      | none => rfl
      | some s =>
        obtain ⟨h₁, h₂, h₃⟩ := h s hs
        rw [Option.getD_some, orderClause_fallback s h₁ h₂ h₃]
        decide
    simp only [studentsList, StudentsQuery.filter, Option.getD_some, hc]


theorem tieReversingEngine_reorders : tieReversingEngine.Reorders := by
  refine ⟨?_, ?_, ?_⟩
  · intro clause rows
    simp only [tieReversingEngine]
    split_ifs <;> exact List.perm_insertionSort _ _
  · intro rows
    exact List.perm_insertionSort _ _
  · intro rows
    exact List.perm_insertionSort _ _

/-- C15, the code at a failing input: two students named Adam, ids 1 and 2.
For sort=name_asc the ORDER BY text is s.name ASC, with no second key; the
two engines both return a correct answer to it, the one with id 1 first and
the other with id 2 first; so with one row a page, page 1 computed in the one
order and page 2 computed in the other both show student 1 and student 2 is
never shown.  Both engines return the rows they are given, each once.  The
same holds for the ORDER BY s.name ASC of
students-by-count. -/
theorem name_order_leaves_ties :
    orderClause "name_asc" = "s.name ASC" ∧ namesakesDb.StudentKey ∧
    (referenceEngine.Reorders ∧ tieReversingEngine.Reorders) ∧
    (AnswersOrderBy "s.name ASC" (studentsGrouped referenceEngine namesakesDb ⟨"", "", "", ""⟩)
        (studentsOrdered referenceEngine namesakesDb ⟨"", "", "", ""⟩ "s.name ASC") ∧
      AnswersOrderBy "s.name ASC"
        (studentsGrouped tieReversingEngine namesakesDb ⟨"", "", "", ""⟩)
        (studentsOrdered tieReversingEngine namesakesDb ⟨"", "", "", ""⟩ "s.name ASC")) ∧
    ((studentsOrdered referenceEngine namesakesDb ⟨"", "", "", ""⟩ "s.name ASC").map
        (fun r => r.student.id) = [1, 2] ∧
      (studentsOrdered tieReversingEngine namesakesDb ⟨"", "", "", ""⟩ "s.name ASC").map
        (fun r => r.student.id) = [2, 1]) ∧
    ((studentsList referenceEngine namesakesDb
        { emptyStudentsQuery with sort := some "name_asc", page := some "1",
                                  per_page := some "1" }).rows.map
        (fun r => r.student.id) = [1] ∧
      (studentsList tieReversingEngine namesakesDb
        { emptyStudentsQuery with sort := some "name_asc", page := some "2",
                                  per_page := some "1" }).rows.map
        (fun r => r.student.id) = [1]) ∧
    (AnswersOrderByName (reportGrouped namesakesDb 0 0)
        (reportOrdered referenceEngine namesakesDb 0 0) ∧
      AnswersOrderByName (reportGrouped namesakesDb 0 0)
        (reportOrdered tieReversingEngine namesakesDb 0 0) ∧
      (reportOrdered referenceEngine namesakesDb 0 0).map (fun r => r.id) = [1, 2] ∧
      (reportOrdered tieReversingEngine namesakesDb 0 0).map (fun r => r.id) = [2, 1]) := by
  refine ⟨by decide, by decide, ⟨referenceEngine_reorders, tieReversingEngine_reorders⟩,
    ⟨by decide, by decide⟩, ⟨by decide, by decide⟩,
    ⟨by decide, by decide⟩, by decide, by decide, by decide, by decide⟩

/-! ## The size of a page -/

theorem length_limitOffset {α : Type} (rows : List α) (limit offset : Int) (hl : 0 ≤ limit)
    (ho : 0 ≤ offset) :
    ((limitOffset rows limit offset).length : Int) =
      min limit (max 0 ((rows.length : Int) - offset)) := by
  unfold limitOffset
  rw [List.length_take, List.length_drop]
  obtain ⟨l, rfl⟩ := Int.eq_ofNat_of_zero_le hl
  obtain ⟨o, rfl⟩ := Int.eq_ofNat_of_zero_le ho
  rw [Int.toNat_ofNat, Int.toNat_ofNat]
  rw [min_def, min_def, max_def]
  split_ifs <;> omega

theorem pageWindow_offset_nonneg (page per_page : String) :
    0 ≤ (pageWindow page per_page).offset := by
  have h1 := pageWindow_pg_pos page per_page
  have h2 := (pageWindow_perPage_bounds page per_page).1
  show 0 ≤ ((pageWindow page per_page).pg - 1) * (pageWindow page per_page).perPage
  exact mul_nonneg (by omega) (by omega)

theorem reportWindow_offset_nonneg (page per_page : Option String) :
    0 ≤ (reportWindow page per_page).offset := by
  have h1 := reportWindow_pg_pos page per_page
  have h2 := (reportWindow_perPage_bounds page per_page).1
  show 0 ≤ ((reportWindow page per_page).pg - 1) * (reportWindow page per_page).perPage
  exact mul_nonneg (by omega) (by omega)

/-- C16: the size of a page.  With an engine that returns the rows it orders
and ids that identify students, the rows array of a response of the students
list, of the attendance-by-session list and of the students-by-count report
has exactly min(per_page, max(0, total - (page - 1) * per_page)) elements,
hence at most per_page; and when 25 students match and per_page is 10, the
students list reports 3 pages and its page 3 holds 5 rows. -/
theorem page_size (E : Engine) (hE : E.Reorders) (db : Db) (hk : db.StudentKey)
    (q : StudentsQuery) (sessionId : Nat) (qa : AttendanceQuery) (qc : CountQuery) :
    ((((studentsList E db q).rows.length : Int) =
          min (studentsList E db q).per_page
            (max 0 (((studentsList E db q).total : Int) -
              ((studentsList E db q).page - 1) * (studentsList E db q).per_page)) ∧
        ((studentsList E db q).rows.length : Int) ≤ (studentsList E db q).per_page) ∧
      ((studentsList E db q).total = 25 → (studentsList E db q).per_page = 10 →
        (studentsList E db q).total_pages = 3 ∧
          ((studentsList E db q).page = 3 → (studentsList E db q).rows.length = 5))) ∧
    (((attendanceList E db sessionId qa).rows.length : Int) =
        min (attendanceList E db sessionId qa).per_page
          (max 0 (((attendanceList E db sessionId qa).total : Int) -
            ((attendanceList E db sessionId qa).page - 1) *
              (attendanceList E db sessionId qa).per_page)) ∧
      ((attendanceList E db sessionId qa).rows.length : Int) ≤
        (attendanceList E db sessionId qa).per_page) ∧
    (match studentsByCount E db qc with
      | Reply.ok b =>
        ((b.rows.length : Int) =
            min b.per_page (max 0 ((b.total : Int) - (b.page - 1) * b.per_page)) ∧
          (b.rows.length : Int) ≤ b.per_page)
      | Reply.error _ _ =>
        invalidCount (parseIntParam qc.present) = true ∨
          invalidCount (parseIntParam qc.absent) = true) := by
  have hs : ((studentsList E db q).rows.length : Int) =
      min (studentsList E db q).per_page
        (max 0 (((studentsList E db q).total : Int) -
          ((studentsList E db q).page - 1) * (studentsList E db q).per_page)) := by
    have hlen := length_limitOffset
      (studentsOrdered E db q.filter (orderClause (q.sort.getD "name_asc")))
      (pageWindow (q.page.getD "1") (q.per_page.getD "10")).perPage
      (pageWindow (q.page.getD "1") (q.per_page.getD "10")).offset
      (le_trans (by norm_num) (pageWindow_perPage_bounds _ _).1)
      (pageWindow_offset_nonneg _ _)
    have hN : (studentsOrdered E db q.filter (orderClause (q.sort.getD "name_asc"))).length =
        studentsCount E db q.filter := by
      unfold studentsOrdered
      rw [(hE.1 _ _).length_eq, studentsGrouped_length E db q.filter hk]
    rw [hN] at hlen
    exact hlen
  have ha : ((attendanceList E db sessionId qa).rows.length : Int) =
      min (attendanceList E db sessionId qa).per_page
        (max 0 (((attendanceList E db sessionId qa).total : Int) -
          ((attendanceList E db sessionId qa).page - 1) *
            (attendanceList E db sessionId qa).per_page)) := by
    have hlen := length_limitOffset
      (attendanceOrdered E db sessionId (qa.name.getD "") (qa.phone.getD ""))
      (pageWindow (qa.page.getD "1") (qa.per_page.getD "10")).perPage
      (pageWindow (qa.page.getD "1") (qa.per_page.getD "10")).offset
      (le_trans (by norm_num) (pageWindow_perPage_bounds _ _).1)
      (pageWindow_offset_nonneg _ _)
    have hN : (attendanceOrdered E db sessionId (qa.name.getD "") (qa.phone.getD "")).length =
        attendanceCount E db sessionId (qa.name.getD "") (qa.phone.getD "") := by
      unfold attendanceOrdered attendanceCount attendanceSelected
      rw [(hE.2.1 _).length_eq, List.length_map]
    rw [hN] at hlen
    exact hlen
  refine ⟨⟨⟨hs, ?_⟩, ?_⟩, ⟨ha, ?_⟩, ?_⟩
  · rw [hs]
    exact min_le_left _ _
  · intro h25 h10
    constructor
    · show totalPages (studentsList E db q).total (studentsList E db q).per_page = 3
      rw [h25, h10]
      decide
    · intro h3
      rw [h25, h10, h3] at hs
      have : ((studentsList E db q).rows.length : Int) = 5 := by
        rw [hs]
        decide
      exact_mod_cast this
  · rw [ha]
    exact min_le_left _ _
  · cases h : studentsByCount E db qc with
    | error st msg =>
      simp only
      unfold studentsByCount at h
      by_cases hv : (invalidCount (parseIntParam qc.present) ||
          invalidCount (parseIntParam qc.absent)) = true
      · simpa using hv
      · simp [hv] at h
    | ok b =>
      simp only
      unfold studentsByCount at h
      by_cases hv : (invalidCount (parseIntParam qc.present) ||
          invalidCount (parseIntParam qc.absent)) = true
      · simp [hv] at h
      · simp only [hv, Bool.false_eq_true, if_false, Reply.ok.injEq] at h
        rw [← h]
        simp only [List.length_map]
        have hlen := length_limitOffset
          (reportOrdered E db ((parseIntParam qc.present).getD 0)
            ((parseIntParam qc.absent).getD 0))
          (reportWindow qc.page qc.per_page).perPage
          (reportWindow qc.page qc.per_page).offset
          (le_trans (by norm_num) (reportWindow_perPage_bounds _ _).1)
          (reportWindow_offset_nonneg _ _)
        have hN : (reportOrdered E db ((parseIntParam qc.present).getD 0)
            ((parseIntParam qc.absent).getD 0)).length =
            reportCount db ((parseIntParam qc.present).getD 0)
              ((parseIntParam qc.absent).getD 0) := by
          unfold reportOrdered
          rw [(hE.2.2 _).length_eq, reportGrouped_length db hk]
        rw [hN] at hlen
        refine ⟨hlen, ?_⟩
        show ((reportRows E db _ _ _ _).length : Int) ≤ _
        unfold reportRows
        rw [hlen]
        exact min_le_left _ _

/-- Witness for C16: twenty-five students, per_page=10, page=3. -/
theorem page_size_witness :
    referenceEngine.Reorders ∧ classOf25.StudentKey ∧
    (studentsList referenceEngine classOf25
      { emptyStudentsQuery with page := some "3", per_page := some "10" }).total = 25 ∧
    (studentsList referenceEngine classOf25
      { emptyStudentsQuery with page := some "3", per_page := some "10" }).total_pages = 3 ∧
    (studentsList referenceEngine classOf25
      { emptyStudentsQuery with page := some "3", per_page := some "10" }).rows.length = 5 :=
  ⟨referenceEngine_reorders, by decide, by decide,
    ((page_size referenceEngine referenceEngine_reorders classOf25 (by decide)
      { emptyStudentsQuery with page := some "3", per_page := some "10" } 1
      ⟨none, none, none, none⟩ ⟨none, none, none, none⟩).1.2 (by decide) (by decide)).1,
    ((page_size referenceEngine referenceEngine_reorders classOf25 (by decide)
      { emptyStudentsQuery with page := some "3", per_page := some "10" } 1
      ⟨none, none, none, none⟩ ⟨none, none, none, none⟩).1.2 (by decide) (by decide)).2
      (by decide)⟩

/-! ## Filters are passed as they are -/

theorem onlySpaces_false_ne_empty {v : String} (h : onlySpaces v = false) : v ≠ "" := by
  rintro rfl
  simp [onlySpaces] at h

theorem isEmptyParam_of_not_onlySpaces (E : Engine) (v : String) (h : onlySpaces v = false) :
    ¬ E.isEmptyParam v = some true := by
  rw [isEmptyParam_iff E v (by intro h'; rw [h] at h'; exact absurd h' (by decide))]
  exact onlySpaces_false_ne_empty h

/-- C17 as amended: string filters are not trimmed.  In the students list and
the attendance-by-session list an empty name or phone filter is answered as
the filter not being provided; and a filter value without %, _ or backslash
that is not made of spaces only is matched as it stands, its leading and
trailing white space included: the condition on the name (on the phone) is
TRUE exactly when the whole value is a substring of name, father_name or
last_name (of phone), and in the attendance list exactly when it is a
substring of name (of phone). -/
theorem filters_not_trimmed (E : Engine) (db : Db) (q : StudentsQuery) (sessionId : Nat)
    (qa : AttendanceQuery) (s : Student) (a : AttendanceRow) (v : String)
    (hv : ∀ c ∈ v.toList, isLikeSpecial c = false) (hs : onlySpaces v = false) :
    (studentsList E db { q with name := some "" } = studentsList E db { q with name := none } ∧
      studentsList E db { q with phone := some "" } =
        studentsList E db { q with phone := none } ∧
      attendanceList E db sessionId { qa with name := some "" } =
        attendanceList E db sessionId { qa with name := none } ∧
      attendanceList E db sessionId { qa with phone := some "" } =
        attendanceList E db sessionId { qa with phone := none }) ∧
    (nameCond E v s = some true ↔
      (isSubstringOf E v s.name = true ∨ isSubstringOf E v s.father_name = true ∨
        isSubstringOf E v s.last_name = true)) ∧
    (phoneCond E v s = some true ↔ isSubstringOf E v s.phone = true) ∧
    (holds (attendanceWhere E sessionId v "" (a, s)) = true ↔
      (a.session_id = sessionId ∧ isSubstringOf E v s.name = true)) ∧
    (holds (attendanceWhere E sessionId "" v (a, s)) = true ↔
      (a.session_id = sessionId ∧ isSubstringOf E v s.phone = true)) := by
  have he := isEmptyParam_of_not_onlySpaces E v hs
  have l₁ := likeContains_plain E s.name v hv
  have l₂ := likeContains_plain E s.father_name v hv
  have l₃ := likeContains_plain E s.last_name v hv
  have l₄ := likeContains_plain E s.phone v hv
  refine ⟨⟨rfl, rfl, rfl, rfl⟩, ?_, ?_, ?_, ?_⟩
  · unfold nameCond
    rw [sqlOr_eq_true, sqlOr_eq_true, sqlOr_eq_true, l₁, l₂, l₃, or_assoc, or_assoc]
    constructor
    · rintro (h | h)
      · exact absurd h he
      · exact h
    · exact Or.inr
  · unfold phoneCond
    rw [sqlOr_eq_true, l₄]
    constructor
    · rintro (h | h)
      · exact absurd h he
      · exact h
    · exact Or.inr
  · rw [holds_iff]
    unfold attendanceWhere
    rw [sqlAnd_eq_true, sqlAnd_eq_true, sqlOr_eq_true, sqlOr_eq_true, l₁]
    constructor
    · rintro ⟨⟨h1, h2⟩, _⟩
      refine ⟨by simpa using h1, ?_⟩
      rcases h2 with h | h
      · exact absurd h he
      · exact h
    · rintro ⟨h1, h2⟩
      exact ⟨⟨by simpa using h1, Or.inr h2⟩, Or.inl (isEmptyParam_empty E)⟩
  · rw [holds_iff]
    unfold attendanceWhere
    rw [sqlAnd_eq_true, sqlAnd_eq_true, sqlOr_eq_true, sqlOr_eq_true, l₄]
    constructor
    · rintro ⟨⟨h1, _⟩, h2⟩
      refine ⟨by simpa using h1, ?_⟩
      rcases h2 with h | h
      · exact absurd h he
      · exact h
    · rintro ⟨h1, h2⟩
      exact ⟨⟨by simpa using h1, Or.inl (isEmptyParam_empty E)⟩, Or.inr h2⟩

/-- Witness for C17 as amended: the name filter " Adam", with its leading
space, on the student Adam of the sample database. -/
theorem filters_not_trimmed_witness :
    (nameCond referenceEngine " Adam" (sampleStudent 1 "Adam" "80071") = some true ↔
      (isSubstringOf referenceEngine " Adam" (sampleStudent 1 "Adam" "80071").name = true ∨
        isSubstringOf referenceEngine " Adam"
          (sampleStudent 1 "Adam" "80071").father_name = true ∨
        isSubstringOf referenceEngine " Adam"
          (sampleStudent 1 "Adam" "80071").last_name = true)) ∧
    ¬ nameCond referenceEngine " Adam" (sampleStudent 1 "Adam" "80071") = some true :=
  ⟨(filters_not_trimmed referenceEngine sampleDb emptyStudentsQuery 1 ⟨none, none, none, none⟩
      (sampleStudent 1 "Adam" "80071") ⟨1, 1, Status.Present, none⟩ " Adam" (by decide)
      (by decide)).2.1, by decide⟩

/-- Counterexample to C17 as stated.  The name filter " Adam" trims to
"Adam"; the students list and the attendance list of session 1 find Adam
with "Adam" and nobody with " Adam".  The name filter " ", all white space,
finds nobody, while a request without the filter finds all three students.
The same holds for the phone filter " 80071". -/
theorem filters_not_trimmed_counterexample :
    jsTrim " Adam" = "Adam" ∧ jsTrim " " = "" ∧ jsTrim " 80071" = "80071" ∧
    ((studentsList referenceEngine sampleDb
        { emptyStudentsQuery with name := some "Adam" }).total = 1 ∧
      (studentsList referenceEngine sampleDb
        { emptyStudentsQuery with name := some " Adam" }).total = 0) ∧
    ((studentsList referenceEngine sampleDb emptyStudentsQuery).total = 3 ∧
      (studentsList referenceEngine sampleDb
        { emptyStudentsQuery with name := some " " }).total = 0) ∧
    ((studentsList referenceEngine sampleDb
        { emptyStudentsQuery with phone := some "80071" }).total = 1 ∧
      (studentsList referenceEngine sampleDb
        { emptyStudentsQuery with phone := some " 80071" }).total = 0) ∧
    ((attendanceList referenceEngine sampleDb 1 ⟨none, none, some "Adam", none⟩).total = 1 ∧
      (attendanceList referenceEngine sampleDb 1 ⟨none, none, some " Adam", none⟩).total = 0) := by
  refine ⟨by decide, by decide, by decide, ⟨by decide, by decide⟩, ⟨by decide, by decide⟩,
    ⟨by decide, by decide⟩, by decide, by decide⟩

/-! ## The shape of the list responses -/

/-- C18 as amended: the shape of the list responses.  The students list and
the attendance-by-session list answer with an object whose fields are exactly
page, per_page, total, total_pages and rows; students-by-count answers a
valid request with an object that has these five fields after the two fields
present and absent; the sessions list answers with the bare array of its
rows, and so does the birthdays report for a valid month. -/
theorem list_response_shapes (E : Engine) (db : Db) (q : StudentsQuery) (sessionId : Nat)
    (qa : AttendanceQuery) (qc : CountQuery) (title month : Option String)
    (orderSessions : List SessionListRow → List SessionListRow)
    (monthOf ageOf : String → Option Int) (orderBirthdays : List BirthdayRow → List BirthdayRow)
    (j₁ : StudentListRow → Json) (j₂ : AttendanceListRow → Json) (j₃ : ReportRow → Json)
    (j₄ : SessionListRow → Json) (j₅ : BirthdayRow → Json) :
    (pageBody j₁ (studentsList E db q)).keys = some pageKeys ∧
    (pageBody j₂ (attendanceList E db sessionId qa)).keys = some pageKeys ∧
    (match studentsByCount E db qc with
      | Reply.ok b => (countReportBody j₃ b).keys = some ("present" :: "absent" :: pageKeys)
      | Reply.error _ _ =>
        invalidCount (parseIntParam qc.present) = true ∨
          invalidCount (parseIntParam qc.absent) = true) ∧
    ((rowsBody j₄ (sessionsList E orderSessions db title)).isArray = true ∧
      (rowsBody j₄ (sessionsList E orderSessions db title)).keys = none) ∧
    (match birthdays monthOf ageOf orderBirthdays db month with
      | Reply.ok rows => (rowsBody j₅ rows).isArray = true ∧ (rowsBody j₅ rows).keys = none
      | Reply.error status _ => status = 400) := by
  refine ⟨rfl, rfl, ?_, ⟨rfl, rfl⟩, ?_⟩
  · cases h : studentsByCount E db qc with
    | ok b => rfl
    | error st msg =>
      simp only
      unfold studentsByCount at h
      by_cases hv : (invalidCount (parseIntParam qc.present) ||
          invalidCount (parseIntParam qc.absent)) = true
      · simpa using hv
      · simp [hv] at h
  · unfold birthdays
    cases parseIntParam month with
    | none => rfl
    | some m =>
      by_cases hm : m < 1 ∨ m > 12
      · simp only [hm, if_true]
      · simp only [hm, if_false]
        exact ⟨rfl, rfl⟩

/-- Counterexample to C18 as stated, on the sample database: the body of the
sessions list is an array, not an object; the body of the birthdays report
for month=1 is an array; and the body of students-by-count has the seven
fields present, absent, page, per_page, total, total_pages and rows. -/
theorem list_response_shapes_counterexample :
    (rowsBody (fun _ => Json.null) (sessionsList referenceEngine (fun l => l) sampleDb none)).keys ≠
      some pageKeys ∧
    (birthdaysReplyBody (fun _ => Json.null)
      (birthdays (fun _ => some 1) (fun _ => some 20) (fun l => l) sampleDb (some "1"))).keys ≠
      some pageKeys ∧
    (countReplyBody (fun _ => Json.null)
      (studentsByCount referenceEngine sampleDb ⟨some "0", some "1", none, none⟩)).keys =
      some ["present", "absent", "page", "per_page", "total", "total_pages", "rows"] ∧
    (countReplyBody (fun _ => Json.null)
      (studentsByCount referenceEngine sampleDb ⟨some "0", some "1", none, none⟩)).keys ≠
      some pageKeys := by
  refine ⟨?_, ?_, ?_, ?_⟩
  · simp [rowsBody, Json.keys]
  · simp [birthdaysReplyBody, birthdays, parseIntParam, rowsBody, Json.keys]
    decide
  · decide
  · decide

/-! ## Responses to failing queries -/

theorem guarded_of_fault {β : Type} (queries : Nat) (onError : DbError → Nat × String)
    (fault : Nat → Option DbError) (result : Reply β) (e : DbError)
    (h : firstFault fault queries = some e) :
    guarded queries onError fault result = Reply.error (onError e).1 (onError e).2 := by
  simp [guarded, h]

theorem guarded_of_no_fault {β : Type} (queries : Nat) (onError : DbError → Nat × String)
    (fault : Nat → Option DbError) (result : Reply β) (h : firstFault fault queries = none) :
    guarded queries onError fault result = result := by
  simp [guarded, h]

/-- C19 as amended: data-source faults.  When a `pool.query` call of a handler
of the students, sessions or attendance router throws an error e, the
response has status 500 and the body {error: e.message}, the message of the
error itself; except that student create and update answer 409 with
'Duplicate (phone) detected' when e.code is ER_DUP_ENTRY, and that the import
answers with no error at all, the error of a row's upsert being put into its
errors list.  For the students list, the attendance-by-session list and the
sessions list: the response is that of the first call that throws, and the
normal body when no call throws. -/
theorem fault_responses (r : Route) (e : DbError) (E : Engine) (db : Db) (q : StudentsQuery)
    (sessionId : Nat) (qa : AttendanceQuery) (title : Option String)
    (order : List SessionListRow → List SessionListRow) (fault : Nat → Option DbError) :
    (r ≠ Route.studentsImport →
      (r ≠ Route.studentsCreate ∧ r ≠ Route.studentsUpdate ∨ e.code ≠ some "ER_DUP_ENTRY") →
      r.faultResponse e = some (500, e.message)) ∧
    ((r = Route.studentsCreate ∨ r = Route.studentsUpdate) → e.code = some "ER_DUP_ENTRY" →
      r.faultResponse e = some (409, "Duplicate (phone) detected")) ∧
    Route.studentsImport.faultResponse e = none ∧
    (studentsListTry E db q fault =
      match firstFault fault 2 with
      | some e' => Reply.error 500 e'.message
      | none => Reply.ok (studentsList E db q)) ∧
    (attendanceListTry E db sessionId qa fault =
      match firstFault fault 2 with
      | some e' => Reply.error 500 e'.message
      | none => Reply.ok (attendanceList E db sessionId qa)) ∧
    (sessionsListTry E order db title fault =
      match firstFault fault 1 with
      | some e' => Reply.error 500 e'.message
      | none => Reply.ok (sessionsList E order db title)) := by
  refine ⟨?_, ?_, rfl, ?_, ?_, ?_⟩
  · intro h1 h2
    cases r <;> simp_all [Route.faultResponse, catchAll, catchDuplicate]
  · intro h1 h2
    rcases h1 with rfl | rfl <;> simp [Route.faultResponse, catchDuplicate, h2]
  · unfold studentsListTry guarded
    cases firstFault fault 2 <;> rfl
  · unfold attendanceListTry guarded
    cases firstFault fault 2 <;> rfl
  · unfold sessionsListTry guarded
    cases firstFault fault 1 <;> rfl

/-- Counterexample to C19 as stated: the students list answers a refused
connection and a missing table with two different error texts, each the
message of the database error; and student create answers a duplicate key
with status 409. -/
theorem fault_responses_counterexample :
    studentsListTry referenceEngine sampleDb emptyStudentsQuery
        (fun _ => some ⟨some "ECONNREFUSED", "connect ECONNREFUSED 127.0.0.1:3306"⟩) =
      Reply.error 500 "connect ECONNREFUSED 127.0.0.1:3306" ∧
    studentsListTry referenceEngine sampleDb emptyStudentsQuery
        (fun k => if k = 1 then
          some ⟨some "ER_NO_SUCH_TABLE", "Table 'attendance' doesn't exist"⟩ else none) =
      Reply.error 500 "Table 'attendance' doesn't exist" ∧
    Route.studentsCreate.faultResponse ⟨some "ER_DUP_ENTRY", "Duplicate entry '80071'"⟩ =
      some (409, "Duplicate (phone) detected") := by
  refine ⟨by decide, by decide, by decide⟩

/-! ## The import -/

theorem importLoop_append {σ : Type} (upsert : σ → SheetRow → Except DbError (σ × Nat)) :
    ∀ (rows₁ rows₂ : List SheetRow) (i : Nat) (st : σ × ImportResult),
      importLoop upsert i st (rows₁ ++ rows₂) =
        importLoop upsert (i + rows₁.length) (importLoop upsert i st rows₁) rows₂ := by
  intro rows₁
  induction rows₁ with
  | nil => intro rows₂ i st; rfl
  | cons r rest ih =>
    intro rows₂ i st
    show importLoop upsert (i + 1) (importStep upsert i st r) (rest ++ rows₂) =
      importLoop upsert (i + (r :: rest).length)
        (importLoop upsert (i + 1) (importStep upsert i st r) rest) rows₂
    rw [ih, List.length_cons]
    congr 1
    omega

theorem importStep_db {σ : Type} (upsert : σ → SheetRow → Except DbError (σ × Nat)) (i : Nat)
    (st : σ × ImportResult) (r : SheetRow) :
    (importStep upsert i st r).1 =
      if missingNameOrPhone r = true then st.1 else afterUpsert upsert st.1 r := by
  unfold importStep afterUpsert
  by_cases h : missingNameOrPhone r = true
  · simp [h]
  · simp only [h]
    cases upsert st.1 r with
    | error e => rfl
    | ok v => rfl

theorem importLoop_db {σ : Type} (upsert : σ → SheetRow → Except DbError (σ × Nat)) :
    ∀ (rows : List SheetRow) (i : Nat) (st : σ × ImportResult),
      (importLoop upsert i st rows).1 =
        (rows.filter (fun r => !missingNameOrPhone r)).foldl (afterUpsert upsert) st.1 := by
  intro rows
  induction rows with
  | nil => intro i st; rfl
  | cons r rest ih =>
    intro i st
    simp only [importLoop]
    rw [ih, importStep_db]
    by_cases h : missingNameOrPhone r = true
    · simp [h, List.filter_cons]
    · simp [h, List.filter_cons]

/-- C20: the import does not abort on a bad row.  For every upsert behaviour,
database and list of rows: the loop over rows₁ ++ rows₂ is the loop over
rows₂ continued from where the loop over rows₁ ended, whatever happened in
rows₁; a row whose trimmed name or phone is empty leaves the database as it
is, adds one to skipped and appends 'Row i+2: missing name or phone'; a row
whose upsert throws leaves the database as it is, adds one to skipped and
appends 'Row i+2: ' with the code of the error (its message when it has no
code); a row whose upsert succeeds gives the new database and counts as
inserted for one affected row and as updated for two; and the database after
the import is the result of upserting, in order, every row that has a name
and a phone. -/
theorem import_processes_every_row {σ : Type}
    (upsert : σ → SheetRow → Except DbError (σ × Nat)) (db : σ) (rows rows₁ rows₂ : List SheetRow)
    (i : Nat) (st : σ × ImportResult) (r : SheetRow) :
    (importRows upsert db (rows₁ ++ rows₂) =
      importLoop upsert rows₁.length (importRows upsert db rows₁) rows₂) ∧
    (importLoop upsert i st (r :: rows) = importLoop upsert (i + 1) (importStep upsert i st r) rows) ∧
    (missingNameOrPhone r = true →
      importStep upsert i st r =
        (st.1, { inserted := st.2.inserted, updated := st.2.updated,
                 skipped := st.2.skipped + 1,
                 errors := st.2.errors ++
                   ["Row " ++ toString (i + 2) ++ ": missing name or phone"] })) ∧
    (∀ e, missingNameOrPhone r = false → upsert st.1 r = Except.error e →
      importStep upsert i st r =
        (st.1, { inserted := st.2.inserted, updated := st.2.updated,
                 skipped := st.2.skipped + 1,
                 errors := st.2.errors ++
                   ["Row " ++ toString (i + 2) ++ ": " ++ codeOrMessage e] }) ∧
      (∀ c, e.code = some c → c ≠ "" → codeOrMessage e = c)) ∧
    (∀ db' n, missingNameOrPhone r = false → upsert st.1 r = Except.ok (db', n) →
      (importStep upsert i st r).1 = db' ∧
      (importStep upsert i st r).2.skipped = st.2.skipped ∧
      (importStep upsert i st r).2.errors = st.2.errors ∧
      (n = 1 → (importStep upsert i st r).2.inserted = st.2.inserted + 1 ∧
        (importStep upsert i st r).2.updated = st.2.updated) ∧
      (n = 2 → (importStep upsert i st r).2.inserted = st.2.inserted ∧
        (importStep upsert i st r).2.updated = st.2.updated + 1)) ∧
    ((importRows upsert db rows).1 =
      (rows.filter (fun r => !missingNameOrPhone r)).foldl (afterUpsert upsert) db) := by
  refine ⟨?_, rfl, ?_, ?_, ?_, ?_⟩
  · unfold importRows
    rw [importLoop_append, Nat.zero_add]
  · intro h
    simp [importStep, h]
  · intro e h he
    refine ⟨?_, ?_⟩
    · simp [importStep, h, he]
    · intro c hc hne
      simp [codeOrMessage, hc, hne]
  · intro db' n h hok
    refine ⟨?_, ?_, ?_, ?_, ?_⟩
    · simp [importStep, h, hok]
    · simp only [importStep, h, hok, Bool.false_eq_true, if_false]
      split_ifs <;> rfl
    · simp only [importStep, h, hok, Bool.false_eq_true, if_false]
      split_ifs <;> rfl
    · intro hn
      simp [importStep, h, hok, hn]
    · intro hn
      simp [importStep, h, hok, hn]
  · exact importLoop_db upsert rows 0 _

/-- An import of five rows with the sample upsert: the second row has no
phone and the fourth is refused by the database; the first and the last are
inserted, the third updates the first. -/
theorem import_sample :
    importRows sampleUpsert []
        [[("Name", " Adam "), ("Phone", "1")], [("Name", "Eve")],
          [("name", "Bob"), ("phone", "1")], [("Name", "Bartholomew Q"), ("Phone", "3")],
          [("Name", "Zed"), ("Phone", "4")]] =
      (["1", "4"],
        { inserted := 2, updated := 1, skipped := 2,
          errors := ["Row 3: missing name or phone", "Row 5: ER_DATA_TOO_LONG"] }) := by
  decide

/-! ## Student create and update -/

theorem falsyText_iff (v : Option String) : falsyText v = true ↔ (v = none ∨ v = some "") := by
  cases v with
  | none => simp [falsyText]
  | some s => simp [falsyText]

theorem catchDuplicate_status (e : DbError) : (catchDuplicate e).1 ≠ 400 := by
  unfold catchDuplicate
  split_ifs <;> simp

/-- C21: validation of student create and update fails on a request without
a JSON body.  There `req.body` is undefined, name and phone are missing, and
both handlers answer 500 with the message of the TypeError instead of 400,
the database being left as it is.  The response is 400 with 'Name and phone
are required' exactly when the request has a JSON body whose name or phone is
missing or empty; in that case the database is left as it is whatever the
statement would have done (none is issued); for a body with a name and a
phone the statement is issued and, when it succeeds, create answers 201 with
the inserted id and update answers {ok: true}, the database being the one the
statement gives. -/
theorem student_validation (insert : Db → StudentBody → Except DbError (Db × Nat))
    (update : Db → String → StudentBody → Except DbError Db) (db : Db) (id : String)
    (req : Option StudentBody) (body : StudentBody) :
    createStudent insert db none = (db, Reply.error 500 (destructureError "name")) ∧
    updateStudent update db id none = (db, Reply.error 500 (destructureError "name")) ∧
    ((createStudent insert db req).2 = Reply.error 400 "Name and phone are required" ↔
      ∃ b, req = some b ∧ b.invalid = true) ∧
    ((updateStudent update db id req).2 = Reply.error 400 "Name and phone are required" ↔
      ∃ b, req = some b ∧ b.invalid = true) ∧
    (body.invalid = true ↔
      (body.name = none ∨ body.name = some "" ∨ body.phone = none ∨ body.phone = some "")) ∧
    (body.invalid = true →
      createStudent insert db (some body) =
        (db, Reply.error 400 "Name and phone are required") ∧
      updateStudent update db id (some body) =
        (db, Reply.error 400 "Name and phone are required")) ∧
    (∀ db' insertId, body.invalid = false → insert db body = Except.ok (db', insertId) →
      createStudent insert db (some body) =
        (db', Reply.ok { status := 201, id := insertId })) ∧
    (∀ db', body.invalid = false → update db id body = Except.ok db' →
      updateStudent update db id (some body) = (db', Reply.ok true)) := by
  refine ⟨rfl, rfl, ?_, ?_, ?_, ?_, ?_, ?_⟩
  · cases req with
    | none => simp [createStudent]
    | some b =>
      simp only [Option.some.injEq, exists_eq_left']
      constructor
      · intro h
        by_contra hv
        simp only [createStudent, hv] at h
        cases hi : insert db b with
        | error e =>
          rw [hi] at h
          simp only [Bool.false_eq_true, if_false, Reply.error.injEq] at h
          exact catchDuplicate_status e h.1
        | ok v =>
          rw [hi] at h
          simp at h
      · intro hv
        simp [createStudent, hv]
  · cases req with
    | none => simp [updateStudent]
    | some b =>
      simp only [Option.some.injEq, exists_eq_left']
      constructor
      · intro h
        by_contra hv
        simp only [updateStudent, hv] at h
        cases hi : update db id b with
        | error e =>
          rw [hi] at h
          simp only [Bool.false_eq_true, if_false, Reply.error.injEq] at h
          exact catchDuplicate_status e h.1
        | ok v =>
          rw [hi] at h
          simp at h
      · intro hv
        simp [updateStudent, hv]
  · simp only [StudentBody.invalid, Bool.or_eq_true, falsyText_iff, or_assoc]
  · intro hv
    simp [createStudent, updateStudent, hv]
  · intro db' insertId hv hi
    simp [createStudent, hv, hi]
  · intro db' hv hi
    simp [updateStudent, hv, hi]

/-- Requests on the sample database with the sample statements: a request
without a JSON body is answered 500 by both handlers; a body without phone is
refused with 400 and changes nothing; a body with a name and a new phone is
answered 201 with the id 4. -/
theorem student_validation_sample :
    createStudent sampleInsert sampleDb none =
      (sampleDb,
        Reply.error 500
          "Cannot destructure property 'name' of 'req.body' as it is undefined.") ∧
    updateStudent sampleUpdate sampleDb "1" none =
      (sampleDb,
        Reply.error 500
          "Cannot destructure property 'name' of 'req.body' as it is undefined.") ∧
    createStudent sampleInsert sampleDb (some ⟨some "Zed", none, []⟩) =
      (sampleDb, Reply.error 400 "Name and phone are required") ∧
    (createStudent sampleInsert sampleDb (some ⟨some "Zed", some "80079", []⟩)).2 =
      Reply.ok { status := 201, id := 4 } ∧
    updateStudent sampleUpdate sampleDb "1" (some ⟨some "", some "80071", []⟩) =
      (sampleDb, Reply.error 400 "Name and phone are required") ∧
    (updateStudent sampleUpdate sampleDb "1" (some ⟨some "Adam B", some "80071", []⟩)).2 =
      Reply.ok true := by
  refine ⟨by decide, by decide, by decide, by decide, by decide, by decide⟩

/-! ## Duplicate keys -/

/-- C22: a duplicate key is a 409.  When the statement of a student create
or update with a valid body fails with the code ER_DUP_ENTRY, the response is
409 'Duplicate (phone) detected' and the database is as it was.  When an
admin creation has a name, an email and a password and the normalised email
is already in users, the response is 409 'Email already exists' and the users
table is as it was, whatever the INSERT would have done (none is issued); the
same response is given when the INSERT itself fails with ER_DUP_ENTRY. -/
theorem duplicate_is_conflict (E : Engine) (toLowerCase hash : String → String)
    (insert : Db → StudentBody → Except DbError (Db × Nat))
    (update : Db → String → StudentBody → Except DbError Db)
    (insertUser : List User → String → String → String → Except DbError (List User × Nat))
    (db : Db) (id : String) (body : StudentBody) (users : List User) (admin : AdminBody)
    (e : DbError) :
    (body.invalid = false → insert db body = Except.error e → e.code = some "ER_DUP_ENTRY" →
      createStudent insert db (some body) =
        (db, Reply.error 409 "Duplicate (phone) detected")) ∧
    (body.invalid = false → update db id body = Except.error e →
      e.code = some "ER_DUP_ENTRY" →
      updateStudent update db id (some body) =
        (db, Reply.error 409 "Duplicate (phone) detected")) ∧
    ((falsyText admin.name || falsyText admin.email || falsyText admin.password) = false →
      (∃ u ∈ users,
        E.strEq u.email (normaliseEmail toLowerCase (admin.email.getD "")) = true) →
      createAdmin E toLowerCase hash insertUser users admin =
        (users, Reply.error 409 "Email already exists")) ∧
    ((falsyText admin.name || falsyText admin.email || falsyText admin.password) = false →
      insertUser users (admin.name.getD "") (normaliseEmail toLowerCase (admin.email.getD ""))
        (hash (admin.password.getD "")) = Except.error e →
      e.code = some "ER_DUP_ENTRY" →
      createAdmin E toLowerCase hash insertUser users admin =
        (users, Reply.error 409 "Email already exists")) := by
  refine ⟨?_, ?_, ?_, ?_⟩
  · intro hv hi hc
    simp [createStudent, hv, hi, catchDuplicate, hc]
  · intro hv hi hc
    simp [updateStudent, hv, hi, catchDuplicate, hc]
  · intro hv ⟨u, hu, heq⟩
    have hne : (usersWithEmail E users
        (normaliseEmail toLowerCase (admin.email.getD ""))).length ≠ 0 := by
      have hmem : u ∈ usersWithEmail E users
          (normaliseEmail toLowerCase (admin.email.getD "")) :=
        List.mem_filter.2 ⟨hu, heq⟩
      intro h0
      rw [List.length_eq_zero] at h0
      rw [h0] at hmem
      simp at hmem
    unfold createAdmin
    rw [if_neg (by rw [hv]; decide), if_pos hne]
  · intro hv hi hc
    unfold createAdmin
    rw [if_neg (by rw [hv]; decide)]
    split_ifs with hex
    · rfl
    · rw [hi]
      simp [hc]

/-- Requests on the samples: a student with the phone of Adam is answered
409 and changes nothing; an admin whose email, once trimmed and put in lower
case, is the one of Root is answered 409 and changes nothing; an admin with a
new email is answered 201 with the id 4. -/
theorem duplicate_is_conflict_sample :
    createStudent sampleInsert sampleDb (some ⟨some "Zed", some "80071", []⟩) =
      (sampleDb, Reply.error 409 "Duplicate (phone) detected") ∧
    createAdmin referenceEngine asciiLower (fun p => p) sampleInsertUser sampleUsers
        ⟨some "Rob", some " Root@Example.org ", some "secret"⟩ =
      (sampleUsers, Reply.error 409 "Email already exists") ∧
    (createAdmin referenceEngine asciiLower (fun p => p) sampleInsertUser sampleUsers
        ⟨some "Rob", some "rob@example.org", some "secret"⟩).2 =
      Reply.ok { status := 201, id := 4, name := "Rob", email := "rob@example.org",
                 role := "admin" } := by
  refine ⟨by decide, by decide, by decide⟩

/-! ## Mark attendance: validation -/

theorem markAttendance_of_invalid (now : Nat) (db : Db) (body : MarkBody)
    (h : body.invalid = true) :
    markAttendance now db (some body) =
      (db, Reply.error 400 "session_id, student_id, and valid status are required") := by
  obtain ⟨sid, stid, status⟩ := body
  simp only [MarkBody.invalid, Bool.or_eq_true, Bool.not_eq_true', Bool.or_eq_false_iff,
    beq_eq_false_iff_ne, ne_eq] at h
  unfold markAttendance
  dsimp only
  cases sid with
  | none => rfl
  | some a =>
    cases stid with
    | none => cases status.bind Status.ofString <;> rfl
    | some b =>
      cases hst : status.bind Status.ofString with
      | none => rfl
      | some st =>
        simp only
        have hvalid : status = some "Present" ∨ status = some "Absent" := by
          cases status with
          | none => simp at hst
          | some s =>
            simp only [Option.bind, Status.ofString] at hst
            by_cases h1 : s = "Present"
            · exact Or.inl (by rw [h1])
            · by_cases h2 : s = "Absent"
              · exact Or.inr (by rw [h2])
              · simp [h1, h2] at hst
        have h0 : a = 0 ∨ b = 0 := by
          rcases h with (h | h) | h
          · left; simpa [falsyId] using h
          · right; simpa [falsyId] using h
          · rcases hvalid with hv | hv
            · exact absurd hv h.1
            · exact absurd hv h.2
        simp [h0]

theorem markAttendance_of_valid (now : Nat) (db : Db) (body : MarkBody)
    (h : body.invalid = false) :
    ∃ sid stid st, body.session_id = some sid ∧ body.student_id = some stid ∧
      sid ≠ 0 ∧ stid ≠ 0 ∧ body.status.bind Status.ofString = some st ∧
      markAttendance now db (some body) =
        ({ db with attendance := upsertAttendance sid stid st now db.attendance },
          Reply.ok true) := by
  obtain ⟨sid, stid, status⟩ := body
  simp only [MarkBody.invalid, Bool.or_eq_false_iff, Bool.not_eq_false', Bool.or_eq_true,
    beq_iff_eq] at h
  obtain ⟨⟨h1, h2⟩, h3⟩ := h
  cases sid with
  | none => simp [falsyId] at h1
  | some a =>
    cases stid with
    | none => simp [falsyId] at h2
    | some b =>
      have ha : a ≠ 0 := by simpa [falsyId] using h1
      have hb : b ≠ 0 := by simpa [falsyId] using h2
      rcases h3 with h3 | h3
      · refine ⟨a, b, Status.Present, rfl, rfl, ha, hb, by rw [h3]; rfl, ?_⟩
        exact markAttendance_valid now db a b "Present" Status.Present ha hb rfl |>.symm ▸
          (by rw [h3])
      · refine ⟨a, b, Status.Absent, rfl, rfl, ha, hb, by rw [h3]; rfl, ?_⟩
        exact markAttendance_valid now db a b "Absent" Status.Absent ha hb rfl |>.symm ▸
          (by rw [h3])

/-- C23: validation of mark attendance fails on a request without a JSON
body.  There `req.body` is undefined, session_id, student_id and status are
missing, and the handler answers 500 with the message of the TypeError
instead of 400; no statement is executed and the database is as it was.  The
response is 400 exactly when the request has a JSON body in which session_id
is missing or 0, student_id is missing or 0, or status is not exactly
'Present' or 'Absent'; in that case no statement is executed, whatever it
would have done, and the database is as it was; for any other body the upsert
is executed and, unless it throws, the response is {ok: true} and only the
attendance table has changed. -/
theorem mark_validation (now : Nat) (db : Db) (req : Option MarkBody) (body : MarkBody)
    (fault : Nat → Option DbError) :
    markAttendanceTry now db none fault =
      (db, Reply.error 500 (destructureError "session_id")) ∧
    markAttendance now db none = (db, Reply.error 500 (destructureError "session_id")) ∧
    ((markAttendanceTry now db req fault).2 =
        Reply.error 400 "session_id, student_id, and valid status are required" ↔
      ∃ b, req = some b ∧ b.invalid = true) ∧
    ((markAttendance now db req).2 =
        Reply.error 400 "session_id, student_id, and valid status are required" ↔
      ∃ b, req = some b ∧ b.invalid = true) ∧
    (body.invalid = true ↔
      ((body.session_id = none ∨ body.session_id = some 0) ∨
        (body.student_id = none ∨ body.student_id = some 0) ∨
        (body.status ≠ some "Present" ∧ body.status ≠ some "Absent"))) ∧
    (body.invalid = true →
      markAttendanceTry now db (some body) fault =
        (db, Reply.error 400 "session_id, student_id, and valid status are required")) ∧
    (body.invalid = false →
      (∃ sid stid st, body.session_id = some sid ∧ body.student_id = some stid ∧
        body.status.bind Status.ofString = some st ∧
        markAttendance now db (some body) =
          ({ db with attendance := upsertAttendance sid stid st now db.attendance },
            Reply.ok true)) ∧
      (fault 0 = none →
        markAttendanceTry now db (some body) fault = markAttendance now db (some body)) ∧
      (∀ e, fault 0 = some e →
        markAttendanceTry now db (some body) fault = (db, Reply.error 500 e.message))) := by
  have hm4 : ∀ b : MarkBody, (markAttendance now db (some b)).2 =
      Reply.error 400 "session_id, student_id, and valid status are required" ↔
      b.invalid = true := by
    intro b
    constructor
    · intro h
      by_contra hv
      have hv' : b.invalid = false := by simpa using hv
      obtain ⟨sid, stid, st, _, _, _, _, _, hm⟩ := markAttendance_of_valid now db b hv'
      rw [hm] at h
      simp at h
    · intro hv
      rw [markAttendance_of_invalid now db b hv]
  refine ⟨rfl, rfl, ?_, ?_, ?_, ?_, ?_⟩
  · cases req with
    | none => simp [markAttendanceTry]
    | some b =>
      simp only [Option.some.injEq, exists_eq_left']
      constructor
      · intro h
        by_contra hv
        have hv' : b.invalid = false := by simpa using hv
        cases hf : fault 0 with
        | some e => simp [markAttendanceTry, hv', hf] at h
        | none =>
          simp only [markAttendanceTry, hv', hf, Bool.false_eq_true, if_false] at h
          exact hv ((hm4 b).1 h)
      · intro hv
        simp [markAttendanceTry, hv]
  · cases req with
    | none => simp [markAttendance]
    | some b =>
      simp only [Option.some.injEq, exists_eq_left']
      exact hm4 b
  · obtain ⟨sid, stid, status⟩ := body
    simp only [MarkBody.invalid, Bool.or_eq_true, Bool.not_eq_true', Bool.or_eq_false_iff,
      beq_eq_false_iff_ne, ne_eq]
    have h1 : ∀ v : Option Nat, falsyId v = true ↔ (v = none ∨ v = some 0) := by
      intro v
      cases v with
      | none => simp [falsyId]
      | some n => simp [falsyId]
    rw [h1, h1, or_assoc]
  · intro hv
    simp [markAttendanceTry, hv]
  · intro hv
    refine ⟨?_, ?_, ?_⟩
    · obtain ⟨sid, stid, st, h1, h2, _, _, h3, hm⟩ := markAttendance_of_valid now db body hv
      exact ⟨sid, stid, st, h1, h2, h3, hm⟩
    · intro hf
      simp [markAttendanceTry, hv, hf]
    · intro e hf
      simp [markAttendanceTry, hv, hf]

/-- Mark requests on the sample database: a request without a JSON body is
answered 500; a lower-case status and a session id 0 are refused with 400 and
change nothing; a valid request overwrites the row of (session 1,
student 1). -/
theorem mark_validation_sample :
    markAttendanceTry 20 sampleDb none (fun _ => none) =
      (sampleDb,
        Reply.error 500
          "Cannot destructure property 'session_id' of 'req.body' as it is undefined.") ∧
    markAttendanceTry 20 sampleDb (some ⟨some 1, some 1, some "present"⟩) (fun _ => none) =
      (sampleDb, Reply.error 400 "session_id, student_id, and valid status are required") ∧
    markAttendanceTry 20 sampleDb (some ⟨some 0, some 1, some "Present"⟩) (fun _ => none) =
      (sampleDb, Reply.error 400 "session_id, student_id, and valid status are required") ∧
    (markAttendanceTry 20 sampleDb (some ⟨some 1, some 1, some "Absent"⟩) (fun _ => none)).2 =
      Reply.ok true ∧
    (markAttendanceTry 20 sampleDb (some ⟨some 1, some 1, some "Absent"⟩)
        (fun _ => none)).1.attendance.head? =
      some ⟨1, 1, Status.Absent, some 20⟩ := by
  refine ⟨by decide, by decide, by decide, by decide, by decide⟩

/-! ## Deleting an admin -/

theorem length_filter_id_le_one (users : List User) (hk : (users.map (fun u => u.id)).Nodup)
    (id : Int) : (users.filter (fun u => decide ((u.id : Int) = id))).length ≤ 1 := by
  induction users with
  | nil => simp
  | cons u r ih =>
    simp only [List.map_cons, List.nodup_cons, List.mem_map, not_exists, not_and] at hk
    by_cases h : (u.id : Int) = id
    · have hr : r.filter (fun u => decide ((u.id : Int) = id)) = [] := by
        rw [List.filter_eq_nil_iff]
        intro v hv hv'
        have h1 : (v.id : Int) = id := by simpa using hv'
        have h2 : (v.id : Int) = (u.id : Int) := by rw [h1, h]
        exact hk.1 v hv (by exact_mod_cast h2)
      simp [List.filter_cons, h, hr]
    · simp only [List.filter_cons, h, decide_False]
      exact ih hk.2

theorem length_filter_split {α : Type} (p q : α → Bool) (l : List α) :
    (l.filter p).length ≤ ((l.filter (fun x => !q x)).filter p).length + (l.filter q).length := by
  induction l with
  | nil => simp
  | cons a r ih =>
    by_cases hp : p a = true <;> by_cases hq : q a = true <;>
      simp only [List.filter_cons, hp, hq, Bool.not_true, Bool.not_false, if_true, if_false,
        List.length_cons, Bool.false_eq_true, Bool.not_eq_true] <;> omega

theorem deleteAdmin_cases (E : Engine) (requester : Option TokenPayload) (users : List User)
    (idParam : String) :
    (deleteAdmin E requester users idParam).1 = users ∨
    ∃ id row, parseInt idParam = some id ∧ row ∈ users ∧ (row.id : Int) = id ∧
      row.role = "admin" ∧ requester.map (fun r => (r.id : Int)) ≠ some id ∧
      1 < adminCount E users ∧
      deleteAdmin E requester users idParam =
        (users.filter (fun u => !decide ((u.id : Int) = id)), Reply.ok true) := by
  unfold deleteAdmin
  cases hp : parseInt idParam with
  | none => exact Or.inl rfl
  | some id =>
    simp only
    by_cases h1 : requester.map (fun r => (r.id : Int)) = some id
    · simp [h1]
    · by_cases h2 : adminCount E users ≤ 1
      · simp [h1, h2]
      · cases hf : users.find? (fun u => decide ((u.id : Int) = id)) with
        | none => simp [h1, h2]
        | some row =>
          by_cases h3 : row.role ≠ "admin"
          · simp [h1, h2, h3]
          · right
            have hmem := List.mem_of_find?_eq_some hf
            have hid := List.find?_some hf
            refine ⟨id, row, rfl, hmem, by simpa using hid, by simpa using h3, h1,
              by omega, ?_⟩
            simp only [h1, h2, if_false]
            simp only [h3, if_false]

/-- C24: deleting an admin keeps the system administrable.  For a users table
in which ids identify users: the handler leaves the table as it is, or it
removes exactly the rows with the id of the request, and this only when that
user exists, has the role 'admin', is not the requesting user and more than
one admin is counted; no other row is removed; when at least one admin is
counted before the request, at least one is counted after it; and a row with
the id of the requesting user is never removed. -/
theorem admin_deletion_keeps_an_admin (E : Engine) (requester : Option TokenPayload)
    (users : List User) (idParam : String) (hk : (users.map (fun u => u.id)).Nodup) :
    ((deleteAdmin E requester users idParam).1 = users ∨
      ∃ id row, parseInt idParam = some id ∧ row ∈ users ∧ (row.id : Int) = id ∧
        row.role = "admin" ∧ requester.map (fun r => (r.id : Int)) ≠ some id ∧
        1 < adminCount E users ∧
        deleteAdmin E requester users idParam =
          (users.filter (fun u => !decide ((u.id : Int) = id)), Reply.ok true)) ∧
    (∀ u ∈ users, u ∉ (deleteAdmin E requester users idParam).1 →
      parseInt idParam = some (u.id : Int)) ∧
    (∀ u ∈ (deleteAdmin E requester users idParam).1, u ∈ users) ∧
    (1 ≤ adminCount E users → 1 ≤ adminCount E (deleteAdmin E requester users idParam).1) ∧
    (∀ r, requester = some r → ∀ u ∈ users, u.id = r.id →
      u ∈ (deleteAdmin E requester users idParam).1) := by
  have hc := deleteAdmin_cases E requester users idParam
  refine ⟨hc, ?_, ?_, ?_, ?_⟩
  · intro u hu hnot
    rcases hc with h | ⟨id, row, hp, _, _, _, _, _, hd⟩
    · rw [h] at hnot
      exact absurd hu hnot
    · rw [hd] at hnot
      simp only [List.mem_filter, hu, true_and, Bool.not_eq_true', decide_eq_false_iff_not,
        not_not] at hnot
      rw [hp, hnot]
  · intro u hu
    rcases hc with h | ⟨id, row, _, _, _, _, _, _, hd⟩
    · rw [h] at hu
      exact hu
    · rw [hd] at hu
      exact (List.mem_filter.1 hu).1
  · intro h1
    rcases hc with h | ⟨id, row, _, _, _, _, _, h2, hd⟩
    · rw [h]
      exact h1
    · rw [hd]
      have hsplit := length_filter_split (fun u : User => E.strEq u.role "admin")
        (fun u : User => decide ((u.id : Int) = id)) users
      have hle := length_filter_id_le_one users hk id
      unfold adminCount at h2 ⊢
      simp only at hsplit ⊢
      omega
  · intro r hr u hu hid
    rcases hc with h | ⟨id, row, _, _, _, _, hne, _, hd⟩
    · rw [h]
      exact hu
    · rw [hd, List.mem_filter]
      refine ⟨hu, ?_⟩
      simp only [Bool.not_eq_true', decide_eq_false_iff_not]
      intro hcontra
      apply hne
      rw [hr]
      simp only [Option.map_some', Option.some.injEq]
      rw [← hid]
      exact hcontra

/-- Witness for C24: on the sample users, Root deletes the admin Anna, and
Root, the last admin, remains. -/
theorem admin_deletion_keeps_an_admin_witness :
    (sampleUsers.map (fun u => u.id)).Nodup ∧
    deleteAdmin referenceEngine (some ⟨1, "Root", "root@example.org", "admin"⟩) sampleUsers "3" =
      (sampleUsers.filter (fun u => !decide ((u.id : Int) = 3)), Reply.ok true) ∧
    (1 ≤ adminCount referenceEngine sampleUsers →
      1 ≤ adminCount referenceEngine
        (deleteAdmin referenceEngine (some ⟨1, "Root", "root@example.org", "admin"⟩)
          sampleUsers "3").1) ∧
    deleteAdmin referenceEngine (some ⟨1, "Root", "root@example.org", "admin"⟩)
        (deleteAdmin referenceEngine (some ⟨1, "Root", "root@example.org", "admin"⟩)
          sampleUsers "3").1 "1" =
      ((deleteAdmin referenceEngine (some ⟨1, "Root", "root@example.org", "admin"⟩)
          sampleUsers "3").1, Reply.error 400 "You cannot delete your own account") :=
  ⟨by decide, by decide,
    (admin_deletion_keeps_an_admin referenceEngine
      (some ⟨1, "Root", "root@example.org", "admin"⟩) sampleUsers "3" (by decide)).2.2.2.1,
    by decide⟩

/-! ## Cascading deletes -/

theorem deleteStudent_ok (db : Db) (id : Nat) (fault : Nat → Option DbError)
    (h : (deleteStudent db id fault).2 = Reply.ok true) :
    (deleteStudent db id fault).1 =
      { db with
        attendance := db.attendance.filter (fun a => !decide (a.student_id = id)),
        students := db.students.filter (fun s => !decide (s.id = id)) } := by
  unfold deleteStudent at h ⊢
  cases h0 : fault 0 with
  | some e => rw [h0] at h; simp at h
  | none =>
    cases h1 : fault 1 with
    | some e => rw [h0, h1] at h; simp at h
    | none => rfl

theorem deleteSession_ok (db : Db) (id : Nat) (fault : Nat → Option DbError)
    (h : (deleteSession db id fault).2 = Reply.ok true) :
    (deleteSession db id fault).1 =
      { db with
        attendance := db.attendance.filter (fun a => !decide (a.session_id = id)),
        sessions := db.sessions.filter (fun s => !decide (s.id = id)) } := by
  unfold deleteSession at h ⊢
  cases h0 : fault 0 with
  | some e => rw [h0] at h; simp at h
  | none =>
    cases h1 : fault 1 with
    | some e => rw [h0, h1] at h; simp at h
    | none => rfl

/-- C25: a cascading delete keeps the references intact.  In a state where
every attendance row references an existing student and an existing session,
after a successful delete of a student (of a session): no student (session)
with the id and no attendance row that references it is left; the students
(sessions) left are those with another id, the attendance rows left are
those that reference another id, and the other table is as it was; and every
attendance row left still references an existing student and session.  The
references also stay intact when one of the two statements throws. -/
theorem cascading_delete (db : Db) (id : Nat) (fault : Nat → Option DbError)
    (h : db.References) :
    ((deleteStudent db id fault).2 = Reply.ok true →
      (∀ s ∈ (deleteStudent db id fault).1.students, s.id ≠ id) ∧
      (∀ a ∈ (deleteStudent db id fault).1.attendance, a.student_id ≠ id) ∧
      (deleteStudent db id fault).1.students =
        db.students.filter (fun s => !decide (s.id = id)) ∧
      (deleteStudent db id fault).1.attendance =
        db.attendance.filter (fun a => !decide (a.student_id = id)) ∧
      (deleteStudent db id fault).1.sessions = db.sessions) ∧
    ((deleteSession db id fault).2 = Reply.ok true →
      (∀ s ∈ (deleteSession db id fault).1.sessions, s.id ≠ id) ∧
      (∀ a ∈ (deleteSession db id fault).1.attendance, a.session_id ≠ id) ∧
      (deleteSession db id fault).1.sessions =
        db.sessions.filter (fun s => !decide (s.id = id)) ∧
      (deleteSession db id fault).1.attendance =
        db.attendance.filter (fun a => !decide (a.session_id = id)) ∧
      (deleteSession db id fault).1.students = db.students) ∧
    (deleteStudent db id fault).1.References ∧
    (deleteSession db id fault).1.References := by
  refine ⟨?_, ?_, ?_, ?_⟩
  · intro hok
    rw [deleteStudent_ok db id fault hok]
    refine ⟨?_, ?_, rfl, rfl, rfl⟩
    · intro s hs
      have := (List.mem_filter.1 hs).2
      simpa using this
    · intro a ha
      have := (List.mem_filter.1 ha).2
      simpa using this
  · intro hok
    rw [deleteSession_ok db id fault hok]
    refine ⟨?_, ?_, rfl, rfl, rfl⟩
    · intro s hs
      have := (List.mem_filter.1 hs).2
      simpa using this
    · intro a ha
      have := (List.mem_filter.1 ha).2
      simpa using this
  · unfold deleteStudent
    cases fault 0 with
    | some e => exact h
    | none =>
      cases fault 1 with
      | some e =>
        intro a ha
        exact h a (List.mem_filter.1 ha).1
      | none =>
        intro a ha
        have hmem := List.mem_filter.1 ha
        obtain ⟨⟨s, hs, hsid⟩, hse⟩ := h a hmem.1
        refine ⟨⟨s, List.mem_filter.2 ⟨hs, ?_⟩, hsid⟩, hse⟩
        have hne : a.student_id ≠ id := by simpa using hmem.2
        simp only [Bool.not_eq_true', decide_eq_false_iff_not]
        rw [hsid]
        exact hne
  · unfold deleteSession
    cases fault 0 with
    | some e => exact h
    | none =>
      cases fault 1 with
      | some e =>
        intro a ha
        exact h a (List.mem_filter.1 ha).1
      | none =>
        intro a ha
        have hmem := List.mem_filter.1 ha
        obtain ⟨hst, ⟨se, hse, hseid⟩⟩ := h a hmem.1
        refine ⟨hst, ⟨se, List.mem_filter.2 ⟨hse, ?_⟩, hseid⟩⟩
        have hne : a.session_id ≠ id := by simpa using hmem.2
        simp only [Bool.not_eq_true', decide_eq_false_iff_not]
        rw [hseid]
        exact hne

/-- Witness for C25: student 1 and session 1 deleted from the sample
database. -/
theorem cascading_delete_witness :
    sampleDb.References ∧
    (deleteStudent sampleDb 1 (fun _ => none)).1.attendance =
      [⟨1, 2, Status.Absent, none⟩] ∧
    (deleteStudent sampleDb 1 (fun _ => none)).1.References ∧
    (deleteSession sampleDb 1 (fun _ => none)).1.attendance =
      [⟨2, 1, Status.Absent, none⟩] ∧
    (deleteSession sampleDb 1 (fun _ => none)).1.References :=
  ⟨by decide, by decide,
    (cascading_delete sampleDb 1 (fun _ => none) (by decide)).2.2.1, by decide,
    (cascading_delete sampleDb 1 (fun _ => none) (by decide)).2.2.2⟩

/-! ## Only admins change data -/

theorem requireAdmin_eq_none (user : Option TokenPayload) :
    requireAdmin user = none ↔ ∃ u, user = some u ∧ u.role = "admin" := by
  cases user with
  | none => simp [requireAdmin]
  | some u =>
    by_cases h : u.role = "admin"
    · simp [requireAdmin, h]
    · simp [requireAdmin, h]

/-- C26: only admins can change data.  `requireAdmin` calls next() exactly
when req.user is set and its role is 'admin', answers 401 when req.user is
absent and 403 'Admin only' when the role is another one; every POST, PUT and
DELETE route of the students, sessions, attendance and admins routers is
registered with it; so for a payload with another role every such route,
whatever its handler does, answers 403 'Admin only' and leaves the state as
it was, while for an admin the handler runs. -/
theorem only_admins_mutate {σ β : Type} (m : Mutation) (user : Option TokenPayload)
    (handler : σ → σ × Reply β) (db : σ) :
    (requireAdmin user = none ↔ ∃ u, user = some u ∧ u.role = "admin") ∧
    (user = none → requireAdmin user = some (401, "Unauthorized")) ∧
    (∀ u, user = some u → u.role ≠ "admin" → requireAdmin user = some (403, "Admin only")) ∧
    m.requiresAdmin = true ∧
    (∀ u, user = some u → u.role ≠ "admin" →
      runMutation m user handler db = (db, Reply.error 403 "Admin only")) ∧
    (user = none → runMutation m user handler db = (db, Reply.error 401 "Unauthorized")) ∧
    (∀ u, user = some u → u.role = "admin" → runMutation m user handler db = handler db) := by
  have hm : m.requiresAdmin = true := by cases m <;> rfl
  refine ⟨requireAdmin_eq_none user, ?_, ?_, hm, ?_, ?_, ?_⟩
  · rintro rfl
    rfl
  · rintro u rfl hu
    simp [requireAdmin, hu]
  · rintro u rfl hu
    simp [runMutation, hm, adminOnly, requireAdmin, hu]
  · rintro rfl
    simp [runMutation, hm, adminOnly, requireAdmin]
  · rintro u rfl hu
    simp [runMutation, hm, adminOnly, requireAdmin, hu]

/-- Requests with the token of a viewer on the samples: seed, mark, student
delete, student create and admin delete are answered 403 and change nothing;
the same mark request with the token of an admin is carried out. -/
theorem only_admins_mutate_sample :
    seedRoute (some viewerPayload) none 2 sampleDb =
      (sampleDb, Reply.error 403 "Admin only") ∧
    markRoute (some viewerPayload) 20 (some ⟨some 1, some 3, some "Present"⟩) (fun _ => none)
        sampleDb =
      (sampleDb, Reply.error 403 "Admin only") ∧
    deleteStudentRoute (some viewerPayload) 1 (fun _ => none) sampleDb =
      (sampleDb, Reply.error 403 "Admin only") ∧
    createStudentRoute (some viewerPayload) sampleInsert
        (some ⟨some "Zed", some "80079", []⟩) sampleDb =
      (sampleDb, Reply.error 403 "Admin only") ∧
    deleteAdminRoute referenceEngine (some viewerPayload) "3" sampleUsers =
      (sampleUsers, Reply.error 403 "Admin only") ∧
    (markRoute (some adminPayload) 20 (some ⟨some 1, some 3, some "Present"⟩) (fun _ => none)
        sampleDb).1.attendance =
      sampleDb.attendance ++ [⟨1, 3, Status.Present, some 20⟩] := by
  refine ⟨by decide, by decide, by decide, by decide, by decide, by decide⟩

/-! ## The SQL text does not depend on the request -/

theorem orderClause_mem (sort : String) : orderClause sort ∈ orderTexts := by
  unfold orderClause orderTexts
  split_ifs <;> simp

/-- C27: the ORDER BY text put into the SQL of the students list is, for
every value of sort whatsoever, one of the four constants s.name ASC, s.name
DESC, s.id DESC and s.id ASC; so the texts of the two statements of a request
are the constant count text and one of four constant page texts, and the
values of the request (the four filters, and per_page and offset as numbers)
are all in the lists of bound parameters. -/
theorem sql_text_is_constant (q : StudentsQuery) (sort : String) :
    orderClause sort ∈ orderTexts ∧
    (studentsStatements q).map (fun s => s.1) =
      [countSql, rowsSql (orderClause (q.sort.getD "name_asc"))] ∧
    (∀ s ∈ studentsStatements q, s.1 ∈ countSql :: orderTexts.map rowsSql) ∧
    (studentsStatements q).map (fun s => s.2) =
      [countParams q.filter,
        countParams q.filter ++
          [SqlParam.number (studentsList referenceEngine sampleDb q).per_page,
            SqlParam.number (((studentsList referenceEngine sampleDb q).page - 1) *
              (studentsList referenceEngine sampleDb q).per_page)]] ∧
    (∀ q' : StudentsQuery,
      orderClause (q'.sort.getD "name_asc") = orderClause (q.sort.getD "name_asc") →
      (studentsStatements q').map (fun s => s.1) = (studentsStatements q).map (fun s => s.1)) := by
  refine ⟨orderClause_mem sort, rfl, ?_, rfl, ?_⟩
  · intro s hs
    simp only [studentsStatements, List.mem_cons, List.mem_singleton, List.not_mem_nil,
      or_false] at hs
    rcases hs with rfl | rfl
    · exact List.mem_cons_self _ _
    · exact List.mem_cons_of_mem _ (List.mem_map.2 ⟨_, orderClause_mem _, rfl⟩)
  · intro q' h
    simp only [studentsStatements, List.map_cons, List.map_nil, h]

/-- A request whose sort carries SQL: the text of the page statement is the
one of sort=name_asc, and the filter value with a quote is a bound
parameter. -/
theorem sql_text_is_constant_sample :
    (studentsStatements
        { emptyStudentsQuery with sort := some "id; DROP TABLE students",
                                  name := some "x' OR '1'='1" }).map (fun s => s.1) =
      [countSql, rowsSql "s.name ASC"] ∧
    ((studentsStatements
        { emptyStudentsQuery with sort := some "id; DROP TABLE students",
                                  name := some "x' OR '1'='1" }).map (fun s => s.2)).head? =
      some (countParams ⟨"x' OR '1'='1", "", "", ""⟩) := by
  have h : orderClause "id; DROP TABLE students" = "s.name ASC" := by decide
  refine ⟨?_, rfl⟩
  simp only [studentsStatements, Option.getD_some, h, List.map_cons, List.map_nil]

/-! ## Page and offset in exact integers -/

theorem window_wellformed (pg perPage offset : Int) (h1 : 1 ≤ pg) (h2 : 1 ≤ perPage)
    (h3 : offset = (pg - 1) * perPage) :
    0 ≤ offset ∧ ∃ k : Nat, offset = (k : Int) * perPage ∧ (k : Int) = pg - 1 := by
  obtain ⟨k, hk⟩ := Int.eq_ofNat_of_zero_le (by omega : 0 ≤ pg - 1)
  refine ⟨?_, k, ?_, hk.symm⟩
  · rw [h3]
    exact mul_nonneg (by omega) (by omega)
  · rw [h3, hk]

/-- The page window in exact integers.  For every raw page and per_page, in
the students list and the attendance-by-session list (and likewise in the
students-by-count report): with n = parseInt(page, 10), the page is max(1, n)
when n is a non-zero integer and 1 otherwise, hence an integer of at least 1;
per_page is at least 1; and the offset is (page - 1) * per_page, which is at
least 0 and a multiple of per_page.  The page and per_page of the responses
are these values. -/
theorem exact_window_wellformed (E : Engine) (db : Db) (q : StudentsQuery)
    (sessionId : Nat) (qa : AttendanceQuery) (page per_page : String)
    (rpage rper_page : Option String) :
    ((pageWindow page per_page).pg =
        (match parseInt page with
          | none => 1
          | some n => if n = 0 then 1 else max 1 n) ∧
      1 ≤ (pageWindow page per_page).pg ∧ 1 ≤ (pageWindow page per_page).perPage ∧
      (pageWindow page per_page).offset =
        ((pageWindow page per_page).pg - 1) * (pageWindow page per_page).perPage ∧
      0 ≤ (pageWindow page per_page).offset ∧
      ∃ k : Nat, (pageWindow page per_page).offset = (k : Int) * (pageWindow page per_page).perPage ∧
        (k : Int) = (pageWindow page per_page).pg - 1) ∧
    ((reportWindow rpage rper_page).pg =
        (match parseIntParam rpage with
          | none => 1
          | some n => if n = 0 then 1 else max 1 n) ∧
      1 ≤ (reportWindow rpage rper_page).pg ∧ 1 ≤ (reportWindow rpage rper_page).perPage ∧
      (reportWindow rpage rper_page).offset =
        ((reportWindow rpage rper_page).pg - 1) * (reportWindow rpage rper_page).perPage ∧
      0 ≤ (reportWindow rpage rper_page).offset ∧
      ∃ k : Nat, (reportWindow rpage rper_page).offset =
          (k : Int) * (reportWindow rpage rper_page).perPage ∧
        (k : Int) = (reportWindow rpage rper_page).pg - 1) ∧
    ((studentsList E db q).page = (pageWindow (q.page.getD "1") (q.per_page.getD "10")).pg ∧
      (studentsList E db q).per_page =
        (pageWindow (q.page.getD "1") (q.per_page.getD "10")).perPage ∧
      (studentsList E db q).rows =
        studentsRows E db q.filter (orderClause (q.sort.getD "name_asc"))
          (pageWindow (q.page.getD "1") (q.per_page.getD "10")).perPage
          (pageWindow (q.page.getD "1") (q.per_page.getD "10")).offset) ∧
    ((attendanceList E db sessionId qa).page =
        (pageWindow (qa.page.getD "1") (qa.per_page.getD "10")).pg ∧
      (attendanceList E db sessionId qa).per_page =
        (pageWindow (qa.page.getD "1") (qa.per_page.getD "10")).perPage ∧
      (attendanceList E db sessionId qa).rows =
        attendanceRows E db sessionId (qa.name.getD "") (qa.phone.getD "")
          (pageWindow (qa.page.getD "1") (qa.per_page.getD "10")).perPage
          (pageWindow (qa.page.getD "1") (qa.per_page.getD "10")).offset) := by
  have hp1 := pageWindow_pg_pos page per_page
  have hp2 := (pageWindow_perPage_bounds page per_page).1
  have hr1 := reportWindow_pg_pos rpage rper_page
  have hr2 := (reportWindow_perPage_bounds rpage rper_page).1
  have hw := window_wellformed (pageWindow page per_page).pg (pageWindow page per_page).perPage
    (pageWindow page per_page).offset hp1 hp2 rfl
  have hv := window_wellformed (reportWindow rpage rper_page).pg
    (reportWindow rpage rper_page).perPage (reportWindow rpage rper_page).offset hr1 hr2 rfl
  refine ⟨⟨?_, hp1, hp2, rfl, hw.1, hw.2⟩, ⟨?_, hr1, hr2, rfl, hv.1, hv.2⟩,
    ⟨rfl, rfl, rfl⟩, ⟨rfl, rfl, rfl⟩⟩
  · rw [pageWindow_pg_eq]
    cases parseInt page with
    | none => rfl
    | some n =>
      simp only
      split_ifs
      · rfl
      · exact max_comm _ _
  · rw [reportWindow_pg_eq]
    cases parseIntParam rpage with
    | none => rfl
    | some n =>
      simp only
      split_ifs with h0
      · rw [h0]
        rfl
      · exact max_comm _ _

/-- The windows of some raw values: a page of -3, a page with trailing text,
a page that is no number, and the same for the report. -/
theorem page_and_offset_sample :
    pageWindow "-3" "0" = ⟨1, 10, 0⟩ ∧ pageWindow "4abc" "25" = ⟨4, 25, 75⟩ ∧
    pageWindow "abc" "-2" = ⟨1, 1, 0⟩ ∧ pageWindow "3" "1000" = ⟨3, 100, 200⟩ ∧
    reportWindow (some "-3") none = ⟨1, 10, 0⟩ ∧
    reportWindow (some "4abc") (some "25") = ⟨4, 25, 75⟩ ∧
    reportWindow none (some "1000") = ⟨1, 10, 0⟩ := by
  refine ⟨by decide, by decide, by decide, by decide, by decide, by decide, by decide⟩

/-! ## Import accounting -/

theorem importLoop_accounting {σ : Type} (upsert : σ → SheetRow → Except DbError (σ × Nat)) :
    ∀ (rows : List SheetRow) (i : Nat) (st : σ × ImportResult),
      (importLoop upsert i st rows).2.errors.length + st.2.skipped =
        st.2.errors.length + (importLoop upsert i st rows).2.skipped ∧
      (importLoop upsert i st rows).2.inserted =
        st.2.inserted + ((upsertReports upsert st.1 rows).filter (fun n => n == 1)).length ∧
      (importLoop upsert i st rows).2.updated =
        st.2.updated + ((upsertReports upsert st.1 rows).filter (fun n => n == 2)).length ∧
      (importLoop upsert i st rows).2.skipped + (upsertReports upsert st.1 rows).length =
        st.2.skipped + rows.length := by
  intro rows
  induction rows with
  | nil =>
    intro i st
    simp [importLoop, upsertReports]
  | cons r rest ih =>
    intro i st
    have h := ih (i + 1) (importStep upsert i st r)
    simp only [importLoop, upsertReports, List.length_cons]
    unfold importStep at h ⊢
    by_cases hm : missingNameOrPhone r = true
    · simp only [hm, if_true] at h ⊢
      simp only [List.length_append, List.length_singleton] at h
      refine ⟨by omega, h.2.1, h.2.2.1, by omega⟩
    · simp only [hm, if_false, Bool.false_eq_true] at h ⊢
      cases hu : upsert st.1 r with
      | error e =>
        simp only [hu] at h ⊢
        simp only [List.length_append, List.length_singleton] at h
        refine ⟨by omega, h.2.1, h.2.2.1, by omega⟩
      | ok p =>
        obtain ⟨db, n⟩ := p
        simp only [hu] at h ⊢
        have h21 : ¬ ((2 : Nat) = 1) := by decide
        by_cases h1 : n = 1
        · simp only [h1, if_true] at h ⊢
          simp only [List.filter_cons, beq_self_eq_true, if_true, List.length_cons,
            show ((1 : Nat) == 2) = false from rfl, Bool.false_eq_true, if_false]
          refine ⟨h.1, by omega, h.2.2.1, by omega⟩
        · by_cases h2 : n = 2
          · simp only [h2, h21, if_true, if_false] at h ⊢
            simp only [List.filter_cons, beq_self_eq_true, if_true, List.length_cons,
              show ((2 : Nat) == 1) = false from rfl, Bool.false_eq_true, if_false]
            refine ⟨h.1, h.2.1, by omega, by omega⟩
          · simp only [h1, h2, if_false] at h ⊢
            have e1 : (n == 1) = false := by simpa using h1
            have e2 : (n == 2) = false := by simpa using h2
            simp only [List.filter_cons, e1, e2, Bool.false_eq_true, if_false, List.length_cons]
            refine ⟨h.1, h.2.1, h.2.2.1, by omega⟩

theorem length_filter_one_two (l : List Nat) :
    (l.filter (fun n => n == 1)).length + (l.filter (fun n => n == 2)).length +
      (l.filter (fun n => !(n == 1 || n == 2))).length = l.length := by
  induction l with
  | nil => rfl
  | cons n rest ih =>
    by_cases h1 : n = 1
    · simp only [h1, List.filter_cons, beq_self_eq_true, if_true, List.length_cons,
        show ((1 : Nat) == 2) = false from rfl, Bool.true_or, Bool.not_true,
        Bool.false_eq_true, if_false]
      omega
    · by_cases h2 : n = 2
      · simp only [h2, List.filter_cons, beq_self_eq_true, if_true, List.length_cons,
          show ((2 : Nat) == 1) = false from rfl, Bool.or_true, Bool.not_true,
          Bool.false_eq_true, if_false]
        omega
      · have e1 : (n == 1) = false := by simpa using h1
        have e2 : (n == 2) = false := by simpa using h2
        simp only [List.filter_cons, e1, e2, Bool.false_eq_true, if_false, List.length_cons,
          Bool.or_false, Bool.not_false, if_true]
        omega

/-- C29: import accounting.  For every list of spreadsheet rows, every
database and every behaviour of the upsert, the response of the import has
skipped = errors.length; inserted and updated are the numbers of upserts that
did not throw and reported affectedRows 1 and 2; inserted + updated + skipped
plus the number of upserts that reported another affectedRows is the number
of rows; so inserted + updated + skipped is at most the number of rows, with
equality exactly when every upsert that did not throw reported 1 or 2. -/
theorem import_accounting {σ : Type} (upsert : σ → SheetRow → Except DbError (σ × Nat))
    (db : σ) (rows : List SheetRow) :
    (importRows upsert db rows).2.skipped = (importRows upsert db rows).2.errors.length ∧
    (importRows upsert db rows).2.inserted =
      ((upsertReports upsert db rows).filter (fun n => n == 1)).length ∧
    (importRows upsert db rows).2.updated =
      ((upsertReports upsert db rows).filter (fun n => n == 2)).length ∧
    (importRows upsert db rows).2.inserted + (importRows upsert db rows).2.updated +
        (importRows upsert db rows).2.skipped +
        ((upsertReports upsert db rows).filter (fun n => !(n == 1 || n == 2))).length =
      rows.length ∧
    (importRows upsert db rows).2.inserted + (importRows upsert db rows).2.updated +
        (importRows upsert db rows).2.skipped ≤ rows.length ∧
    ((importRows upsert db rows).2.inserted + (importRows upsert db rows).2.updated +
        (importRows upsert db rows).2.skipped = rows.length ↔
      ∀ n ∈ upsertReports upsert db rows, n = 1 ∨ n = 2) := by
  have h := importLoop_accounting upsert rows 0
    (db, { inserted := 0, updated := 0, skipped := 0, errors := [] })
  have hl := length_filter_one_two (upsertReports upsert db rows)
  simp only [List.length_nil, Nat.zero_add, Nat.add_zero] at h
  unfold importRows
  have hz : ((upsertReports upsert db rows).filter (fun n => !(n == 1 || n == 2))).length = 0 ↔
      ∀ n ∈ upsertReports upsert db rows, n = 1 ∨ n = 2 := by
    rw [List.length_eq_zero, List.filter_eq_nil_iff]
    constructor
    · intro hh n hn
      have := hh n hn
      by_cases h1 : n = 1
      · exact Or.inl h1
      · by_cases h2 : n = 2
        · exact Or.inr h2
        · exact absurd (by simp [h1, h2]) this
    · intro hh n hn
      rcases hh n hn with h1 | h2
      · simp [h1]
      · simp [h2]
  refine ⟨by omega, h.2.1, h.2.2.1, by omega, by omega, ?_⟩
  rw [← hz]
  omega

/-- An import of three rows whose second repeats the phone of the first, with
an upsert that reports no affected row for a stored phone: the second row is
counted nowhere, so the counters add up to two of the three rows; with the
upsert that reports two affected rows for it they add up to three. -/
theorem import_accounting_sample :
    (importRows unchangedUpsert []
        [[("Name", "Adam"), ("Phone", "80071")], [("Name", "Adam"), ("Phone", "80071")],
          [("Name", "Eve"), ("Phone", "")]]).2 =
      { inserted := 1, updated := 0, skipped := 1,
        errors := ["Row 4: missing name or phone"] } ∧
    upsertReports unchangedUpsert []
        [[("Name", "Adam"), ("Phone", "80071")], [("Name", "Adam"), ("Phone", "80071")],
          [("Name", "Eve"), ("Phone", "")]] = [1, 0] ∧
    (importRows sampleUpsert []
        [[("Name", "Adam"), ("Phone", "80071")], [("Name", "Adam"), ("Phone", "80071")],
          [("Name", "Eve"), ("Phone", "")]]).2 =
      { inserted := 1, updated := 1, skipped := 1,
        errors := ["Row 4: missing name or phone"] } := by
  refine ⟨by decide, by decide, by decide⟩

/-! ## Token round trip -/

theorem jwtVerify_of_falsy (token : Token) (env : Option String) (now : Nat)
    (h : falsyText env = true) :
    jwtVerify token env now = Except.error "secret or public key must be provided" := by
  simp [jwtVerify, h]

theorem JWT_SECRET_of_truthy (env : Option String) (h : falsyText env = false) :
    some (JWT_SECRET env) = env := by
  cases env with
  | none => simp [falsyText] at h
  | some s =>
    have hs : s ≠ "" := by simpa [falsyText] using h
    simp [JWT_SECRET, hs]

theorem verifyToken_jwtSign (env : Option String) (user : TokenPayload) (now later : Nat) :
    verifyToken env (some (jwtSign user (JWT_SECRET env) now)) later =
      if falsyText env = true then Except.error (401, "Invalid or expired token")
      else if now + TOKEN_TTL ≤ later then Except.error (401, "Invalid or expired token")
      else Except.ok { user := user, iat := now, exp := now + TOKEN_TTL } := by
  by_cases h : falsyText env = true
  · simp only [verifyToken, jwtVerify_of_falsy _ env later h, h, if_true]
  · have hf : falsyText env = false := by simpa using h
    have hk := JWT_SECRET_of_truthy env hf
    simp only [verifyToken, jwtVerify, hf, Bool.false_eq_true, if_false, jwtSign, hk, ne_eq,
      not_true_eq_false]
    by_cases he : now + TOKEN_TTL ≤ later
    · simp only [he, if_true]
    · simp only [he, if_false]

/-- C30: the token round trip fails when JWT_SECRET is not set.  Whenever a
login succeeds at the time `now`, its token is signed with
`process.env.JWT_SECRET || 'changeme-secret'` and carries the user's id,
name, email and role; `verifyToken`, which verifies with
`process.env.JWT_SECRET` alone, answers 401 'Invalid or expired token' at
every time when the variable is unset or empty, and also from the expiry of
the token on; otherwise it sets `req.user` to the signed payload together
with the times of issue and expiry.  The first sample user does log in with
the variable unset, and the token is then rejected. -/
theorem token_round_trip (E : Engine) (toLowerCase : String → String)
    (compare : String → String → Bool) (env : Option String) (now later : Nat)
    (users : List User) (body : Option LoginBody) (fault : Nat → Option DbError) :
    (match login E toLowerCase compare env now users body fault with
      | Reply.ok r =>
        r.token = jwtSign r.user (JWT_SECRET env) now ∧
        verifyToken env (some r.token) later =
          if falsyText env = true then Except.error (401, "Invalid or expired token")
          else if now + TOKEN_TTL ≤ later then Except.error (401, "Invalid or expired token")
          else Except.ok { user := r.user, iat := now, exp := now + TOKEN_TTL }
      | Reply.error _ _ => True) ∧
    login referenceEngine asciiLower sampleCompare none now sampleUsers (some sampleLogin)
        (fun _ => none) =
      Reply.ok
        { token := jwtSign { id := 1, name := "Root", email := "root@example.org",
                             role := "admin" } "changeme-secret" now,
          user := { id := 1, name := "Root", email := "root@example.org", role := "admin" } } ∧
    verifyToken none
        (some (jwtSign { id := 1, name := "Root", email := "root@example.org",
                         role := "admin" } "changeme-secret" now)) later =
      Except.error (401, "Invalid or expired token") ∧
    verifyToken (some "")
        (some (jwtSign { id := 1, name := "Root", email := "root@example.org",
                         role := "admin" } (JWT_SECRET (some "")) now)) later =
      Except.error (401, "Invalid or expired token") := by
  refine ⟨?_, ?_, ?_, ?_⟩
  · unfold login
    cases body with
    | none => trivial
    | some b =>
      dsimp only
      by_cases h1 : (normEmail toLowerCase b.email == "" || b.password.getD "" == "") = true
      · rw [if_pos h1]
        trivial
      · rw [if_neg h1]
        cases fault 0 with
        | some e => trivial
        | none =>
          cases (usersWithEmail E users (normEmail toLowerCase b.email)).head? with
          | none => trivial
          | some u =>
            dsimp only
            by_cases h2 : compare (b.password.getD "") u.password_hash = true
            · rw [if_pos h2]
              exact ⟨rfl, verifyToken_jwtSign env _ now later⟩
            · rw [if_neg h2]
              trivial
  · have hb : (normEmail asciiLower sampleLogin.email == "" ||
        sampleLogin.password.getD "" == "") = false := by decide
    have hu : (usersWithEmail referenceEngine sampleUsers
        (normEmail asciiLower sampleLogin.email)).head? =
        some { id := 1, name := "Root", email := "root@example.org", password_hash := "h1",
               role := "admin" } := by decide
    have hc : sampleCompare (sampleLogin.password.getD "") "h1" = true := by decide
    simp only [login, hb, hu, hc, Bool.false_eq_true, if_false, if_true, JWT_SECRET]
  · have h := verifyToken_jwtSign none
      { id := 1, name := "Root", email := "root@example.org", role := "admin" } now later
    simpa [JWT_SECRET, falsyText] using h
  · have h := verifyToken_jwtSign (some "")
      { id := 1, name := "Root", email := "root@example.org", role := "admin" } now later
    simpa [falsyText] using h

/-- With JWT_SECRET set to a non-empty text the token of the same login is
accepted within its seven days and rejected from then on. -/
theorem token_round_trip_sample :
    verifyToken (some "s3cret")
        (some (jwtSign { id := 1, name := "Root", email := "root@example.org",
                         role := "admin" } (JWT_SECRET (some "s3cret")) 1000)) 2000 =
      Except.ok { user := { id := 1, name := "Root", email := "root@example.org",
                            role := "admin" }, iat := 1000, exp := 605800 } ∧
    verifyToken (some "s3cret")
        (some (jwtSign { id := 1, name := "Root", email := "root@example.org",
                         role := "admin" } (JWT_SECRET (some "s3cret")) 1000)) 605800 =
      Except.error (401, "Invalid or expired token") ∧
    verifyToken (some "s3cret") none 2000 = Except.error (401, "Missing token") := by
  refine ⟨?_, ?_, rfl⟩
  · rw [verifyToken_jwtSign]
    simp [falsyText, TOKEN_TTL]
  · rw [verifyToken_jwtSign]
    simp [falsyText, TOKEN_TTL]

/-! ## Rounding to doubles -/

theorem exponentLoop_of_small (fuel m : Nat) (h : m < 2 ^ 53) : exponentLoop fuel m = 0 := by
  cases fuel with
  | zero => rfl
  | succ f => simp only [exponentLoop, h, if_true]

theorem exponentLoop_succ (fuel m : Nat) (h : ¬ m < 2 ^ 53) :
    exponentLoop (fuel + 1) m = exponentLoop fuel (m / 2) + 1 := by
  simp only [exponentLoop, h, if_false]

theorem div_pow_succ (m e : Nat) : m / 2 ^ (e + 1) = m / 2 / 2 ^ e := by
  rw [Nat.div_div_eq_div_mul, pow_succ, mul_comm]

theorem exponentLoop_quotient_ge :
    ∀ (fuel m : Nat), 2 ^ 52 ≤ m → 2 ^ 52 ≤ m / 2 ^ exponentLoop fuel m := by
  intro fuel
  induction fuel with
  | zero =>
    intro m h
    simpa [exponentLoop] using h
  | succ f ih =>
    intro m h
    by_cases hm : m < 2 ^ 53
    · rw [exponentLoop_of_small _ _ hm]
      simpa using h
    · rw [exponentLoop_succ f m hm, div_pow_succ]
      apply ih
      omega

theorem exponentLoop_quotient_lt :
    ∀ (fuel m : Nat), exponentLoop fuel m = fuel ∨ m / 2 ^ exponentLoop fuel m < 2 ^ 53 := by
  intro fuel
  induction fuel with
  | zero =>
    intro m
    exact Or.inl rfl
  | succ f ih =>
    intro m
    by_cases hm : m < 2 ^ 53
    · right
      rw [exponentLoop_of_small _ _ hm]
      simpa using hm
    · rw [exponentLoop_succ f m hm]
      rcases ih (m / 2) with h | h
      · left
        rw [h]
      · right
        rw [div_pow_succ]
        exact h

theorem binaryExponent_pos (m : Nat) (h : 2 ^ 53 ≤ m) : 1 ≤ binaryExponent m := by
  have hm : ¬ m < 2 ^ 53 := by omega
  have h1 := exponentLoop_succ 1099 m hm
  show 1 ≤ exponentLoop (1099 + 1) m
  rw [h1]
  omega

theorem roundNat_small (m : Nat) (h : m < 2 ^ 53) : roundNat m = some m := by
  simp only [roundNat, h, if_true]

theorem rounded_ge (m : Nat) (h : 2 ^ 53 ≤ m) (q' : Nat)
    (hq : m / 2 ^ binaryExponent m ≤ q') : 2 ^ 53 ≤ q' * 2 ^ binaryExponent m := by
  have h1 := exponentLoop_quotient_ge 1100 m (by omega)
  have h2 := binaryExponent_pos m h
  have h3 : 2 ^ 1 ≤ 2 ^ binaryExponent m := Nat.pow_le_pow_right (by decide) h2
  have h4 : 2 ^ 52 ≤ q' := le_trans h1 hq
  calc 2 ^ 53 = 2 ^ 52 * 2 ^ 1 := by norm_num
    _ ≤ q' * 2 ^ binaryExponent m := Nat.mul_le_mul h4 h3

theorem roundNat_large (m : Nat) (h : 2 ^ 53 ≤ m) :
    roundNat m = none ∨ ∃ k, roundNat m = some k ∧ 2 ^ 53 ≤ k := by
  have hm : ¬ m < 2 ^ 53 := by omega
  simp only [roundNat, hm, if_false]
  split_ifs with h1 h2 h2
  · exact Or.inl rfl
  · exact Or.inr ⟨_, rfl, rounded_ge m h _ (Nat.le_succ _)⟩
  · exact Or.inl rfl
  · exact Or.inr ⟨_, rfl, rounded_ge m h _ (le_refl _)⟩

theorem doubleLimit_eq : doubleLimit = 2 ^ 1024 := by
  simp only [doubleLimit, ← pow_add]

theorem rounded_huge (m : Nat) (h : doubleLimit ≤ m) (q' : Nat)
    (hq : m / 2 ^ binaryExponent m ≤ q') : doubleLimit ≤ q' * 2 ^ binaryExponent m := by
  have h0 : 2 ^ 52 ≤ m :=
    le_trans (Nat.pow_le_pow_right (by decide) (by decide)) (doubleLimit_eq ▸ h)
  have h1 := exponentLoop_quotient_ge 1100 m h0
  have h4 : 2 ^ 52 ≤ q' := le_trans h1 hq
  have he : 972 ≤ binaryExponent m := by
    rcases exponentLoop_quotient_lt 1100 m with h5 | h5
    · simp only [binaryExponent, h5]
      decide
    · by_contra hc
      have hc' : binaryExponent m ≤ 971 := by omega
      have h6 : m < 2 ^ 53 * 2 ^ binaryExponent m :=
        (Nat.div_lt_iff_lt_mul (Nat.two_pow_pos _)).mp h5
      have h7 : 2 ^ binaryExponent m ≤ 2 ^ 971 := pow_le_pow_right₀ (by norm_num) hc'
      have h8 : 2 ^ 53 * 2 ^ binaryExponent m ≤ 2 ^ 53 * 2 ^ 971 := Nat.mul_le_mul_left _ h7
      have h9 : 2 ^ 53 * 2 ^ 971 = doubleLimit := by rw [doubleLimit_eq, ← pow_add]
      exact absurd (lt_of_lt_of_le h6 (h9 ▸ h8)) (not_lt.mpr h)
  have h3 : 2 ^ 972 ≤ 2 ^ binaryExponent m := pow_le_pow_right₀ (by norm_num) he
  rw [doubleLimit_eq]
  calc 2 ^ 1024 = 2 ^ 52 * 2 ^ 972 := by rw [← pow_add]
    _ ≤ q' * 2 ^ binaryExponent m := Nat.mul_le_mul h4 h3

theorem roundNat_huge (m : Nat) (h : doubleLimit ≤ m) : roundNat m = none := by
  have hm : ¬ m < 2 ^ 53 :=
    not_lt.mpr (le_trans (Nat.pow_le_pow_right (by decide) (by decide)) (doubleLimit_eq ▸ h))
  simp only [roundNat, hm, if_false]
  split_ifs with h1 h2 h2
  · rfl
  · exact absurd (rounded_huge m h _ (Nat.le_succ _)) h2
  · rfl
  · exact absurd (rounded_huge m h _ (le_refl _)) h2
theorem toNumber_small (n : Int) (h : n.natAbs < 2 ^ 53) : toNumber n = JsNumber.finite n := by
  simp only [toNumber, roundNat_small _ h]
  congr 1
  split_ifs with hn <;> omega

theorem toNumber_cases (n : Int) :
    (n.natAbs < 2 ^ 53 ∧ toNumber n = JsNumber.finite n) ∨
    (2 ^ 53 ≤ n ∧ (toNumber n = JsNumber.posInf ∨
      ∃ k : Int, 2 ^ 53 ≤ k ∧ toNumber n = JsNumber.finite k)) ∨
    (n ≤ -2 ^ 53 ∧ (toNumber n = JsNumber.negInf ∨
      ∃ k : Int, k ≤ -2 ^ 53 ∧ toNumber n = JsNumber.finite k)) := by
  by_cases h : n.natAbs < 2 ^ 53
  · exact Or.inl ⟨h, toNumber_small n h⟩
  · have h' : 2 ^ 53 ≤ n.natAbs := by omega
    right
    by_cases hn : n < 0
    · right
      refine ⟨by omega, ?_⟩
      rcases roundNat_large _ h' with hr | ⟨k, hr, hk⟩
      · left
        simp only [toNumber, hr, hn, if_true]
      · right
        refine ⟨-(k : Int), by omega, ?_⟩
        simp only [toNumber, hr, hn, if_true]
    · left
      refine ⟨by omega, ?_⟩
      rcases roundNat_large _ h' with hr | ⟨k, hr, hk⟩
      · left
        simp only [toNumber, hr, hn, if_false]
      · right
        refine ⟨(k : Int), by omega, ?_⟩
        simp only [toNumber, hr, hn, if_false]

theorem toNumber_huge (n : Int) (h : (doubleLimit : Int) ≤ n) : toNumber n = JsNumber.posInf := by
  have h1 : doubleLimit ≤ n.natAbs := by omega
  have h2 : ¬ n < 0 := by omega
  simp only [toNumber, roundNat_huge _ h1, h2, if_false]

theorem atLeast_iff (x : JsNumber) (c : Int) :
    x.atLeast c = true ↔ x = JsNumber.posInf ∨ ∃ k : Int, c ≤ k ∧ x = JsNumber.finite k := by
  cases x <;> simp [JsNumber.atLeast]

theorem toNumber_nonneg (n : Int) (h : 0 ≤ n) : (toNumber n).atLeast 0 = true := by
  rw [atLeast_iff]
  rcases toNumber_cases n with ⟨_, h1⟩ | ⟨_, h1 | ⟨k, hk, h1⟩⟩ | ⟨h0, _⟩
  · exact Or.inr ⟨n, h, h1⟩
  · exact Or.inl h1
  · exact Or.inr ⟨k, by omega, h1⟩
  · omega

theorem mathMax_finite (a b : Int) :
    mathMax (JsNumber.finite a) (JsNumber.finite b) = JsNumber.finite (max a b) := by
  simp only [mathMax, JsNumber.isNaN, JsNumber.lt, Bool.or_self, Bool.false_eq_true, if_false,
    decide_eq_true_eq]
  split_ifs with h
  · rw [max_eq_right (le_of_lt h)]
  · rw [max_eq_left (not_lt.mp h)]

theorem mathMin_finite (a b : Int) :
    mathMin (JsNumber.finite a) (JsNumber.finite b) = JsNumber.finite (min a b) := by
  simp only [mathMin, JsNumber.isNaN, JsNumber.lt, Bool.or_self, Bool.false_eq_true, if_false,
    decide_eq_true_eq]
  split_ifs with h
  · rw [min_eq_right (le_of_lt h)]
  · rw [min_eq_left (not_lt.mp h)]

/-- The number `Math.max(1, x || d)` of a parsed parameter in doubles is the
exact one below 2^53, and at least 2^53 or Infinity from there on. -/
theorem max_orElse_number (x : Option Int) (d : Int) (hd1 : 1 ≤ d) (hd2 : d < 2 ^ 53) :
    (max 1 (orDefault x d) < 2 ^ 53 →
      mathMax (JsNumber.finite 1)
          ((match x with
            | none => JsNumber.nan
            | some n => toNumber n).orElse (JsNumber.finite d)) =
        JsNumber.finite (max 1 (orDefault x d))) ∧
    (2 ^ 53 ≤ max 1 (orDefault x d) →
      mathMax (JsNumber.finite 1)
          ((match x with
            | none => JsNumber.nan
            | some n => toNumber n).orElse (JsNumber.finite d)) = JsNumber.posInf ∨
      ∃ k : Int, 2 ^ 53 ≤ k ∧
        mathMax (JsNumber.finite 1)
          ((match x with
            | none => JsNumber.nan
            | some n => toNumber n).orElse (JsNumber.finite d)) = JsNumber.finite k) := by
  cases x with
  | none =>
    simp only [orDefault, JsNumber.orElse, mathMax_finite]
    refine ⟨fun _ => trivial, fun h => ?_⟩
    rw [max_eq_right hd1] at h
    omega
  | some n =>
    simp only [orDefault]
    by_cases h0 : n = 0
    · subst h0
      have ht : toNumber 0 = JsNumber.finite 0 := toNumber_small 0 (by decide)
      simp only [ht, JsNumber.orElse, if_true, mathMax_finite]
      refine ⟨fun _ => trivial, fun h => ?_⟩
      rw [max_eq_right hd1] at h
      omega
    · simp only [h0, if_false]
      rcases toNumber_cases n with ⟨hs, h1⟩ | ⟨hl, h1 | ⟨k, hk, h1⟩⟩ | ⟨hl, h1 | ⟨k, hk, h1⟩⟩
      · simp only [h1, JsNumber.orElse, h0, if_false, mathMax_finite]
        refine ⟨fun _ => trivial, fun h => ?_⟩
        rcases le_total 1 n with h2 | h2
        · rw [max_eq_right h2] at h
          omega
        · rw [max_eq_left h2] at h
          omega
      · simp only [h1, JsNumber.orElse]
        refine ⟨fun h => ?_, fun _ => Or.inl rfl⟩
        rw [max_eq_right (by omega)] at h
        omega
      · have hk0 : k ≠ 0 := by omega
        simp only [h1, JsNumber.orElse, hk0, if_false, mathMax_finite]
        refine ⟨fun h => ?_, fun _ => Or.inr ⟨max 1 k, ?_, rfl⟩⟩
        · rw [max_eq_right (by omega)] at h
          omega
        · rw [max_eq_right (by omega)]
          exact hk
      · simp only [h1, JsNumber.orElse]
        refine ⟨fun _ => ?_, fun h => ?_⟩
        · rw [max_eq_left (by omega)]
          rfl
        · rw [max_eq_left (by omega)] at h
          omega
      · have hk0 : k ≠ 0 := by omega
        simp only [h1, JsNumber.orElse, hk0, if_false, mathMax_finite]
        refine ⟨fun _ => ?_, fun h => ?_⟩
        · rw [max_eq_left (by omega), max_eq_left (by omega)]
        · rw [max_eq_left (by omega)] at h
          omega
/-! ## The page window in doubles -/

theorem numberWindow_pg_def (page per_page : String) :
    (numberWindow page per_page).pg =
      mathMax (JsNumber.finite 1)
        ((match parseInt page with
          | none => JsNumber.nan
          | some n => toNumber n).orElse (JsNumber.finite 1)) := rfl

theorem numberWindow_offset_def (page per_page : String) :
    (numberWindow page per_page).offset =
      ((numberWindow page per_page).pg.sub (JsNumber.finite 1)).mul
        (numberWindow page per_page).perPage := rfl

theorem parseIntNumberParam_some (s : String) :
    parseIntNumberParam (some s) =
      (match parseInt s with
        | none => JsNumber.nan
        | some n => toNumber n) := rfl

theorem reportNumberWindow_pg_def (page per_page : Option String) :
    (reportNumberWindow page per_page).pg =
      if ((parseIntNumberParam page).isNaN ||
          (parseIntNumberParam page).lt (JsNumber.finite 1)) = true then JsNumber.finite 1
      else parseIntNumberParam page := rfl

theorem reportNumberWindow_offset_def (page per_page : Option String) :
    (reportNumberWindow page per_page).offset =
      ((reportNumberWindow page per_page).pg.sub (JsNumber.finite 1)).mul
        (reportNumberWindow page per_page).perPage := rfl

theorem numberWindow_pg (page per_page : String) :
    ((pageWindow page per_page).pg < 2 ^ 53 →
      (numberWindow page per_page).pg = JsNumber.finite (pageWindow page per_page).pg) ∧
    (numberWindow page per_page).pg.atLeast 1 = true := by
  have h := max_orElse_number (parseInt page) 1 (by decide) (by decide)
  have hp : (pageWindow page per_page).pg = max 1 (orDefault (parseInt page) 1) := rfl
  have hn : (numberWindow page per_page).pg =
      mathMax (JsNumber.finite 1)
        ((match parseInt page with
          | none => JsNumber.nan
          | some n => toNumber n).orElse (JsNumber.finite 1)) := rfl
  rw [hp, hn]
  refine ⟨h.1, ?_⟩
  rw [atLeast_iff]
  by_cases hs : max 1 (orDefault (parseInt page) 1) < 2 ^ 53
  · exact Or.inr ⟨_, le_max_left _ _, h.1 hs⟩
  · rcases h.2 (not_lt.mp hs) with h1 | ⟨k, hk, h1⟩
    · exact Or.inl h1
    · exact Or.inr ⟨k, by omega, h1⟩

theorem numberWindow_perPage (page per_page : String) :
    (numberWindow page per_page).perPage =
      JsNumber.finite (pageWindow page per_page).perPage := by
  have h := max_orElse_number (parseInt per_page) 10 (by decide) (by decide)
  have hp : (pageWindow page per_page).perPage =
      min (max 1 (orDefault (parseInt per_page) 10)) 100 := rfl
  have hn : (numberWindow page per_page).perPage =
      mathMin (mathMax (JsNumber.finite 1)
        ((match parseInt per_page with
          | none => JsNumber.nan
          | some n => toNumber n).orElse (JsNumber.finite 10))) (JsNumber.finite 100) := rfl
  rw [hp, hn]
  by_cases hs : max 1 (orDefault (parseInt per_page) 10) < 2 ^ 53
  · rw [h.1 hs, mathMin_finite]
  · have hl : (2 : Int) ^ 53 ≤ max 1 (orDefault (parseInt per_page) 10) := not_lt.mp hs
    have hm : min (max 1 (orDefault (parseInt per_page) 10)) 100 = 100 :=
      min_eq_right (le_trans (by decide) hl)
    rw [hm]
    rcases h.2 hl with h1 | ⟨k, hk, h1⟩
    · rw [h1]
      rfl
    · rw [h1, mathMin_finite, min_eq_right (by omega)]

theorem offset_atLeast (x : JsNumber) (p : Int) (hx : x.atLeast 1 = true) (hp : 1 ≤ p) :
    ((x.sub (JsNumber.finite 1)).mul (JsNumber.finite p)).atLeast 0 = true := by
  have hp0 : p ≠ 0 := by omega
  have hpn : ¬ p < 0 := by omega
  rw [atLeast_iff] at hx
  rcases hx with rfl | ⟨k, hk, rfl⟩
  · simp [JsNumber.sub, JsNumber.mul, JsNumber.infTimes, hp0, hpn, JsNumber.atLeast]
  · have h1 := toNumber_nonneg (k - 1) (by omega)
    rw [atLeast_iff] at h1
    have hs : (JsNumber.finite k).sub (JsNumber.finite 1) = toNumber (k - 1) := rfl
    rw [hs]
    rcases h1 with h1 | ⟨j, hj, h1⟩
    · rw [h1]
      simp [JsNumber.mul, JsNumber.infTimes, hp0, hpn, JsNumber.atLeast]
    · rw [h1]
      exact toNumber_nonneg (j * p) (mul_nonneg hj (by omega))

theorem offset_exact (a p : Int) (ha : 1 ≤ a) (hp : 1 ≤ p) (h : a * p < 2 ^ 53) :
    ((JsNumber.finite a).sub (JsNumber.finite 1)).mul (JsNumber.finite p) =
      JsNumber.finite ((a - 1) * p) := by
  have h1 : a ≤ a * p := le_mul_of_one_le_right (by omega) hp
  have h2 : (a - 1) * p ≤ a * p := mul_le_mul_of_nonneg_right (by omega) (by omega)
  have h3 : 0 ≤ (a - 1) * p := mul_nonneg (by omega) (by omega)
  have hs : (JsNumber.finite a).sub (JsNumber.finite 1) = toNumber (a - 1) := rfl
  rw [hs, toNumber_small (a - 1) (by omega)]
  have hm : (JsNumber.finite (a - 1)).mul (JsNumber.finite p) = toNumber ((a - 1) * p) := rfl
  rw [hm, toNumber_small _ (by omega)]

theorem reportNumberWindow_pg (page per_page : Option String) :
    ((reportWindow page per_page).pg < 2 ^ 53 →
      (reportNumberWindow page per_page).pg =
        JsNumber.finite (reportWindow page per_page).pg) ∧
    (reportNumberWindow page per_page).pg.atLeast 1 = true := by
  have hp : (reportWindow page per_page).pg =
      (match parseIntParam page with
        | none => 1
        | some n => if n < 1 then 1 else n) := rfl
  have hn : (reportNumberWindow page per_page).pg =
      if ((parseIntNumberParam page).isNaN ||
          (parseIntNumberParam page).lt (JsNumber.finite 1)) = true then JsNumber.finite 1
      else parseIntNumberParam page := rfl
  rw [hp, hn]
  unfold parseIntNumberParam
  cases parseIntParam page with
  | none => simp [JsNumber.isNaN, JsNumber.atLeast]
  | some n =>
    rcases toNumber_cases n with ⟨hs, h1⟩ | ⟨hl, h1 | ⟨k, hk, h1⟩⟩ | ⟨hl, h1 | ⟨k, hk, h1⟩⟩
    · simp only [h1, JsNumber.isNaN, JsNumber.lt, Bool.false_or, decide_eq_true_eq]
      by_cases hn1 : n < 1
      · simp [hn1, JsNumber.atLeast]
      · simp only [hn1, if_false, JsNumber.atLeast, decide_eq_true_eq]
        exact ⟨fun _ => trivial, by omega⟩
    · have hn1 : ¬ n < 1 := by omega
      simp only [h1, JsNumber.isNaN, JsNumber.lt, Bool.or_self, Bool.false_eq_true, if_false,
        hn1, JsNumber.atLeast, and_true]
      intro h
      omega
    · have hn1 : ¬ n < 1 := by omega
      have hk1 : ¬ k < 1 := by omega
      simp only [h1, JsNumber.isNaN, JsNumber.lt, Bool.false_or, decide_eq_true_eq, hk1,
        if_false, hn1, JsNumber.atLeast]
      refine ⟨fun h => ?_, by omega⟩
      omega
    · have hn1 : n < 1 := by omega
      simp [h1, JsNumber.isNaN, JsNumber.lt, hn1, JsNumber.atLeast]
    · have hn1 : n < 1 := by omega
      have hk1 : k < 1 := by omega
      simp [h1, JsNumber.isNaN, JsNumber.lt, hn1, hk1, JsNumber.atLeast]

theorem reportNumberWindow_perPage (page per_page : Option String) :
    (reportNumberWindow page per_page).perPage =
      JsNumber.finite (reportWindow page per_page).perPage := by
  have hp : (reportWindow page per_page).perPage =
      (match parseIntParam per_page with
        | none => 10
        | some n => if n < 1 ∨ n > 200 then 10 else n) := rfl
  have hn : (reportNumberWindow page per_page).perPage =
      if ((parseIntNumberParam per_page).isNaN ||
          (parseIntNumberParam per_page).lt (JsNumber.finite 1) ||
          (JsNumber.finite 200).lt (parseIntNumberParam per_page)) = true
      then JsNumber.finite 10
      else parseIntNumberParam per_page := rfl
  rw [hp, hn]
  unfold parseIntNumberParam
  cases parseIntParam per_page with
  | none => simp [JsNumber.isNaN]
  | some n =>
    rcases toNumber_cases n with ⟨hs, h1⟩ | ⟨hl, h1 | ⟨k, hk, h1⟩⟩ | ⟨hl, h1 | ⟨k, hk, h1⟩⟩
    · simp only [h1, JsNumber.isNaN, JsNumber.lt, Bool.false_or, Bool.or_eq_true,
        decide_eq_true_eq, gt_iff_lt]
      split_ifs <;> rfl
    · have hn1 : n < 1 ∨ n > 200 := by omega
      simp [h1, JsNumber.isNaN, JsNumber.lt, hn1]
    · have hn1 : n < 1 ∨ n > 200 := by omega
      have hk1 : (200 : Int) < k := by omega
      simp [h1, JsNumber.isNaN, JsNumber.lt, hn1, hk1]
    · have hn1 : n < 1 ∨ n > 200 := by omega
      simp [h1, JsNumber.isNaN, JsNumber.lt, hn1]
    · have hn1 : n < 1 ∨ n > 200 := by omega
      have hk1 : k < 1 := by omega
      simp [h1, JsNumber.isNaN, JsNumber.lt, hn1, hk1]

/-- C28: page and offset are well-formed as long as the numbers stay exact.
The handlers compute in doubles.  For every raw page and per_page, in the
students list and the attendance-by-session list and likewise in the
students-by-count report: per_page is the normalised integer; the page is
never NaN and never below 1, and the offset is never NaN and never negative,
but either can be Infinity or a rounded value.  When page times per_page is
below 2^53, the page is max(1, n) for the non-zero integer n that parseInt
reads and 1 when it reads none or 0, an integer of at least 1, and the offset
is (page - 1) * per_page exactly, at least 0 and a multiple of per_page. -/
theorem page_and_offset_wellformed (page per_page : String)
    (rpage rper_page : Option String) :
    ((numberWindow page per_page).perPage =
        JsNumber.finite (pageWindow page per_page).perPage ∧
      (numberWindow page per_page).pg.atLeast 1 = true ∧
      (numberWindow page per_page).offset.atLeast 0 = true ∧
      ((pageWindow page per_page).pg * (pageWindow page per_page).perPage < 2 ^ 53 →
        numberWindow page per_page = (pageWindow page per_page).toNumbers ∧
        (pageWindow page per_page).pg =
          (match parseInt page with
            | none => 1
            | some n => if n = 0 then 1 else max 1 n) ∧
        1 ≤ (pageWindow page per_page).pg ∧
        (pageWindow page per_page).offset =
          ((pageWindow page per_page).pg - 1) * (pageWindow page per_page).perPage ∧
        0 ≤ (pageWindow page per_page).offset ∧
        ∃ k : Nat, (pageWindow page per_page).offset =
          (k : Int) * (pageWindow page per_page).perPage)) ∧
    ((reportNumberWindow rpage rper_page).perPage =
        JsNumber.finite (reportWindow rpage rper_page).perPage ∧
      (reportNumberWindow rpage rper_page).pg.atLeast 1 = true ∧
      (reportNumberWindow rpage rper_page).offset.atLeast 0 = true ∧
      ((reportWindow rpage rper_page).pg * (reportWindow rpage rper_page).perPage < 2 ^ 53 →
        reportNumberWindow rpage rper_page = (reportWindow rpage rper_page).toNumbers ∧
        (reportWindow rpage rper_page).pg =
          (match parseIntParam rpage with
            | none => 1
            | some n => if n = 0 then 1 else max 1 n) ∧
        1 ≤ (reportWindow rpage rper_page).pg ∧
        (reportWindow rpage rper_page).offset =
          ((reportWindow rpage rper_page).pg - 1) * (reportWindow rpage rper_page).perPage ∧
        0 ≤ (reportWindow rpage rper_page).offset ∧
        ∃ k : Nat, (reportWindow rpage rper_page).offset =
          (k : Int) * (reportWindow rpage rper_page).perPage)) := by
  have hp1 := pageWindow_pg_pos page per_page
  have hp2 := (pageWindow_perPage_bounds page per_page).1
  have hr1 := reportWindow_pg_pos rpage rper_page
  have hr2 := (reportWindow_perPage_bounds rpage rper_page).1
  have hw := window_wellformed (pageWindow page per_page).pg (pageWindow page per_page).perPage
    (pageWindow page per_page).offset hp1 hp2 rfl
  have hv := window_wellformed (reportWindow rpage rper_page).pg
    (reportWindow rpage rper_page).perPage (reportWindow rpage rper_page).offset hr1 hr2 rfl
  have hnp := numberWindow_perPage page per_page
  have hng := numberWindow_pg page per_page
  have hrp := reportNumberWindow_perPage rpage rper_page
  have hrg := reportNumberWindow_pg rpage rper_page
  have ho : (numberWindow page per_page).offset =
      ((numberWindow page per_page).pg.sub (JsNumber.finite 1)).mul
        (numberWindow page per_page).perPage := rfl
  have hro : (reportNumberWindow rpage rper_page).offset =
      ((reportNumberWindow rpage rper_page).pg.sub (JsNumber.finite 1)).mul
        (reportNumberWindow rpage rper_page).perPage := rfl
  refine ⟨⟨hnp, hng.2, ?_, fun hb => ⟨?_, ?_, hp1, rfl, hw.1, ?_⟩⟩,
    ⟨hrp, hrg.2, ?_, fun hb => ⟨?_, ?_, hr1, rfl, hv.1, ?_⟩⟩⟩
  · rw [ho, hnp]
    exact offset_atLeast _ _ hng.2 hp2
  · have hlt : (pageWindow page per_page).pg < 2 ^ 53 :=
      lt_of_le_of_lt (le_mul_of_one_le_right (by omega) hp2) hb
    have hoff := offset_exact _ _ hp1 hp2 hb
    have hg := hng.1 hlt
    rw [hg, hnp] at ho
    rw [hoff] at ho
    cases hw' : numberWindow page per_page with
    | mk a b c =>
      rw [hw'] at hg hnp ho
      simp only at hg hnp ho
      rw [hg, hnp, ho]
      rfl
  · rw [pageWindow_pg_eq]
    cases parseInt page with
    | none => rfl
    | some n =>
      simp only
      split_ifs
      · rfl
      · exact max_comm _ _
  · obtain ⟨k, hk, _⟩ := hw.2
    exact ⟨k, hk⟩
  · rw [hro, hrp]
    exact offset_atLeast _ _ hrg.2 hr2
  · have hlt : (reportWindow rpage rper_page).pg < 2 ^ 53 :=
      lt_of_le_of_lt (le_mul_of_one_le_right (by omega) hr2) hb
    have hoff := offset_exact _ _ hr1 hr2 hb
    have hg := hrg.1 hlt
    rw [hg, hrp] at hro
    rw [hoff] at hro
    cases hw' : reportNumberWindow rpage rper_page with
    | mk a b c =>
      rw [hw'] at hg hrp hro
      simp only at hg hrp hro
      rw [hg, hrp, hro]
      rfl
  · rw [reportWindow_pg_eq]
    cases parseIntParam rpage with
    | none => rfl
    | some n =>
      simp only
      split_ifs with h0
      · rw [h0]
        rfl
      · exact max_comm _ _
  · obtain ⟨k, hk, _⟩ := hv.2
    exact ⟨k, hk⟩

set_option maxRecDepth 100000 in
/-- A page of 310 nines is read by `parseInt` as a number beyond the doubles:
the page and the offset of the two lists and of the report are Infinity, no
integers.  And for page=9007199254740993 with per_page=7 the page is rounded
to 2^53 and the offset (2^53 - 1) * 7 to 63050394783186936, which is no
multiple of 7. -/
theorem page_and_offset_counterexample :
    (numberWindow hugePage "10").pg = JsNumber.posInf ∧
    (numberWindow hugePage "10").offset = JsNumber.posInf ∧
    (reportNumberWindow (some hugePage) none).pg = JsNumber.posInf ∧
    (reportNumberWindow (some hugePage) none).offset = JsNumber.posInf ∧
    numberWindow "9007199254740993" "7" =
      ⟨JsNumber.finite 9007199254740992, JsNumber.finite 7,
        JsNumber.finite 63050394783186936⟩ ∧
    ¬ ((7 : Int) ∣ 63050394783186936) := by
  have hp : parseInt hugePage = some ((digitsValue (List.replicate 310 '9') : Nat) : Int) := by
    decide
  have hl : doubleLimit ≤ digitsValue (List.replicate 310 '9') := by decide
  have ht := toNumber_huge (digitsValue (List.replicate 310 '9')) (by exact_mod_cast hl)
  have h1 : (numberWindow hugePage "10").pg = JsNumber.posInf := by
    rw [numberWindow_pg_def, hp]
    simp only [ht]
    rfl
  have h2 : (numberWindow hugePage "10").perPage = JsNumber.finite 10 := by
    rw [numberWindow_perPage]
    rfl
  have hq : parseIntNumberParam (some hugePage) = JsNumber.posInf := by
    rw [parseIntNumberParam_some, hp]
    simp only [ht]
  have h3 : (reportNumberWindow (some hugePage) none).pg = JsNumber.posInf := by
    rw [reportNumberWindow_pg_def, hq]
    rfl
  have h4 : (reportNumberWindow (some hugePage) none).perPage = JsNumber.finite 10 := by
    rw [reportNumberWindow_perPage]
    rfl
  refine ⟨h1, ?_, h3, ?_, by decide, by decide⟩
  · rw [numberWindow_offset_def, h1, h2]
    rfl
  · rw [reportNumberWindow_offset_def, h3, h4]
    rfl

/-- The window in doubles for some raw values with a page below 2^53. -/
theorem page_and_offset_number_sample :
    numberWindow "-3" "0" = ⟨JsNumber.finite 1, JsNumber.finite 10, JsNumber.finite 0⟩ ∧
    numberWindow "4abc" "25" = ⟨JsNumber.finite 4, JsNumber.finite 25, JsNumber.finite 75⟩ ∧
    numberWindow "3" "1000" = (pageWindow "3" "1000").toNumbers ∧
    reportNumberWindow (some "4abc") (some "1000") =
      ⟨JsNumber.finite 4, JsNumber.finite 10, JsNumber.finite 30⟩ := by
  refine ⟨by decide, by decide, by decide, by decide⟩

end AttendanceSystem
